import Mathlib

/-!
# adminWeb: operator console for a token-issuance contract

A shallow embedding of the JavaScript sources `utils.js`, `wallet.js`,
`minting.js`, `settings.js` and `queries.js`, and the properties of the
specification checked against them.

Conventions of the embedding.

* A JavaScript string is a Lean `String`, read through its list of characters.
  Every pattern in the sources is ASCII, so a match never depends on how a
  character outside the Basic Multilingual Plane is split into code units.
* A JavaScript value that reaches the code from outside (a raw failure, a
  form value) is a `JSVal`.
* A call that may throw returns `Except JSVal α`; `Except.error e` is `throw e`.
-/

namespace AdminWeb

/-! ## JavaScript values -/

/-- The JavaScript values the embedding distinguishes: the primitives
`undefined`, `null`, booleans, integer-valued numbers and strings, and plain
objects. An object is its list of own properties, each
either holding a value or guarded by a getter that throws (`none`), together
with the outcome of converting the object to a string (`none`: the conversion
throws). Objects carry no methods of `String.prototype`. -/
inductive JSVal where
  | undefined : JSVal
  | null : JSVal
  | bool (b : Bool) : JSVal
  | num (n : Int) : JSVal
  | str (s : String) : JSVal
  | obj (props : List (String × Option JSVal)) (toStr : Option String) : JSVal

namespace JSVal

/-- ToBoolean. -/
def truthy : JSVal → Bool
  | undefined => false
  | null => false
  | bool b => b
  | num n => n != 0
  | str s => s.data != []
  | obj _ _ => true

/-- The test `typeof v === 'string'`. -/
def isString : JSVal → Bool
  | str _ => true
  | _ => false

end JSVal

/-! ## utils.js: validators -/

/-- The character class `[a-fA-F0-9]`. -/
def hexClass (c : Char) : Bool :=
  ('a' ≤ c && c ≤ 'f') || ('A' ≤ c && c ≤ 'F') || ('0' ≤ c && c ≤ '9')

/-- The regular expression fragment `C{n}$`: exactly `n` characters of the
class `p`, then the end of the input (no `m` flag, so `$` is the end of the
whole string). -/
def matchRunToEnd (p : Char → Bool) : Nat → List Char → Bool
  | 0, [] => true
  | 0, _ :: _ => false
  | _ + 1, [] => false
  | n + 1, c :: cs => p c && matchRunToEnd p n cs

/-- The test `/^0x[a-fA-F0-9]{40}$/.test(s)` on the characters of `s`. -/
def addressRegexTest : List Char → Bool
  | a :: b :: rest => a == '0' && b == 'x' && matchRunToEnd hexClass 40 rest
  | _ => false

/-- `isValidEthereumAddress(address)` of utils.js:
`if (!address || typeof address !== 'string') return false;` and then the
regular expression test. -/
def isValidEthereumAddress (address : JSVal) : Bool :=
  if !address.truthy || !address.isString then false
  else
    match address with
    | .str s => addressRegexTest s.data
    | _ => false

/-! ## utils.js: arrays -/

/-- `Set.prototype.add` on the insertion-ordered contents of a `Set` of
strings: a string already present (same value) is not added again. -/
def setAdd (acc : List String) (x : String) : List String :=
  if x ∈ acc then acc else acc ++ [x]

/-- `uniqueArray(array)` of utils.js, `[...new Set(array)]`, on an array of
strings: the elements are added to a fresh `Set` from left to right and the
set is spread in insertion order. -/
def uniqueArray (array : List String) : List String :=
  array.foldl setAdd []

/-! ## JavaScript strings and property access -/

/-- A `TypeError` raised by the language itself (a property read on
`undefined`, a call of something that is not a function, a getter that
throws): an object with a `message`. -/
def typeError (m : String) : JSVal :=
  .obj [("message", some (.str m))] (some ("TypeError: " ++ m))

/-- An object made by `new Error(m)`: it has a `message`, no `code`, and
converts to `Error: m`, or to `Error` when the message is empty. -/
def mkError (m : String) : JSVal :=
  .obj [("message", some (.str m))] (some (if m.data == [] then "Error" else "Error: " ++ m))

/-- The property read `v.k` for the property names the sources read off a raw
failure (`code`, `message`, `data`, `error`): a `TypeError` on `undefined` and
`null`, `undefined` on the other primitives (their wrappers have no such
property), and on an object the own property, which may be absent
(`undefined`) or guarded by a getter that throws. -/
def getProp (v : JSVal) (k : String) : Except JSVal JSVal :=
  match v with
  | .undefined => .error (typeError "Cannot read properties of undefined")
  | .null => .error (typeError "Cannot read properties of null")
  | .obj props _ =>
    match props.lookup k with
    | none => .ok .undefined
    | some none => .error (typeError "getter")
    | some (some w) => .ok w
  | _ => .ok .undefined

/-- The optional read `v?.k`: `undefined` when `v` is `undefined` or `null`. -/
def optProp (v : JSVal) (k : String) : Except JSVal JSVal :=
  match v with
  | .undefined => .ok .undefined
  | .null => .ok .undefined
  | _ => getProp v k

/-- The optional chain `v?.k1?.k2`. -/
def optChain (v : JSVal) (k1 k2 : String) : Except JSVal JSVal :=
  match optProp v k1 with
  | .error x => .error x
  | .ok w => optProp w k2

/-- Decimal digits of a natural number, most significant first, by structural
recursion on a bound. -/
def natDigits : Nat → Nat → List Char
  | 0, _ => []
  | fuel + 1, n =>
    if n < 10 then [Char.ofNat (48 + n)]
    else natDigits fuel (n / 10) ++ [Char.ofNat (48 + n % 10)]

/-- The decimal text of a natural number, as a template literal prints a small
non-negative integer. -/
def natToString (n : Nat) : String := ⟨natDigits (n + 1) n⟩

/-- The decimal text of an integer. -/
def intToString : Int → String
  | .ofNat n => natToString n
  | .negSucc n => ⟨'-' :: (natToString (n + 1)).data⟩

/-- The number of binary digits of a natural number, by structural recursion
on a bound. -/
def bitLength : Nat → Nat → Nat
  | 0, _ => 0
  | fuel + 1, m => if m = 0 then 0 else bitLength fuel (m / 2) + 1

/-- The double nearest to a natural number, ties going to the even
significand: the number itself below `2^53`, a multiple of a power of two with
a significand of 53 binary digits above, and `none` (`Infinity`) from `2^1024`
on. -/
def roundToDouble (m : Nat) : Option Nat :=
  if m < 9007199254740992 then some m
  else
    let unit := 2 ^ (bitLength m m - 53)
    let q := if 2 * (m % unit) > unit ∨ (2 * (m % unit) = unit ∧ (m / unit) % 2 = 1)
      then m / unit + 1 else m / unit
    if q * unit ≥ 2 ^ 1024 then none else some (q * unit)

/-- The decimal with the significant digits of `v` above the place `10^e` and
zeros below that rounds to the double `v`, if there is one: of the two
neighbours of `v` on that grid the closer one, and on a tie the one whose last
significant digit is even. -/
def shortestAt (v e : Nat) : Option Nat :=
  let lo := v / 10 ^ e * 10 ^ e
  let hi := lo + 10 ^ e
  let okLo := roundToDouble lo == some v
  let okHi := roundToDouble hi == some v
  if okLo && okHi then
    if v - lo < hi - v then some lo
    else if hi - v < v - lo then some hi
    else if (lo / 10 ^ e) % 2 == 0 then some lo else some hi
  else if okLo then some lo
  else if okHi then some hi
  else none

/-- The decimal with the fewest significant digits that rounds to the double
`v`; 17 significant digits always suffice. -/
def shortestDecimal (v : Nat) : Nat :=
  ((List.range 17).findSome? fun i =>
    shortestAt v ((natDigits (v + 1) v).length - (i + 1))).getD v

/-- Drop the zeros at the end of a list of digits. -/
def dropTrailingZeros (digits : List Char) : List Char :=
  (digits.reverse.dropWhile fun c => c == '0').reverse

/-- How `Number.prototype.toString` prints the decimal `c` chosen for a double:
all its digits below `10^21`, and from there on the first significant digit, a
point and the other significant digits if there are any, `e+` and the
exponent. -/
def printDecimal (c : Nat) : String :=
  if c < 10 ^ 21 then natToString c
  else
    match dropTrailingZeros (natDigits (c + 1) c) with
    | [] => "0"
    | [d] => ⟨d :: "e+".data ++ (natToString ((natDigits (c + 1) c).length - 1)).data⟩
    | d :: more =>
      ⟨d :: '.' :: more ++ "e+".data ++ (natToString ((natDigits (c + 1) c).length - 1)).data⟩

/-- ToString of a number given by an integer. An integer that is not a double
stands for the double nearest to it. Below `2^53` the text is the decimal text
of the integer; above, it is the shortest decimal that rounds to the double,
printed with zeros up to `10^21` and with an exponent from there on. -/
def numberToString (n : Int) : String :=
  if n.natAbs < 9007199254740992 then intToString n
  else
    match roundToDouble n.natAbs with
    | none => if n < 0 then "-Infinity" else "Infinity"
    | some v => (if n < 0 then "-" else "") ++ printDecimal (shortestDecimal v)

/-- ToString, as applied by `String(v)`, by `RegExp.prototype.test` to its
argument and by `+` with a string: it throws on an object whose conversion
throws. -/
def toStringJS : JSVal → Except JSVal String
  | .undefined => .ok "undefined"
  | .null => .ok "null"
  | .bool true => .ok "true"
  | .bool false => .ok "false"
  | .num n => .ok (numberToString n)
  | .str s => .ok s
  | .obj _ (some t) => .ok t
  | .obj _ none => .error (typeError "Cannot convert object to primitive value")

/-- Lower case of an ASCII letter; other characters are left alone. -/
def asciiLower (c : Char) : Char :=
  if 'A' ≤ c ∧ c ≤ 'Z' then Char.ofNat (c.toNat + 32) else c

/-- `String.prototype.toLowerCase` on ASCII letters. The sources use it only
before `.includes("user rejected")` and before comparing valid addresses, and
no character outside ASCII has one of the letters of that needle, or a
hexadecimal digit, as its lower case. -/
def toLowerCase (s : List Char) : List Char := s.map asciiLower

/-- The literal `pat` matches at the start of `s`, character by character. -/
def startsWith : List Char → List Char → Bool
  | [], _ => true
  | _ :: _, [] => false
  | p :: ps, c :: cs => p == c && startsWith ps cs

/-- `s.includes(pat)`: the literal occurs somewhere in `s`. -/
def includes (s pat : List Char) : Bool :=
  match s with
  | [] => startsWith pat []
  | c :: cs => startsWith pat (c :: cs) || includes cs pat

/-- An ASCII literal matches at the start of `s` under the `i` flag. Without the
`u` flag a character outside ASCII never matches an ASCII letter, so comparing
ASCII lower cases is exact. -/
def startsWithCI : List Char → List Char → Bool
  | [], _ => true
  | _ :: _, [] => false
  | p :: ps, c :: cs => asciiLower p == asciiLower c && startsWithCI ps cs

/-- `/pat/i.test(s)` for a literal pattern: it occurs somewhere in `s`,
ignoring ASCII case. -/
def testCI (pat : String) (s : List Char) : Bool :=
  match s with
  | [] => startsWithCI pat.data []
  | c :: cs => startsWithCI pat.data (c :: cs) || testCI pat cs

/-- `/p1|p2|.../i.test(s)` for an alternation of literals. -/
def testAnyCI (pats : List String) (s : List Char) : Bool :=
  pats.any (fun p => testCI p s)

/-- The character class `['"]`. -/
def isQuote (c : Char) : Bool := c == Char.ofNat 39 || c == Char.ofNat 34

/-- The tail `['"]([^'"]+)['"]` of the revert pattern at the start of `s`: a
quote, a longest non-empty run without a quote (the capture), and a quote. -/
def quotedAt : List Char → Option (List Char)
  | [] => none
  | q :: rest =>
    if isQuote q then
      match rest.takeWhile (fun c => !isQuote c), rest.dropWhile (fun c => !isQuote c) with
      | [], _ => none
      | _ :: _, [] => none
      | r :: run, _ :: _ => some (r :: run)
    else none

/-- The prefix of the revert pattern. -/
def revertPrefix : String := "reverted with reason string "

/-- The capture of `msg.match(/reverted with reason string ['"]([^'"]+)['"]/i)`:
the first group of the leftmost match, `none` when there is no match. -/
def revertMatch : List Char → Option (List Char)
  | [] => none
  | c :: cs =>
    if startsWithCI revertPrefix.data (c :: cs) then
      match quotedAt ((c :: cs).drop revertPrefix.length) with
      | some r => some r
      | none => revertMatch cs
    else revertMatch cs

/-! ## utils.js: friendlyError -/

/-- The message for a cancelled prompt. -/
def msgUserRejected : String := "트랜잭션을 취소하였습니다."

/-- The message for a transport failure or timeout. -/
def msgTimeout : String :=
  "RPC 서버 응답 대기 중 타임아웃이 발생했습니다.\n\n트랜잭션은 전송되었을 수 있으니 Explorer에서 확인해주세요."

/-- The message when no contract answers at the address. -/
def msgContractNotFound : String :=
  "현재 네트워크에서 컨트랙트를 찾을 수 없습니다. 네트워크와 컨트랙트 주소를 확인해주세요."

/-- The prefix put before an extracted revert reason. -/
def msgRevertReason : String := "컨트랙트 실행 거부: "

/-- The generic message of the revert class. -/
def msgCallFailed : String := "컨트랙트 호출에 실패했습니다. 입력값과 권한을 확인해주세요."

/-- The message for insufficient funds. -/
def msgInsufficientFunds : String := "지갑 잔액(ETH)이 부족합니다. 가스비를 위한 ETH가 필요합니다."

/-- The message for a nonce that is too low. -/
def msgNonce : String := "논스가 낮습니다. 잠시 후 다시 시도해주세요."

/-- The message for an underpriced replacement. -/
def msgReplacement : String := "가스 가격/한도를 높여 재시도하세요."

/-- The message for a failed gas estimation. -/
def msgGasEstimation : String := "가스 추정에 실패했습니다. 입력값, 권한, 컨트랙트 상태를 확인해주세요."

/-- The message for a malformed address. -/
def msgInvalidAddress : String := "잘못된 주소 형식입니다."

/-- The message for a malformed number. -/
def msgInvalidNumber : String := "숫자 형식이 올바르지 않습니다."

/-- The message for a network or chain mismatch. -/
def msgNetwork : String := "네트워크 오류입니다."

/-- The prefix of the fallback, put before the stringified raw message. -/
def msgFallbackPrefix : String := "오류: "

/-- The fixed message returned when inspecting the raw failure throws. -/
def msgUnknown : String := "알 수 없는 오류가 발생했습니다."

/-- The alternatives of the timeout pattern. -/
def timeoutPatterns : List String :=
  ["timeout", "timed out", "could not detect network", "missing response",
   "failed to fetch", "network request failed"]

/-- The alternatives of the contract-not-found pattern. -/
def notFoundPatterns : List String :=
  ["Returned values aren't valid", "did it run Out of Gas", "not using the correct ABI",
   "requesting data from a block number that does not exist",
   "node which is not fully synced"]

/-- The alternatives of the revert pattern. -/
def revertPatterns : List String :=
  ["execution reverted", "call exception", "contract call failed"]

/-- The custom errors of the contract and their explanations, in the order the
source tests them. -/
def customErrors : List (String × String) :=
  [("InvalidAdmin", "잘못된 관리자 주소입니다."),
   ("InvalidRoyaltyReceiver", "잘못된 로열티 수신자 주소입니다."),
   ("InvalidWithdrawalAddress", "잘못된 출금 주소입니다."),
   ("InvalidRoyalty", "로열티 비율이 10%를 초과할 수 없습니다."),
   ("UriEmpty", "URI가 비어있습니다."),
   ("MintPaused", "민팅이 일시정지되었습니다."),
   ("InvalidRecipient", "잘못된 수신자 주소입니다."),
   ("MintAmountZero", "민팅 수량은 0보다 커야 합니다."),
   ("MintAmountExceedsLimit", "민팅 수량이 제한을 초과했습니다."),
   ("SaleCapNotConfigured", "판매 한도가 설정되지 않았습니다."),
   ("SaleRangeExceeded", "현재 판매 범위를 초과했습니다."),
   ("MaxSupplyExceeded", "최대 발행량을 초과했습니다."),
   ("WhitelistMintNotStarted", "화이트리스트 민팅이 시작되지 않았습니다."),
   ("PublicMintNotStarted", "퍼블릭 민팅이 시작되지 않았습니다."),
   ("NotWhitelisted", "화이트리스트에 등록되지 않았습니다."),
   ("IncorrectETHAmount", "전송한 ETH 금액이 올바르지 않습니다."),
   ("EmptyList", "목록이 비어있습니다."),
   ("TooManyAccounts", "계정이 너무 많습니다 (최대 100개)."),
   ("ZeroAddress", "주소가 0x0입니다."),
   ("EndTokenIdInvalid", "종료 토큰 ID가 유효하지 않습니다."),
   ("EndTokenIdExceedsMaxSupply", "종료 토큰 ID가 최대 발행량을 초과합니다."),
   ("CannotDecreaseEndTokenId", "종료 토큰 ID를 감소시킬 수 없습니다."),
   ("CannotDecreaseBelowMinted", "이미 발행된 수량 이하로 줄일 수 없습니다."),
   ("CannotDecreaseBelowSaleCap", "판매 한도 이하로 줄일 수 없습니다."),
   ("TransfersPaused", "전송이 일시정지되었습니다."),
   ("WithdrawalAddressNotSet", "출금 주소가 설정되지 않았습니다."),
   ("NoBalance", "잔액이 없습니다."),
   ("WithdrawalFailed", "출금에 실패했습니다.")]

/-- The comparison `v === n` with a number literal. -/
def isNum (v : JSVal) (n : Int) : Bool :=
  match v with
  | .num m => m == n
  | _ => false

/-- The comparison `v === s` with a string literal. -/
def isStr (v : JSVal) (s : String) : Bool :=
  match v with
  | .str t => t == s
  | _ => false

/-- The expression `(m || "").toLowerCase().includes("user rejected")`: calling
`toLowerCase` on a truthy value that is not a string throws. -/
def messageSaysRejected (m : JSVal) : Except JSVal Bool :=
  match (if m.truthy then m else JSVal.str "") with
  | .str s => .ok (includes (toLowerCase s.data) "user rejected".data)
  | _ => .error (typeError "toLowerCase is not a function")

/-- The condition of the first `if` of `friendlyError`:
`e && (e.code === 4001 || e.code === "ACTION_REJECTED" || (...).includes(...))`. -/
def isUserRejection (e : JSVal) : Except JSVal Bool :=
  if e.truthy then
    match getProp e "code" with
    | .error x => .error x
    | .ok code =>
      if isNum code 4001 || isStr code "ACTION_REJECTED" then .ok true
      else
        match getProp e "message" with
        | .error x => .error x
        | .ok m => messageSaysRejected m
  else .ok false

/-- The constant `msg` of `friendlyError`:
`e?.data?.message || e?.error?.message || e?.message || String(e)`. -/
def rawMessage (e : JSVal) : Except JSVal JSVal :=
  match optChain e "data" "message" with
  | .error x => .error x
  | .ok a =>
    if a.truthy then .ok a
    else
      match optChain e "error" "message" with
      | .error x => .error x
      | .ok b =>
        if b.truthy then .ok b
        else
          match optProp e "message" with
          | .error x => .error x
          | .ok c =>
            if c.truthy then .ok c
            else
              match toStringJS e with
              | .error x => .error x
              | .ok t => .ok (.str t)

/-- The comparison `e?.code === s`. -/
def codeIs (e : JSVal) (s : String) : Except JSVal Bool :=
  match optProp e "code" with
  | .error x => .error x
  | .ok c => .ok (isStr c s)

/-- The body of the revert branch: `msg.match(...)` (a `TypeError` when `msg` is
not a string), then the custom errors in order, then the generic message.
`text` is `msg` converted to a string. -/
def revertResult (msg : JSVal) (text : List Char) : Except JSVal String :=
  match msg with
  | .str s =>
    match revertMatch s.data with
    | some r => .ok (msgRevertReason ++ String.mk r)
    | none =>
      match customErrors.find? (fun p => testCI p.1 text) with
      | some p => .ok p.2
      | none => .ok msgCallFailed
  | _ => .error (typeError "msg.match is not a function")

/-- The condition `/insufficient funds/i.test(msg) || e?.code === "INSUFFICIENT_FUNDS"`. -/
def insufficientFundsCond (e : JSVal) (text : List Char) : Except JSVal Bool :=
  if testCI "insufficient funds" text then .ok true else codeIs e "INSUFFICIENT_FUNDS"

/-- The alternatives of the gas-estimation pattern. -/
def gasEstimationPatterns : List String :=
  ["gas required exceeds allowance", "always failing transaction"]

/-- The condition
`e?.code === "UNPREDICTABLE_GAS_LIMIT" || /gas required ...|always failing .../i.test(msg)`. -/
def gasEstimationCond (e : JSVal) (text : List Char) : Except JSVal Bool :=
  match codeIs e "UNPREDICTABLE_GAS_LIMIT" with
  | .error x => .error x
  | .ok true => .ok true
  | .ok false => .ok (testAnyCI gasEstimationPatterns text)

/-- The alternatives of `/replacement (fee|underpriced)/i`. -/
def replacementPatterns : List String := ["replacement fee", "replacement underpriced"]

/-- The alternatives of `/invalid (bignumber|number|uint)/i`. -/
def invalidNumberPatterns : List String :=
  ["invalid bignumber", "invalid number", "invalid uint"]

/-- The alternatives of `/network error|chain|wrong network|unsupported chain id/i`. -/
def networkPatterns : List String :=
  ["network error", "chain", "wrong network", "unsupported chain id"]

/-- The statements of `friendlyError` after `msg` is computed, from the timeout
test to the fallback. Each `test(msg)` converts `msg` to the same string. -/
def classifyMessage (e msg : JSVal) : Except JSVal String :=
  match toStringJS msg with
  | .error x => .error x
  | .ok t =>
    if testAnyCI timeoutPatterns t.data then .ok msgTimeout
    else if testAnyCI notFoundPatterns t.data then .ok msgContractNotFound
    else if testAnyCI revertPatterns t.data then revertResult msg t.data
    else
      match insufficientFundsCond e t.data with
      | .error x => .error x
      | .ok true => .ok msgInsufficientFunds
      | .ok false =>
        if testCI "nonce too low" t.data then .ok msgNonce
        else if testAnyCI replacementPatterns t.data then .ok msgReplacement
        else
          match gasEstimationCond e t.data with
          | .error x => .error x
          | .ok true => .ok msgGasEstimation
          | .ok false =>
            if testCI "invalid address" t.data then .ok msgInvalidAddress
            else if testAnyCI invalidNumberPatterns t.data then .ok msgInvalidNumber
            else if testAnyCI networkPatterns t.data then .ok msgNetwork
            else .ok (msgFallbackPrefix ++ t)

/-- The `try` block of `friendlyError`. -/
def friendlyErrorTry (e : JSVal) : Except JSVal String :=
  match isUserRejection e with
  | .error x => .error x
  | .ok true => .ok msgUserRejected
  | .ok false =>
    match rawMessage e with
    | .error x => .error x
    | .ok msg => classifyMessage e msg

/-- The completion of a call `friendlyError(e)`: the `try` block, and the
`catch (_)` clause that returns the fixed message. -/
def friendlyErrorCall (e : JSVal) : Except JSVal String :=
  match friendlyErrorTry e with
  | .ok s => .ok s
  | .error _ => .ok msgUnknown

/-- The string `friendlyError(e)` returns. -/
def friendlyError (e : JSVal) : String :=
  match friendlyErrorTry e with
  | .ok s => s
  | .error _ => msgUnknown

/-! ## utils.js: numbers, trimming and the network table -/

/-- The white space `String.prototype.trim` removes (WhiteSpace and
LineTerminator of ECMAScript). -/
def jsWhiteSpace (c : Char) : Bool :=
  let n := c.toNat
  n == 0x9 || n == 0xA || n == 0xB || n == 0xC || n == 0xD || n == 0x20 || n == 0xA0 ||
  n == 0x1680 || (0x2000 ≤ n && n ≤ 0x200A) || n == 0x2028 || n == 0x2029 ||
  n == 0x202F || n == 0x205F || n == 0x3000 || n == 0xFEFF

/-- `s.trim()`. -/
def jsTrim (s : String) : String :=
  ⟨((s.data.dropWhile jsWhiteSpace).reverse.dropWhile jsWhiteSpace).reverse⟩

/-- A JavaScript number as the validators see it: not-a-number, an infinity,
or a finite value. -/
inductive JSNum where
  | nan : JSNum
  | posInf : JSNum
  | negInf : JSNum
  | fin (q : ℚ) : JSNum

/-- `Number.MAX_SAFE_INTEGER`. -/
def maxSafeInteger : ℚ := 9007199254740991

/-- `isValidInteger(amount, min, max)` of utils.js on the number
`num = Number(amount)`: `!isNaN(num) && Number.isInteger(num) && num >= min && num <= max`. -/
def isValidIntegerNum (num : JSNum) (min max : ℚ) : Bool :=
  match num with
  | .fin q => q.den == 1 && decide (min ≤ q) && decide (q ≤ max)
  | _ => false

/-- `isValidAmount(amount, min, max)` of utils.js on the number
`num = Number(amount)`: `!isNaN(num) && Number.isFinite(num) && num >= min && num <= max`. -/
def isValidAmountNum (num : JSNum) (min max : ℚ) : Bool :=
  match num with
  | .fin q => decide (min ≤ q) && decide (q ≤ max)
  | _ => false

/-- An entry of the table `NETWORKS`. -/
structure NetworkInfo where
  /-- Field `name`. -/
  name : String
  /-- Field `explorer`. -/
  explorer : String
  /-- Field `chainName`. -/
  chainName : String
  /-- Field `nativeCurrency`. -/
  nativeCurrency : String
  /-- Field `chainIdHex`. -/
  chainIdHex : String
  /-- Field `rpcUrls`. -/
  rpcUrls : List String
  /-- Field `blockExplorerUrls`. -/
  blockExplorerUrls : List String
  /-- Field `isTestnet`. -/
  isTestnet : Bool
  deriving DecidableEq, Repr

/-- The table `NETWORKS` of utils.js, read by a key that is the decimal text
of a number: `NETWORKS[key]`, `none` for `undefined`. -/
def NETWORKS (key : String) : Option NetworkInfo :=
  if key == "1" then
    some ⟨"ethereum", "https://etherscan.io", "Ethereum Mainnet", "ETH", "0x1",
      ["https://eth.llamarpc.com"], ["https://etherscan.io"], false⟩
  else if key == "11155111" then
    some ⟨"sepolia", "https://sepolia.etherscan.io", "Sepolia Testnet", "ETH", "0xaa36a7",
      ["https://rpc.sepolia.org/"], ["https://sepolia.etherscan.io"], true⟩
  else none

/-- The entry of Ethereum Mainnet, `NETWORKS["1"]`. -/
def mainnetInfo : NetworkInfo :=
  ⟨"ethereum", "https://etherscan.io", "Ethereum Mainnet", "ETH", "0x1",
    ["https://eth.llamarpc.com"], ["https://etherscan.io"], false⟩

/-- `getNetworkInfo(chainId)`: `NETWORKS[chainId.toString()] || NETWORKS["1"]`. -/
def getNetworkInfo (chainId : Int) : NetworkInfo :=
  match NETWORKS (intToString chainId) with
  | some info => info
  | none => mainnetInfo

/-- `getExplorerUrl(chainId)`. -/
def getExplorerUrl (chainId : Int) : String := (getNetworkInfo chainId).explorer

/-- The value of a hexadecimal digit. -/
def hexDigitVal (c : Char) : Option Nat :=
  if '0' ≤ c ∧ c ≤ '9' then some (c.toNat - 48)
  else if 'a' ≤ c ∧ c ≤ 'f' then some (c.toNat - 87)
  else if 'A' ≤ c ∧ c ≤ 'F' then some (c.toNat - 55)
  else none

/-- The value of the longest prefix of hexadecimal digits, `none` when it is
empty. `acc` holds the digits read so far. -/
def hexPrefixValue : Option Nat → List Char → Option Nat
  | acc, [] => acc
  | acc, c :: cs =>
    match hexDigitVal c with
    | none => acc
    | some d => hexPrefixValue (some (16 * acc.getD 0 + d)) cs

/-- `parseInt(s, 16)` on a string: leading white space is skipped, then a sign,
then `0x` or `0X`, then the longest run of hexadecimal digits; `none` is `NaN`.
The value is exact (a chain id is far below 2^53). -/
def parseInt16 (s : String) : Option Int :=
  let t := s.data.dropWhile jsWhiteSpace
  let neg := t.head? == some '-'
  let t1 := if t.head? == some '-' || t.head? == some '+' then t.drop 1 else t
  let t2 :=
    match t1 with
    | a :: b :: rest => if a == '0' && (b == 'x' || b == 'X') then rest else t1
    | _ => t1
  match hexPrefixValue none t2 with
  | none => none
  | some v => some (if neg then - (v : Int) else (v : Int))

/-- The key `n.toString()` of a parsed chain id, `"NaN"` for `NaN`. -/
def chainKey (n : Option Int) : String :=
  match n with
  | some v => intToString v
  | none => "NaN"

/-- `shortenAddress(address)` of utils.js with the default lengths: a valid
address becomes its first 6 characters, `...` and its last 4; anything else is
returned as it is. -/
def shortenAddress (address : String) : String :=
  if !isValidEthereumAddress (.str address) then address
  else ⟨address.data.take 6 ++ "...".data ++ address.data.drop (address.data.length - 4)⟩

/-! ## wallet.js: global state, environment and effects -/

/-- The global variables of wallet.js. A handle (`web3`, `ethersProvider`,
`ethersSigner`) is `none` for `null` and otherwise the identity of the object
it refers to. -/
structure State where
  /-- The selected chain id, `let Network = 1`. -/
  Network : Int
  /-- The connected account, `""` when there is none. -/
  WalletAddress : String
  /-- The handle `web3`. -/
  web3 : Option Nat
  /-- The handle `ethersProvider`. -/
  ethersProvider : Option Nat
  /-- The handle `ethersSigner`. -/
  ethersSigner : Option Nat
  /-- The single-flight guard, `let isProcessing = false`. -/
  isProcessing : Bool
  /-- The flag `updateInProgress` of `updateWalletInfo`. -/
  updateInProgress : Bool
  deriving DecidableEq, Repr

/-- The values of the globals when the scripts are loaded. -/
def State.initial : State :=
  ⟨1, "", none, none, none, false, false⟩

/-- An argument of a contract call. -/
inductive Arg where
  | str (s : String) : Arg
  | list (l : List String) : Arg
  | bool (b : Bool) : Arg
  | int (n : Int) : Arg
  deriving DecidableEq, Repr

/-- The parameter object of a request `wallet_addEthereumChain`. -/
structure AddChainParams where
  /-- Field `chainId`. -/
  chainId : String
  /-- Field `chainName`. -/
  chainName : String
  /-- Field `nativeCurrency.name`. -/
  nativeCurrencyName : String
  /-- Field `nativeCurrency.symbol`. -/
  nativeCurrencySymbol : String
  /-- Field `nativeCurrency.decimals`. -/
  nativeCurrencyDecimals : Nat
  /-- Field `rpcUrls`. -/
  rpcUrls : List String
  /-- Field `blockExplorerUrls`. -/
  blockExplorerUrls : List String
  deriving DecidableEq, Repr

/-- The parameter object `switchNetwork` builds from an entry of `NETWORKS`:

    { chainId: networkInfo.chainIdHex, chainName: networkInfo.chainName,
      nativeCurrency: { name: networkInfo.nativeCurrency,
                        symbol: networkInfo.nativeCurrency, decimals: 18 },
      rpcUrls: networkInfo.rpcUrls, blockExplorerUrls: networkInfo.blockExplorerUrls } -/
def addChainParams (networkInfo : NetworkInfo) : AddChainParams :=
  ⟨networkInfo.chainIdHex, networkInfo.chainName, networkInfo.nativeCurrency,
    networkInfo.nativeCurrency, 18, networkInfo.rpcUrls, networkInfo.blockExplorerUrls⟩

/-- What an operation does to the outside, in the order it does it. -/
inductive Event where
  /-- Call `alert(msg)`. -/
  | alert (msg : String) : Event
  /-- Call `confirm(msg)`. -/
  | confirm (msg : String) : Event
  /-- Call `errorLog(tag, e)` or `console.error(tag, e)`. -/
  | errorLog (tag : String) : Event
  /-- Call `window.ethereum.request` with a method and the chain id it names. -/
  | request (method : String) (chainIdHex : String) : Event
  /-- Call `window.ethereum.request` with the method `wallet_addEthereumChain`
  and a parameter object. -/
  | addChain (params : AddChainParams) : Event
  /-- Call a read-only method of the contract. -/
  | read (method : String) : Event
  /-- Call `contract.estimateGas.method(args)`. -/
  | estimateGas (method : String) (args : List Arg) : Event
  /-- Call `contract.method(args, gasLimit)`: the submission. -/
  | send (method : String) (args : List Arg) (gasLimit : Nat) : Event
  /-- Call `tx.wait()` on the submitted transaction. -/
  | wait (hash : String) : Event
  /-- Disable the invoking button and show the pending label. -/
  | buttonBusy (label : String) : Event
  /-- Enable the invoking button and restore its text. -/
  | buttonRestore : Event
  /-- Assign the `value`, `innerHTML` or `innerText` of a page element. -/
  | setElement (id : String) (text : String) : Event
  /-- Assign the `checked` flag of a checkbox. -/
  | setChecked (id : String) (checked : Bool) : Event
  /-- Call a routine that only reads and redraws (`updateWalletInfo`,
  `loadContractState`, `loadDashboardInfo`, `updateNetworkDisplay`,
  `setupExplorerLinks`) or leaves the page (`openInMetaMaskBrowser`). The
  event stands for the reads and the texts assigned; the calls of `errorLog`
  such a routine makes are events of their own. -/
  | refresh (name : String) : Event
  /-- Call `updateUIState(isConnected)`: enable or disable the buttons and
  links of the page. -/
  | uiState (isConnected : Bool) : Event
  deriving DecidableEq, Repr

/-- The result of running a piece of asynchronous code to completion: the
globals afterwards, what it did, and whether it returned or threw. -/
structure Run where
  /-- The globals afterwards. -/
  st : State
  /-- The effects, in order. -/
  log : List Event
  /-- Normal completion, or the thrown value. -/
  res : Except JSVal Unit

/-- Sequencing: `k` runs after `r` when `r` completed normally; a throw of `r`
skips `k`. -/
def Run.andThen (r : Run) (k : State → Run) : Run :=
  match r.res with
  | .error e => ⟨r.st, r.log, .error e⟩
  | .ok _ => ⟨(k r.st).st, r.log ++ (k r.st).log, (k r.st).res⟩

/-- The `try { ... } catch (e) { handler }` part: `b` is the run of the `try`
block; when it threw, the handler runs on the state it left. -/
def tryCatch (b : Run) (handler : JSVal → State → Run) : Run :=
  match b.res with
  | .ok _ => b
  | .error e => ⟨(handler e b.st).st, b.log ++ (handler e b.st).log, (handler e b.st).res⟩

/-- Everything outside the scripts that an operation depends on: the page, the
user, the wallet provider, the libraries and the contract. Each field is the
outcome the outside gives when asked; a theorem that holds for every `Env`
holds whatever the outside does. -/
structure Env where
  /-- The object `window.ethereum` is present. -/
  ethereum : Bool
  /-- The library `ethers` is loaded. -/
  ethersLoaded : Bool
  /-- Outcome of `new ethers.providers.Web3Provider(...)` and `getSigner()`:
  the two handles. -/
  newProvider : Except JSVal (Nat × Nat)
  /-- The library `Web3` is loaded. -/
  web3Loaded : Bool
  /-- Outcome of `new Web3(window.ethereum)`. -/
  newWeb3 : Except JSVal Nat
  /-- Outcome of the request `eth_requestAccounts`: the accounts granted. -/
  requestAccounts : Except JSVal (List String)
  /-- Outcome of the request `eth_chainId`. -/
  chainId : Except JSVal String
  /-- Outcome of the request `eth_chainId` when a handler makes it a second
  time (`selectNetwork` after a failed switch). -/
  chainIdAgain : Except JSVal String
  /-- Outcome of the request `wallet_switchEthereumChain` for a chain id. -/
  switchChain : String → Except JSVal Unit
  /-- Outcome of the request `wallet_addEthereumChain` for a chain id. -/
  addChain : String → Except JSVal Unit
  /-- The page has an element with an id (`document.getElementById(id)` is not
  `null`); asked only where the sources test it. -/
  present : String → Bool
  /-- The `value` of the page element with an id. -/
  value : String → String
  /-- The values of the `input[data-wl='1']` children of the element with an
  id, `none` when the element is missing. -/
  slots : String → Option (List String)
  /-- The `checked` flag of the checkbox with an id. -/
  checked : String → Bool
  /-- The answer of the user to `confirm(msg)`. -/
  confirm : String → Bool
  /-- The builtin `Number` on a string. -/
  toNumber : String → JSNum
  /-- Whether `new URL(uri)` succeeds. -/
  urlParses : String → Bool
  /-- The text `Number(num).toLocaleString('ko-KR')` of `formatNumber`. -/
  formatNumber : String → String
  /-- The floating-point value `Math.floor(parseFloat(text) * 100)`. -/
  floorTimes100 : String → Int
  /-- Outcome of `ethers.BigNumber.from(text)`. -/
  bigNumberFrom : String → Except JSVal Int
  /-- Outcome of `ethers.utils.parseEther(text)`: the amount in wei, as text. -/
  etherToWei : String → Except JSVal String
  /-- Outcome of `getContractAddress(chainId)` (configuration, not in these
  files) where `updateWalletInfo` and `loadContractState` call it: the address,
  `""` for a missing one, or the value it throws. -/
  getContractAddress : Int → Except JSVal String
  /-- Outcome of the reads of the native balance in `updateWalletInfo`:
  `ethersProvider.getNetwork()` and `ethersProvider.getBalance(WalletAddress)`. -/
  walletBalance : Except JSVal Unit
  /-- Outcome of `ethers.utils.formatEther(wei)` inside `formatEther` of
  utils.js, for the quantity being shown (`"walletBalance"`, `"whitelistCost"`,
  `"publicCost"`, `"contractBalance"`). -/
  formatEther : String → Except JSVal Unit
  /-- Outcome of `new ethers.Contract(address, NFT_ABI, ethersProvider)` and
  `contract.balanceOf(WalletAddress)` in `updateWalletInfo`. -/
  nftBalance : Except JSVal Unit
  /-- Outcome of the four reads of `updateWalletRole`: `DEFAULT_ADMIN_ROLE()`,
  `OPERATOR_ROLE()` and the two `hasRole` calls. -/
  walletRoles : Except JSVal Unit
  /-- Outcome of the two constructors and of the sixteen reads that
  `loadContractState` awaits together. -/
  contractState : Except JSVal Unit
  /-- Outcome of `new ethers.Contract(address, NFT_ABI, signer)`. -/
  newContract : Except JSVal Unit
  /-- Outcome of a read-only contract call that returns a number. -/
  readNat : String → Except JSVal Nat
  /-- Outcome of a read-only contract call that returns a role identifier. -/
  readText : String → Except JSVal String
  /-- Outcome of `contract.estimateGas.method(args)`. -/
  estimateGas : String → List Arg → Except JSVal Nat
  /-- Outcome of the submission `contract.method(args, gasLimit)`: the hash
  of the transaction. -/
  send : String → List Arg → Nat → Except JSVal String
  /-- Outcome of `tx.wait()`: the `status` of the receipt. -/
  wait : String → Except JSVal Int
  /-- The function `handleError(error, label)`, called by `startNewRound`
  and defined in none of these files: whatever it does to the globals and
  whether it throws. -/
  handleError : JSVal → String → State → State × Except JSVal Unit
  /-- The function `loadDashboardInfo()`, called by `startNewRound` and
  defined in none of these files. -/
  loadDashboardInfo : State → State × Except JSVal Unit

/-- `rebuildProviders()` of wallet.js: the globals afterwards and the returned
flag. Its calls of `errorLog` are `rebuildProvidersLog`. -/
def rebuildProviders (env : Env) (s : State) : State × Bool :=
  if !env.ethereum then
    ({ s with ethersProvider := none, ethersSigner := none, web3 := none }, false)
  else
    let (s1, ok) :=
      if !env.ethersLoaded then
        ({ s with ethersProvider := none, ethersSigner := none }, false)
      else
        match env.newProvider with
        | .ok (p, g) => ({ s with ethersProvider := some p, ethersSigner := some g }, true)
        | .error _ => ({ s with ethersProvider := none, ethersSigner := none }, false)
    let s2 :=
      if env.web3Loaded then
        match env.newWeb3 with
        | .ok w => { s1 with web3 := some w }
        | .error _ => { s1 with web3 := none }
      else { s1 with web3 := none }
    (s2, ok)

/-- The calls of `errorLog` that `rebuildProviders()` makes: one without a
provider object, one when the `ethers` handles cannot be made (the library is
missing or a constructor throws), one when `new Web3(...)` throws. -/
def rebuildProvidersLog (env : Env) : List Event :=
  if !env.ethereum then [.errorLog "MetaMask(ethereum)가 감지되지 않습니다."]
  else
    (if !env.ethersLoaded then [.errorLog "ethersProvider 초기화 실패:"]
     else
      match env.newProvider with
      | .ok _ => []
      | .error _ => [.errorLog "ethersProvider 초기화 실패:"]) ++
    (if env.web3Loaded then
      match env.newWeb3 with
      | .ok _ => []
      | .error _ => [.errorLog "web3 초기화 실패(무시 가능):"]
     else [])

/-- The text of the alert of `ensureConnected`. -/
def msgConnectFirst : String := "먼저 지갑을 연결해주세요."

/-- `ensureConnected()` of wallet.js: it alerts and throws
`new Error("WALLET_NOT_CONNECTED")` unless the provider object, both handles
and the wallet address are present; it assigns nothing. -/
def ensureConnected (env : Env) (s : State) : Run :=
  if !env.ethereum || s.ethersProvider.isNone || s.ethersSigner.isNone ||
      s.WalletAddress.data == [] then
    ⟨s, [.alert msgConnectFirst], .error (mkError "WALLET_NOT_CONNECTED")⟩
  else ⟨s, [], .ok ()⟩

/-- `switchNetwork(targetChainId)` of wallet.js: the effects and the returned
flag, or the value thrown out of its `catch` clause (reading
`switchError.code` off `undefined` or `null`). -/
def switchNetwork (env : Env) (targetChainId : Int) : List Event × Except JSVal Bool :=
  match NETWORKS (intToString targetChainId) with
  | none => ([.alert "지원하지 않는 네트워크입니다."], .ok false)
  | some networkInfo =>
    match env.switchChain networkInfo.chainIdHex with
    | .ok _ => ([.request "wallet_switchEthereumChain" networkInfo.chainIdHex], .ok true)
    | .error switchError =>
      match getProp switchError "code" with
      | .error x => ([.request "wallet_switchEthereumChain" networkInfo.chainIdHex], .error x)
      | .ok code =>
        if isNum code 4902 then
          match env.addChain networkInfo.chainIdHex with
          | .ok _ =>
            ([.request "wallet_switchEthereumChain" networkInfo.chainIdHex,
              .addChain (addChainParams networkInfo)], .ok true)
          | .error addError =>
            ([.request "wallet_switchEthereumChain" networkInfo.chainIdHex,
              .addChain (addChainParams networkInfo),
              .errorLog "네트워크 추가 실패:",
              .alert ("네트워크 추가에 실패했습니다.\n\n" ++ friendlyError addError)], .ok false)
        else
          ([.request "wallet_switchEthereumChain" networkInfo.chainIdHex,
            .errorLog "네트워크 전환 실패:",
            .alert ("네트워크 전환에 실패했습니다.\n\n" ++ friendlyError switchError)], .ok false)

/-- `checkAndSwitchNetwork()` of wallet.js. Its `catch` clause only logs. -/
def checkAndSwitchNetwork (env : Env) (s : State) : Run :=
  if !env.ethereum then ⟨s, [], .ok ()⟩
  else
    match env.chainId with
    | .error _ => ⟨s, [.request "eth_chainId" "", .errorLog "네트워크 확인 실패:"], .ok ()⟩
    | .ok chainId =>
      if parseInt16 chainId != some s.Network then
        match switchNetwork env s.Network with
        | (evs, .ok _) => ⟨s, .request "eth_chainId" "" :: evs, .ok ()⟩
        | (evs, .error _) =>
          ⟨s, .request "eth_chainId" "" :: evs ++ [.errorLog "네트워크 확인 실패:"], .ok ()⟩
      else ⟨s, [.request "eth_chainId" ""], .ok ()⟩

/-- The call of `errorLog` that `formatEther` of utils.js makes when
`ethers.utils.formatEther` throws; it then returns `"0"`:

    try { return ethers.utils.formatEther(wei); }
    catch (e) { console.error("formatEther 오류:", e); return "0"; } -/
def formatEtherLog (env : Env) (quantity : String) : List Event :=
  match env.formatEther quantity with
  | .ok _ => []
  | .error _ => [.errorLog "formatEther 오류:"]

/-- The zero address, which stands for a contract that is not deployed. -/
def zeroAddress : String := "0x0000000000000000000000000000000000000000"

/-- The test `!CONTRACT_ADDRESS || CONTRACT_ADDRESS === "0x00...00"`. -/
def isZeroAddress (address : String) : Bool :=
  address.data == [] || address == zeroAddress

/-- `updateWalletRole(contract)` of wallet.js: its calls of `errorLog`, and
whether it completes normally. Its `try` block makes the four reads and
assigns the text of the element `walletRole`; its `catch` clause logs and
assigns that text again, without a test for a missing element, which is a
`TypeError` that leaves the function. -/
def updateWalletRole (env : Env) : List Event × Bool :=
  match env.walletRoles with
  | .ok _ =>
    if env.present "walletRole" then ([], true)
    else ([.errorLog "권한 확인 실패:"], false)
  | .error _ => ([.errorLog "권한 확인 실패:"], env.present "walletRole")

/-- The first inner `try` of `updateWalletInfo`, with a provider handle: the
reads of the native balance, caught and logged, and the formatting. -/
def updateWalletBalanceLog (env : Env) : List Event :=
  match env.walletBalance with
  | .ok _ => formatEtherLog env "walletBalance"
  | .error _ => [.errorLog "네이티브 잔고 조회 실패:"]

/-- The second inner `try` of `updateWalletInfo`: the contract on the provider
handle, `balanceOf` and `updateWalletRole`, with every failure caught and
logged. -/
def updateWalletNftLog (env : Env) : List Event :=
  match env.nftBalance with
  | .error _ => [.errorLog "NFT/권한 조회 실패:"]
  | .ok _ =>
    if (updateWalletRole env).2 then (updateWalletRole env).1
    else (updateWalletRole env).1 ++ [.errorLog "NFT/권한 조회 실패:"]

/-- `updateWalletInfo()` of wallet.js from the statement that shows the
address on. It returns when an update is already running; otherwise it sets
`updateInProgress` for the duration of its `try` block and clears it in its
`finally`. The event `refresh "updateWalletInfo"` stands for the reads and the
texts it assigns to `walletBalance`, `nftBalance` and `walletRole`; the calls of
`errorLog` follow it in the order they are made. The block has no `catch`:
a throw of `getContractAddress` leaves the function, after the `finally`. -/
def updateWalletInfoShow (env : Env) (s : State) : Run :=
  if s.updateInProgress then
    ⟨s, [.setElement "walletAddress" (shortenAddress s.WalletAddress)], .ok ()⟩
  else
    match env.getContractAddress s.Network with
    | .error e =>
      ⟨{ s with updateInProgress := false },
        [.setElement "walletAddress" (shortenAddress s.WalletAddress),
          .refresh "updateWalletInfo"] ++
          (if s.ethersProvider.isNone then [] else updateWalletBalanceLog env), .error e⟩
    | .ok address =>
      ⟨{ s with updateInProgress := false },
        [.setElement "walletAddress" (shortenAddress s.WalletAddress),
          .refresh "updateWalletInfo"] ++
          (if s.ethersProvider.isNone then [] else updateWalletBalanceLog env) ++
          (if isZeroAddress address || s.ethersProvider.isNone then []
           else updateWalletNftLog env), .ok ()⟩

/-- `updateWalletInfo()` of wallet.js. It returns at once without a wallet
address, rebuilds the handles when `ethersProvider` is `null`, and goes on
with `updateWalletInfoShow`. -/
def updateWalletInfo (env : Env) (s : State) : Run :=
  if s.WalletAddress.data == [] then ⟨s, [], .ok ()⟩
  else if s.ethersProvider.isNone then
    (Run.mk (rebuildProviders env s).1 (rebuildProvidersLog env) (.ok ())).andThen
      (updateWalletInfoShow env)
  else updateWalletInfoShow env s

/-- `loadContractState()` of queries.js. It returns at once without a wallet
address or a signer and assigns no global. Its whole body is in a `try` block
whose `catch` clause logs: a throw of `getContractAddress`, a `web3` or
`ethersProvider` handle that is `null` (`new web3.eth.Contract` and
`ethersProvider.getBalance` are then a `TypeError`), and a failure of the
constructors or of the reads. With the zero address it resets the dashboard
and returns. The event `refresh "loadContractState"` stands for the reads and
the texts and check marks it assigns; `formatEther` is called for the two costs
and the balance of the contract, in that order. -/
def loadContractState (env : Env) (s : State) : Run :=
  if s.WalletAddress.data == [] || s.ethersSigner.isNone then ⟨s, [], .ok ()⟩
  else
    match env.getContractAddress s.Network with
    | .error _ =>
      ⟨s, [.refresh "loadContractState", .errorLog "컨트랙트 상태 로드 실패:"], .ok ()⟩
    | .ok address =>
      if isZeroAddress address then ⟨s, [.refresh "loadContractState"], .ok ()⟩
      else if s.web3.isNone || s.ethersProvider.isNone then
        ⟨s, [.refresh "loadContractState", .errorLog "컨트랙트 상태 로드 실패:"], .ok ()⟩
      else
        match env.contractState with
        | .error _ =>
          ⟨s, [.refresh "loadContractState", .errorLog "컨트랙트 상태 로드 실패:"], .ok ()⟩
        | .ok _ =>
          ⟨s, [.refresh "loadContractState"] ++ formatEtherLog env "whitelistCost" ++
            formatEtherLog env "publicCost" ++ formatEtherLog env "contractBalance", .ok ()⟩

/-! ## wallet.js: connecting, disconnecting and the notifications

A handler is run to completion from the state it finds. The provider object
`window.ethereum` is either an object or `undefined`; the accounts it grants
are an array of strings and its chain id is a string. Changes of the classes
of the network buttons touch the page only and are left out of the log. -/

/-- The alert of `connectWallet` without a provider. -/
def msgNoProvider : String :=
  "MetaMask가 설치되지 않았습니다.\n\n모바일의 경우 MetaMask 브라우저를 사용해주세요."

/-- The alert of `connectWallet` when no account is granted. -/
def msgNoAccounts : String := "계정을 찾을 수 없습니다. MetaMask를 확인해주세요."

/-- The alert of `connectWallet` on a chain that is not in `NETWORKS`. -/
def msgUnsupportedChain : String :=
  "지원하지 않는 네트워크입니다.\n\n이더리움 메인넷 또는 세폴리아 테스트넷을 선택해주세요."

/-- The alert of `selectNetwork` and `switchNetwork` for a target that is not
in `NETWORKS`. -/
def msgUnsupportedTarget : String := "지원하지 않는 네트워크입니다."

/-- The alert of the `chainChanged` handler on a chain that is not in
`NETWORKS`. -/
def msgChangedToUnsupported : String :=
  "지원하지 않는 네트워크로 변경되었습니다.\n\n이더리움 메인넷 또는 세폴리아 테스트넷을 선택해주세요."

/-- The `try` block of `connectWallet`; each `return` inside it is a normal
completion. -/
def connectWalletTry (env : Env) (s : State) : Run :=
  if !env.ethereum then
    ⟨s, [.alert msgNoProvider, .refresh "openInMetaMaskBrowser"], .ok ()⟩
  else
    let s1 := (rebuildProviders env s).1
    match env.requestAccounts with
    | .error e => ⟨s1, rebuildProvidersLog env ++ [.request "eth_requestAccounts" ""], .error e⟩
    | .ok [] =>
      ⟨s1, rebuildProvidersLog env ++ [.request "eth_requestAccounts" "", .alert msgNoAccounts],
        .ok ()⟩
    | .ok (account :: _) =>
      let s2 := { s1 with WalletAddress := account }
      match env.chainId with
      | .error e =>
        ⟨s2, rebuildProvidersLog env ++
          [.request "eth_requestAccounts" "", .request "eth_chainId" ""], .error e⟩
      | .ok chainId =>
        match parseInt16 chainId, NETWORKS (chainKey (parseInt16 chainId)) with
        | some decimalChainId, some _ =>
          (Run.mk { s2 with Network := decimalChainId }
            (rebuildProvidersLog env ++
              [.request "eth_requestAccounts" "", .request "eth_chainId" ""]) (.ok ())).andThen
          fun s =>
          (updateWalletInfo env s).andThen fun s =>
          (loadContractState env s).andThen fun s =>
            ⟨s, [.uiState true, .refresh "setupExplorerLinks", .refresh "updateNetworkDisplay",
                 .setElement ".btn-connect-wallet" "✅ 지갑 연결됨"], .ok ()⟩
        | _, _ =>
          ⟨s2, rebuildProvidersLog env ++
            [.request "eth_requestAccounts" "", .request "eth_chainId" "",
              .alert msgUnsupportedChain], .ok ()⟩

/-- The `catch` clause of `connectWallet`. -/
def connectWalletCatch (e : JSVal) (s : State) : Run :=
  ⟨s, [.errorLog "지갑 연결 실패:", .alert ("지갑 연결에 실패했습니다.\n\n" ++ friendlyError e)],
    .ok ()⟩

/-- `connectWallet()` of wallet.js. -/
def connectWallet (env : Env) (s : State) : Run :=
  tryCatch (connectWalletTry env s) connectWalletCatch

/-- `disconnectWallet()` of wallet.js. -/
def disconnectWallet (s : State) : Run :=
  ⟨{ s with WalletAddress := "", web3 := none, ethersProvider := none, ethersSigner := none },
    [.setElement "walletAddress" "연결되지 않음", .setElement "walletBalance" "-",
     .setElement "nftBalance" "-", .setElement "walletRole" "연결되지 않음", .uiState false,
     .setElement ".btn-connect-wallet" "🔗 지갑 연결 (MetaMask)"], .ok ()⟩

/-- The value `NETWORKS[realId.toString()] ? realId : targetChainId` for
`realId = parseInt(chainIdHex, 16)`. -/
def realOrTarget (chainIdHex : String) (targetChainId : Int) : Int :=
  match parseInt16 chainIdHex, NETWORKS (chainKey (parseInt16 chainIdHex)) with
  | some realId, some _ => realId
  | _, _ => targetChainId

/-- The assignment of `Network` that `selectNetwork` makes from the outcome of
a request `eth_chainId`:

    try { ... Network = NETWORKS[realId.toString()] ? realId : targetChainId; }
    catch { Network = targetChainId; } -/
def resync (response : Except JSVal String) (targetChainId : Int) (s : State) : State :=
  match response with
  | .ok chainIdHex => { s with Network := realOrTarget chainIdHex targetChainId }
  | .error _ => { s with Network := targetChainId }

/-- The statements `selectNetwork` and the `chainChanged` handler share once
`Network` is assigned:

    rebuildProviders(); updateNetworkDisplay(); setupExplorerLinks();
    if (WalletAddress) { await updateWalletInfo(); await loadContractState(); } -/
def afterNetworkChange (env : Env) (s : State) : Run :=
  (Run.mk (rebuildProviders env s).1
    (rebuildProvidersLog env ++ [.refresh "updateNetworkDisplay", .refresh "setupExplorerLinks"])
    (.ok ())).andThen fun s =>
    if s.WalletAddress.data != [] then
      (updateWalletInfo env s).andThen fun s => loadContractState env s
    else ⟨s, [], .ok ()⟩

/-- `selectNetwork(targetChainId)` of wallet.js. With a provider it asks for
the switch; when the switch was refused it reads the chain id and assigns
`Network` a first time; then it reads the chain id (again) and assigns
`Network`. Without a provider that request is a `TypeError`, which is caught,
and `Network` becomes the target. A throw of `switchNetwork` leaves
`selectNetwork`. -/
def selectNetwork (env : Env) (targetChainId : Int) (s : State) : Run :=
  match NETWORKS (intToString targetChainId) with
  | none => ⟨s, [.alert msgUnsupportedTarget], .ok ()⟩
  | some _ =>
    if env.ethereum then
      match switchNetwork env targetChainId with
      | (evs, .error x) => ⟨s, evs, .error x⟩
      | (evs, .ok true) =>
        (Run.mk (resync env.chainId targetChainId s)
          (evs ++ [.request "eth_chainId" ""]) (.ok ())).andThen (afterNetworkChange env)
      | (evs, .ok false) =>
        (Run.mk (resync env.chainIdAgain targetChainId (resync env.chainId targetChainId s))
          (evs ++ [.request "eth_chainId" "", .request "eth_chainId" ""]) (.ok ())).andThen
          (afterNetworkChange env)
    else
      (Run.mk { s with Network := targetChainId } [] (.ok ())).andThen (afterNetworkChange env)

/-- The handler of the notification `chainChanged` with the chain id the
provider passes. -/
def onChainChanged (env : Env) (chainId : String) (s : State) : Run :=
  match parseInt16 chainId, NETWORKS (chainKey (parseInt16 chainId)) with
  | some decimalChainId, some _ => afterNetworkChange env { s with Network := decimalChainId }
  | _, _ => ⟨s, [.alert msgChangedToUnsupported], .ok ()⟩

/-- The handler of the notification `accountsChanged` with the accounts the
provider passes. -/
def onAccountsChanged (env : Env) (accounts : List String) (s : State) : Run :=
  match accounts with
  | [] => disconnectWallet s
  | account :: _ =>
    if account != s.WalletAddress then
      (updateWalletInfo env { s with WalletAddress := account }).andThen fun s =>
        loadContractState env s
    else ⟨s, [], .ok ()⟩

/-- One transition of the connection state: a call of `connectWallet`,
`disconnectWallet` or `selectNetwork`, or one of the two notifications, with
whatever the outside answers. -/
inductive WalletStep : State → State → Prop where
  | connectWallet (env : Env) (s : State) : WalletStep s (connectWallet env s).st
  | disconnectWallet (s : State) : WalletStep s (disconnectWallet s).st
  | selectNetwork (env : Env) (targetChainId : Int) (s : State) :
    WalletStep s (selectNetwork env targetChainId s).st
  | chainChanged (env : Env) (chainId : String) (s : State) :
    WalletStep s (onChainChanged env chainId s).st
  | accountsChanged (env : Env) (accounts : List String) (s : State) :
    WalletStep s (onAccountsChanged env accounts s).st

/-- The connection states reachable from the values the globals have when the
scripts are loaded. -/
inductive WalletReachable : State → Prop where
  | init : WalletReachable State.initial
  | step (s t : State) : WalletReachable s → WalletStep s t → WalletReachable t

/-- The event is a call of the contract (a read, a gas estimation, a
submission or a wait). -/
def Event.isContractCall : Event → Bool
  | .read _ => true
  | .estimateGas _ _ => true
  | .send _ _ _ => true
  | .wait _ => true
  | _ => false

/-- The event is a request to the wallet provider. -/
def Event.isProviderCall : Event → Bool
  | .request _ _ => true
  | .addChain _ => true
  | _ => false

/-- The connectivity test of `ensureConnected` passes. -/
def connected (env : Env) (s : State) : Bool :=
  env.ethereum && s.ethersProvider.isSome && s.ethersSigner.isSome && s.WalletAddress.data != []

/-! ## The frame shared by the privileged operations -/

/-- The text of the busy alert of most operations. -/
def msgBusy : String := "트랜잭션 처리 중입니다..."

/-- The text of the busy alert of `startNewRound` and `setSaleConfig`. -/
def msgBusyShort : String := "트랜잭션 처리 중입니다."

/-- The pending label of the invoking button. -/
def labelPending : String := "⏳ 처리 중..."

/-- The events of the question asked before the guard is set, if any. -/
def askedEvents (confirmFirst : Option String) : List Event :=
  match confirmFirst with
  | some q => [.confirm q]
  | none => []

/-- The operation asks a question before it sets the guard and the user
declines: `if (!confirm(question)) { return; }`. -/
def declines (env : Env) (confirmFirst : Option String) : Bool :=
  match confirmFirst with
  | some q => !env.confirm q
  | none => false

/-- The frame every privileged operation repeats around its `try` block:

    await ensureConnected();
    if (isProcessing) { alert(busyText); return; }
    [ if (!confirm(question)) { return; } ]
    const button = event.target; ...
    isProcessing = true; button.disabled = true; button.innerText = label;
    try { body } catch (e) { handler } finally {
      isProcessing = false; button.disabled = false; button.innerText = originalText; }

`confirmFirst` is the question of the operations that ask before they set the
guard. The button is the target of the click being handled. A throw of the
handler leaves through the `finally` as well. -/
def privileged (busyText : String) (confirmFirst : Option String) (label : String)
    (body : State → Run) (handler : JSVal → State → Run) (env : Env) (s : State) : Run :=
  (ensureConnected env s).andThen fun s0 =>
    if s0.isProcessing then ⟨s0, [.alert busyText], .ok ()⟩
    else if declines env confirmFirst then ⟨s0, askedEvents confirmFirst, .ok ()⟩
    else
      ⟨{ (tryCatch (body { s0 with isProcessing := true }) handler).st with
          isProcessing := false },
        askedEvents confirmFirst ++ [.buttonBusy label] ++
          (tryCatch (body { s0 with isProcessing := true }) handler).log ++ [.buttonRestore],
        (tryCatch (body { s0 with isProcessing := true }) handler).res⟩

/-- The `catch` clause of most operations: `errorLog(tag, e); alert(friendlyError(e));`. -/
def reportError (tag : String) (e : JSVal) (s : State) : Run :=
  ⟨s, [.errorLog tag, .alert (friendlyError e)], .ok ()⟩

/-- The gas limit the operations send: `gas.mul(factor).div(100)` on a
`BigNumber`, whose division truncates. -/
def gasLimit (factor : Nat) (gas : Nat) : Nat := gas * factor / 100

/-- The warning shown when `tx.wait()` throws after a submission. -/
def msgWaitWarning (explorerUrl hash : String) : String :=
  "⚠️ 트랜잭션 전송은 완료되었으나 확인 중 오류 발생\n\nExplorer에서 확인: " ++
    explorerUrl ++ "/tx/" ++ hash

/-- The statements

    const CONTRACT_ADDRESS = getContractAddress(Network);
    const contract = new ethers.Contract(CONTRACT_ADDRESS, NFT_ABI, ethersSigner);

which throw when the constructor does. -/
def newContract (env : Env) (s : State) : Run :=
  match env.newContract with
  | .error e => ⟨s, [], .error e⟩
  | .ok _ => ⟨s, [], .ok ()⟩

/-- The statements every ordinary operation repeats once it holds the
contract:

    const gas = await contract.estimateGas.method(...args);
    const tx = await contract.method(...args, { gasLimit: gas.mul(120).div(100) });
    const explorerUrl = getExplorerUrl(Network);
    alert(sent);
    try { await tx.wait(); alert(done); } catch (waitError) { alert(warning); }

`sent` and `done` build the two texts from the explorer URL and the hash. -/
def submitAndWait (env : Env) (s : State) (method : String) (args : List Arg)
    (sent : String → String → String) (done : String → String) : Run :=
  match env.estimateGas method args with
  | .error e => ⟨s, [.estimateGas method args], .error e⟩
  | .ok gas =>
    match env.send method args (gasLimit 120 gas) with
    | .error e =>
      ⟨s, [.estimateGas method args, .send method args (gasLimit 120 gas)], .error e⟩
    | .ok hash =>
      ⟨s, [.estimateGas method args, .send method args (gasLimit 120 gas),
           .alert (sent (getExplorerUrl s.Network) hash), .wait hash,
           match env.wait hash with
           | .ok _ => .alert (done hash)
           | .error _ => .alert (msgWaitWarning (getExplorerUrl s.Network) hash)],
        .ok ()⟩

/-! ## minting.js -/

/-- The `try` block of `ownerMint`. -/
def ownerMintBody (env : Env) (s : State) : Run :=
  (checkAndSwitchNetwork env s).andThen fun s =>
    let mintTo := jsTrim (env.value "mintTo")
    let amount := jsTrim (env.value "mintAmount")
    if !isValidEthereumAddress (.str mintTo) then
      ⟨s, [], .error (mkError "올바른 주소 형식이 아닙니다.")⟩
    else if !isValidIntegerNum (env.toNumber amount) 1 100 then
      ⟨s, [], .error (mkError "민팅 수량은 1~100 사이의 정수여야 합니다.")⟩
    else
      (newContract env s).andThen fun s =>
      (submitAndWait env s "safeMint" [.str mintTo, .str amount]
        (fun url hash => "⏳ 트랜잭션 전송됨\n\n트랜잭션 해시: " ++ hash ++ "\n\n" ++ url ++ "/tx/" ++ hash)
        (fun hash => "✅ 민팅 완료!\n\n수량: " ++ amount ++ "개\n받는 주소: " ++ shortenAddress mintTo ++
          "\n\n트랜잭션 해시: " ++ hash)).andThen fun s =>
      (updateWalletInfo env s).andThen fun s =>
      (loadContractState env s).andThen fun s =>
        ⟨s, [.setElement "mintTo" "", .setElement "mintAmount" ""], .ok ()⟩

/-- `ownerMint()` of minting.js. -/
def ownerMint (env : Env) (s : State) : Run :=
  privileged msgBusy none labelPending (ownerMintBody env) (reportError "Owner 민팅 실패:") env s

/-- `collectWhitelistAddresses(mode)` of minting.js: the trimmed, non-empty
values of the input slots of the mode, in order; `[]` without the container. -/
def collectWhitelistAddresses (env : Env) (mode : String) : List String :=
  match env.slots (if mode == "add" then "whitelistAddInputs" else "whitelistRemoveInputs") with
  | none => []
  | some values => (values.map jsTrim).filter (fun v => v.data != [])

/-- The line reported for an invalid entry at index `i` (from 0). -/
def formatErrorLine (i : Nat) (addr : String) : String :=
  natToString (i + 1) ++ "번: 잘못된 주소 형식 (" ++ addr ++ ")"

/-- The validation loop of the batch operations, from index `i` on:

    for (let i = 0; i < rawAddresses.length; i++) {
      const addr = rawAddresses[i];
      if (isValidEthereumAddress(addr)) addresses.push(addr);
      else errors.push(...);
    }

It returns `addresses` and `errors`. -/
def validateAddresses : Nat → List String → List String × List String
  | _, [] => ([], [])
  | i, addr :: rest =>
    if isValidEthereumAddress (.str addr) then
      (addr :: (validateAddresses (i + 1) rest).1, (validateAddresses (i + 1) rest).2)
    else
      ((validateAddresses (i + 1) rest).1,
        formatErrorLine i addr :: (validateAddresses (i + 1) rest).2)

/-- What the local checks of a batch operation decide, before any contract
call. -/
inductive BatchCheck where
  /-- The collected list is empty: `throw new Error("주소 목록이 비어있습니다.")`. -/
  | emptyList : BatchCheck
  /-- Some entry is invalid: the lines are shown in an alert and the
  operation returns. -/
  | formatErrors (errors : List String) : BatchCheck
  /-- No valid address: `throw new Error("유효한 주소가 없습니다.")`. -/
  | noValid : BatchCheck
  /-- More than 100 addresses: the capacity error is thrown. -/
  | tooMany : BatchCheck
  /-- The list passed: the validated addresses, which go on to
  `uniqueArray`. -/
  | ready (addresses : List String) : BatchCheck
  deriving DecidableEq, Repr

/-- The local checks of `addWhitelistBatch` and `removeWhitelistBatch`, in the
order of the source: empty list, validation, format errors, no valid address,
and `addresses.length > 100`. -/
def checkBatch (rawAddresses : List String) : BatchCheck :=
  if rawAddresses.length == 0 then .emptyList
  else
    let addresses := (validateAddresses 0 rawAddresses).1
    let errors := (validateAddresses 0 rawAddresses).2
    if errors.length > 0 then .formatErrors errors
    else if addresses.length == 0 then .noValid
    else if addresses.length > 100 then .tooMany
    else .ready addresses

/-- The statements after the checks:

    const uniqueAddresses = uniqueArray(addresses);
    if (uniqueAddresses.length !== addresses.length) {
      alert(... addresses.length - uniqueAddresses.length ...); }

as the alerts they raise. -/
def duplicateNotice (addresses : List String) : List Event :=
  if (uniqueArray addresses).length != addresses.length then
    [.alert ("⚠️ 중복된 주소가 " ++
      natToString (addresses.length - (uniqueArray addresses).length) ++
      "개 발견되어 제거되었습니다.")]
  else []

/-- The `try` block of `addWhitelistBatch` (`isAdd`) and of
`removeWhitelistBatch`; the two differ in the mode, the method, the element
ids and the words for adding and removing. -/
def whitelistBatchBody (isAdd : Bool) (env : Env) (s : State) : Run :=
  (checkAndSwitchNetwork env s).andThen fun s =>
    match checkBatch (collectWhitelistAddresses env (if isAdd then "add" else "remove")) with
    | .emptyList => ⟨s, [], .error (mkError "주소 목록이 비어있습니다.")⟩
    | .formatErrors errors =>
      ⟨s, [.alert ("❌ 주소 형식 오류:\n\n" ++ String.intercalate "\n" errors)], .ok ()⟩
    | .noValid => ⟨s, [], .error (mkError "유효한 주소가 없습니다.")⟩
    | .tooMany =>
      ⟨s, [], .error (mkError (if isAdd then "한 번에 최대 100개까지만 추가할 수 있습니다."
        else "한 번에 최대 100개까지만 제거할 수 있습니다."))⟩
    | .ready addresses =>
      let uniqueAddresses := uniqueArray addresses
      let count := natToString uniqueAddresses.length
      (Run.mk s (duplicateNotice addresses) (.ok ())).andThen fun s =>
      (newContract env s).andThen fun s =>
      (submitAndWait env s (if isAdd then "addWhitelist" else "removeWhitelist")
        [.list uniqueAddresses]
        (fun url hash => "⏳ 트랜잭션 전송됨\n\n" ++ (if isAdd then "추가 주소: " else "제거 주소: ") ++
          count ++ "개\n\n" ++ url ++ "/tx/" ++ hash)
        (fun hash => (if isAdd then "✅ 화이트리스트 추가 완료!\n\n추가된 주소: "
            else "✅ 화이트리스트 제거 완료!\n\n제거된 주소: ") ++
          count ++ "개\n\n트랜잭션 해시: " ++ hash)).andThen fun s =>
        ⟨s, [.setElement (if isAdd then "whitelistAddCount" else "whitelistRemoveCount") "",
             .setElement (if isAdd then "whitelistAddInputs" else "whitelistRemoveInputs") "",
             .setElement (if isAdd then "whitelistPreview" else "whitelistRemovePreview") ""],
          .ok ()⟩

/-- `addWhitelistBatch()` of minting.js. -/
def addWhitelistBatch (env : Env) (s : State) : Run :=
  privileged msgBusy none labelPending (whitelistBatchBody true env)
    (reportError "화이트리스트 추가 실패:") env s

/-- `removeWhitelistBatch()` of minting.js. -/
def removeWhitelistBatch (env : Env) (s : State) : Run :=
  privileged msgBusy none labelPending (whitelistBatchBody false env)
    (reportError "화이트리스트 제거 실패:") env s

/-- The `try` block of `setWhitelistSingle`. -/
def setWhitelistSingleBody (env : Env) (s : State) : Run :=
  (checkAndSwitchNetwork env s).andThen fun s =>
    let address := jsTrim (env.value "whitelistSingleAddress")
    let status := env.value "whitelistSingleStatus" == "true"
    let action := if status then "추가" else "제거"
    if !isValidEthereumAddress (.str address) then
      ⟨s, [], .error (mkError "올바른 주소 형식이 아닙니다.")⟩
    else
      (newContract env s).andThen fun s =>
      (submitAndWait env s "setWhitelist" [.str address, .bool status]
        (fun url hash => "⏳ 트랜잭션 전송됨\n\n화이트리스트 " ++ action ++ "\n주소: " ++
          shortenAddress address ++ "\n\n" ++ url ++ "/tx/" ++ hash)
        (fun hash => "✅ 화이트리스트 " ++ action ++ " 완료!\n\n주소: " ++
          shortenAddress address ++ "\n\n트랜잭션 해시: " ++ hash)).andThen fun s =>
        ⟨s, [.setElement "whitelistSingleAddress" ""], .ok ()⟩

/-- `setWhitelistSingle()` of minting.js. -/
def setWhitelistSingle (env : Env) (s : State) : Run :=
  privileged msgBusy none labelPending (setWhitelistSingleBody env)
    (reportError "화이트리스트 설정 실패:") env s

/-! ## minting.js: the previews of the text areas -/

/-- `input.split('\n')` on the characters of a string. -/
def splitLines : List Char → List (List Char)
  | [] => [[]]
  | c :: cs =>
    if c == '\n' then [] :: splitLines cs
    else
      match splitLines cs with
      | l :: ls => (c :: l) :: ls
      | [] => [[c]]

/-- The constant `lines` of `previewWhitelist` and `previewWhitelistRemove`:

    input.split('\n').map(line => line.trim()).filter(line => line.length > 0) -/
def previewLines (input : String) : List String :=
  ((splitLines input.data).map fun l => jsTrim ⟨l⟩).filter fun l => l.data != []

/-- The loop of `previewWhitelist` and `previewWhitelistRemove`, from `index`
on:

    lines.forEach((addr, index) => {
      if (isValidEthereumAddress(addr)) validAddresses.push(addr);
      else invalidAddresses.push("줄 " + (index + 1) + ": " + addr);
    });

It returns `validAddresses` and `invalidAddresses`. -/
def previewSplit : Nat → List String → List String × List String
  | _, [] => ([], [])
  | index, addr :: rest =>
    if isValidEthereumAddress (.str addr) then
      (addr :: (previewSplit (index + 1) rest).1, (previewSplit (index + 1) rest).2)
    else
      ((previewSplit (index + 1) rest).1,
        ("줄 " ++ natToString (index + 1) ++ ": " ++ addr) :: (previewSplit (index + 1) rest).2)

/-- The last part of the text of the two previews, on the number of addresses
left by `uniqueArray`:

    if (uniqueAddresses.length > 100) {
      previewText += "\n\n⚠️ 한 번에 최대 100개까지만 추가할 수 있습니다. (현재: N개)"; }

with the word for removing in `previewWhitelistRemove`. -/
def previewCapacityNotice (isAdd : Bool) (uniqueCount : Nat) : String :=
  if uniqueCount > 100 then
    "\n\n⚠️ 한 번에 최대 100개까지만 " ++ (if isAdd then "추가" else "제거") ++
      "할 수 있습니다. (현재: " ++ natToString uniqueCount ++ "개)"
  else ""

/-- The text the two previews build from `lines`: the number of valid
addresses after `uniqueArray`, the number of duplicates, the first five invalid
lines, and the capacity notice. -/
def previewWhitelistOfLines (isAdd : Bool) (lines : List String) : String :=
  "✅ 유효한 주소: " ++ natToString (uniqueArray (previewSplit 0 lines).1).length ++ "개\n" ++
  (if (previewSplit 0 lines).1.length - (uniqueArray (previewSplit 0 lines).1).length > 0 then
    "⚠️ 중복 주소: " ++
      natToString
        ((previewSplit 0 lines).1.length - (uniqueArray (previewSplit 0 lines).1).length) ++
      "개 (제거됨)\n"
   else "") ++
  (if (previewSplit 0 lines).2.length > 0 then
    "\n❌ 잘못된 형식 (" ++ natToString (previewSplit 0 lines).2.length ++ "개):\n" ++
      String.intercalate "\n" ((previewSplit 0 lines).2.take 5) ++
      (if (previewSplit 0 lines).2.length > 5 then
        "\n... 외 " ++ natToString ((previewSplit 0 lines).2.length - 5) ++ "개"
       else "")
   else "") ++
  previewCapacityNotice isAdd (uniqueArray (previewSplit 0 lines).1).length

/-- The text that `previewWhitelist()` (`isAdd`) and `previewWhitelistRemove()`
of minting.js assign to their preview element, for the value `input` of their
text area; the two functions differ in the elements and in the word of the
capacity notice. -/
def previewWhitelistText (isAdd : Bool) (input : String) : String :=
  if (jsTrim input).data == [] then ""
  else previewWhitelistOfLines isAdd (previewLines (jsTrim input))

/-! ## minting.js: the input slots and the preview -/

/-- The value of a decimal digit. -/
def decDigitVal (c : Char) : Option Nat :=
  if '0' ≤ c ∧ c ≤ '9' then some (c.toNat - 48) else none

/-- The value of the longest prefix of decimal digits, `none` when it is
empty. `acc` holds the digits read so far. -/
def decPrefixValue : Option Nat → List Char → Option Nat
  | acc, [] => acc
  | acc, c :: cs =>
    match decDigitVal c with
    | none => acc
    | some d => decPrefixValue (some (10 * acc.getD 0 + d)) cs

/-- `parseInt(s, 10)` on a string: leading white space is skipped, then a sign,
then the longest run of decimal digits; `none` is `NaN`. The value is kept
exact; the only caller clamps it to at most 100, which gives the same result
as clamping the rounded floating-point value. -/
def parseInt10 (s : String) : Option Int :=
  let t := s.data.dropWhile jsWhiteSpace
  let neg := t.head? == some '-'
  let t1 := if t.head? == some '-' || t.head? == some '+' then t.drop 1 else t
  match decPrefixValue none t1 with
  | none => none
  | some v => some (if neg then - (v : Int) else (v : Int))

/-- `clampInt(v, min, max)` of minting.js on a string `v`:

    const n = parseInt(String(v ?? "").trim(), 10);
    if (Number.isNaN(n)) return null;
    return Math.max(min, Math.min(max, n)); -/
def clampInt (v : String) (lo hi : Int) : Option Int :=
  match parseInt10 (jsTrim v) with
  | none => none
  | some n => some (max lo (min hi n))

/-- `a.toLowerCase()` on a string. `previewWhitelistDynamic` applies it to
valid addresses only, which are ASCII. -/
def lowerString (a : String) : String := ⟨toLowerCase a.data⟩

/-- The loop of `previewWhitelistDynamic`, from index `idx` on:

    raw.forEach((a, idx) => {
      if (!isValidEthereumAddress(a)) invalid.push(idx + 1 + "번: " + a);
      else valid.push(a);
    });

It returns `invalid` and `valid`. -/
def previewPartition : Nat → List String → List String × List String
  | _, [] => ([], [])
  | idx, a :: rest =>
    if !isValidEthereumAddress (.str a) then
      ((natToString (idx + 1) ++ "번: " ++ a) :: (previewPartition (idx + 1) rest).1,
        (previewPartition (idx + 1) rest).2)
    else
      ((previewPartition (idx + 1) rest).1, a :: (previewPartition (idx + 1) rest).2)

/-- The constant `unique` of `previewWhitelistDynamic`:
`[...new Set(valid.map(a => a.toLowerCase()))].length`. -/
def previewUnique (valid : List String) : Nat :=
  (uniqueArray (valid.map lowerString)).length

/-- The part of the preview about the invalid entries:

    invalid.length ? "\n❌ 잘못된 주소:\n- " + invalid.slice(0, 10).join("\n- ")
                     + (invalid.length > 10 ? "\n- ..." : "") : "" -/
def previewInvalidText (invalid : List String) : String :=
  if invalid.length != 0 then
    "\n❌ 잘못된 주소:\n- " ++ String.intercalate "\n- " (invalid.take 10) ++
      (if invalid.length > 10 then "\n- ..." else "")
  else ""

/-- The text `previewWhitelistDynamic` shows for a non-empty list of collected
entries. -/
def previewText (raw : List String) : String :=
  "입력: " ++ natToString raw.length ++ "개\n" ++
  "유효: " ++ natToString (previewPartition 0 raw).2.length ++ "개 (유니크: " ++
    natToString (previewUnique (previewPartition 0 raw).2) ++ "개)\n" ++
  previewInvalidText (previewPartition 0 raw).1

/-- The id of the count input of a mode:
`isAdd ? "whitelistAddCount" : "whitelistRemoveCount"`. -/
def whitelistCountId (mode : String) : String :=
  if mode == "add" then "whitelistAddCount" else "whitelistRemoveCount"

/-- The id of the container of the slots of a mode:
`isAdd ? "whitelistAddInputs" : "whitelistRemoveInputs"`. -/
def whitelistWrapId (mode : String) : String :=
  if mode == "add" then "whitelistAddInputs" else "whitelistRemoveInputs"

/-- The id of the preview element of a mode:
`isAdd ? "whitelistPreview" : "whitelistRemovePreview"`. -/
def whitelistPreviewId (mode : String) : String :=
  if mode == "add" then "whitelistPreview" else "whitelistRemovePreview"

/-- `previewWhitelistDynamic(mode)` of minting.js: it reads the slots and
assigns the `innerText` of the preview element, and nothing else. -/
def previewWhitelistDynamic (env : Env) (mode : String) : List Event :=
  if !env.present (whitelistPreviewId mode) then []
  else
    let raw := collectWhitelistAddresses env mode
    if raw.length == 0 then [.setElement (whitelistPreviewId mode) ""]
    else [.setElement (whitelistPreviewId mode) (previewText raw)]

/-- The page after `wrap.innerHTML = ""` and the appended inputs: the
container `wrapId` holds the given slots. -/
def withSlots (env : Env) (wrapId : String) (values : List String) : Env :=
  { env with slots := fun id => if id == wrapId then some values else env.slots id }

/-- `renderWhitelistInputs(mode, force)` of minting.js: the page afterwards and
the assignments to the preview element. The new slot `i` holds
`oldValues[i] || ""`. -/
def renderWhitelistInputs (env : Env) (mode : String) (force : Bool) : Env × List Event :=
  if !env.present (whitelistCountId mode) then (env, [])
  else
    match env.slots (whitelistWrapId mode) with
    | none => (env, [])
    | some oldValues =>
      match clampInt (env.value (whitelistCountId mode)) 1 100 with
      | none =>
        (withSlots env (whitelistWrapId mode) [],
          if env.present (whitelistPreviewId mode) then
            [.setElement (whitelistPreviewId mode) ""] else [])
      | some n =>
        if n == 0 then
          (withSlots env (whitelistWrapId mode) [],
            if env.present (whitelistPreviewId mode) then
              [.setElement (whitelistPreviewId mode) ""] else [])
        else if !force && (oldValues.length : Int) == n then (env, [])
        else
          (withSlots env (whitelistWrapId mode)
              ((List.range n.toNat).map fun i => oldValues.getD i ""),
            previewWhitelistDynamic
              (withSlots env (whitelistWrapId mode)
                ((List.range n.toNat).map fun i => oldValues.getD i ""))
              mode)

/-! ## settings.js -/

/-- The question `startNewRound` asks inside its `try` block. -/
def startNewRoundQuestion (currentEpoch : Nat) : String :=
  "⚠️ 새 라운드를 시작하시겠습니까?\n\n" ++
  "현재 라운드: " ++ natToString currentEpoch ++ "\n" ++
  "다음 라운드: " ++ natToString (currentEpoch + 1) ++ "\n\n" ++
  "🔥 주의사항:\n" ++
  "1. 이 작업은 되돌릴 수 없습니다!\n" ++
  "2. 모든 사용자의 민팅 한도가 초기화됩니다.\n" ++
  "3. 트랜잭션 후 \"현재 라운드 조회\"로 확인하세요!\n\n" ++
  "💡 판매 설정(가격, 종료 ID)은 \"종합 판매 설정\"에서 별도로 진행하세요."

/-- The alert of `startNewRound` after the submission. -/
def startNewRoundSent (hash : String) : String :=
  "🚀 라운드 시작 트랜잭션이 전송되었습니다!\n\n" ++
  "Tx Hash: " ++ hash ++ "\n\n" ++
  "⏳ 블록 확인 중... (30초~1분 소요)\n\n" ++
  "⚠️ 취소 알람이 떠도 성공했을 수 있으니\n" ++
  "   \"현재 라운드 조회\"로 꼭 확인하세요!"

/-- The alert of `startNewRound` after a receipt with status 1. The hash shown
is `receipt.transactionHash`, the hash of the transaction waited for. -/
def startNewRoundDone (currentEpoch : Nat) (hash : String) : String :=
  "✅ 새 라운드 시작 성공!\n\n" ++
  "라운드: " ++ natToString currentEpoch ++ " → " ++ natToString (currentEpoch + 1) ++ "\n" ++
  "모든 사용자의 민팅 한도가 초기화되었습니다.\n\n" ++
  "📌 다음 단계:\n" ++
  "1. \"현재 라운드 조회\"로 라운드 번호 확인\n" ++
  "2. \"종합 판매 설정\"에서 가격/종료 ID 설정\n\n" ++
  "Tx Hash: " ++ hash

/-- The `try` block of `startNewRound`: the confirmation is asked inside it, the
gas limit is `gas.mul(130).div(100)`, and `tx.wait()` is not wrapped in a
`try` of its own. -/
def startNewRoundBody (env : Env) (s : State) : Run :=
  (checkAndSwitchNetwork env s).andThen fun s =>
    match env.newContract with
    | .error e => ⟨s, [], .error e⟩
    | .ok _ =>
      match env.readNat "currentEpoch" with
      | .error e => ⟨s, [.read "currentEpoch"], .error e⟩
      | .ok currentEpoch =>
        if !env.confirm (startNewRoundQuestion currentEpoch) then
          ⟨s, [.read "currentEpoch", .confirm (startNewRoundQuestion currentEpoch)],
            .error (mkError "사용자가 취소했습니다.")⟩
        else
          match env.estimateGas "startNewRound" [] with
          | .error e =>
            ⟨s, [.read "currentEpoch", .confirm (startNewRoundQuestion currentEpoch),
                 .estimateGas "startNewRound" []], .error e⟩
          | .ok gas =>
            match env.send "startNewRound" [] (gasLimit 130 gas) with
            | .error e =>
              ⟨s, [.read "currentEpoch", .confirm (startNewRoundQuestion currentEpoch),
                   .estimateGas "startNewRound" [],
                   .send "startNewRound" [] (gasLimit 130 gas)], .error e⟩
            | .ok hash =>
              let sentLog : List Event :=
                [.read "currentEpoch", .confirm (startNewRoundQuestion currentEpoch),
                 .estimateGas "startNewRound" [],
                 .send "startNewRound" [] (gasLimit 130 gas),
                 .alert (startNewRoundSent hash), .wait hash]
              match env.wait hash with
              | .error e => ⟨s, sentLog, .error e⟩
              | .ok status =>
                if status == 1 then
                  ⟨(env.loadDashboardInfo s).1,
                    sentLog ++ [.alert (startNewRoundDone currentEpoch hash),
                      .refresh "loadDashboardInfo"],
                    (env.loadDashboardInfo s).2⟩
                else ⟨s, sentLog, .error (mkError "트랜잭션이 실패했습니다.")⟩

/-- The `catch` clause of `startNewRound`:
`console.error("startNewRound 에러:", error); handleError(error, "새 라운드 시작");`. -/
def startNewRoundCatch (env : Env) (e : JSVal) (s : State) : Run :=
  ⟨(env.handleError e "새 라운드 시작" s).1, [.errorLog "startNewRound 에러:"],
    (env.handleError e "새 라운드 시작" s).2⟩

/-- `startNewRound()` of settings.js. -/
def startNewRound (env : Env) (s : State) : Run :=
  privileged msgBusyShort none labelPending (startNewRoundBody env) (startNewRoundCatch env) env s

/-- `parseEther(eth)` of utils.js: the amount in wei, or, when the library
call throws, a log line and `new Error("숫자 형식이 올바르지 않습니다.")`. -/
def parseEther (env : Env) (eth : String) : List Event × Except JSVal String :=
  match env.etherToWei eth with
  | .ok wei => ([], .ok wei)
  | .error _ => ([.errorLog "parseEther 오류:"], .error (mkError "숫자 형식이 올바르지 않습니다."))

/-- The pending label of `setSaleConfig`. -/
def labelPendingShort : String := "⏳ 처리 중."

/-- The error of `setSaleConfig` for an end id above `maxSupply`. -/
def msgEndAboveMaxSupply (endBN : Int) (maxSupply : Nat) : String :=
  "판매 종료 ID가 maxSupply를 초과했습니다.\n\n" ++
  "- 입력값: " ++ intToString endBN ++ "\n" ++
  "- maxSupply: " ++ natToString maxSupply

/-- The error of `setSaleConfig` for an end id below `totalMinted`. -/
def msgEndBelowMinted (endBN : Int) (totalMinted : Nat) : String :=
  "판매 종료 ID가 현재 민팅된 개수보다 작습니다.\n\n" ++
  "- 입력값: " ++ intToString endBN ++ "\n" ++
  "- 현재 민팅됨(totalMinted): " ++ natToString totalMinted

/-- The reads `Promise.all([contract.maxSupply(), contract.totalMinted()])` of
`setSaleConfig`: both calls are made; the rejection of one rejects the whole
(when both reject, the one of `maxSupply` is reported here). -/
def readSupplyAndMinted (env : Env) : Except JSVal (Nat × Nat) :=
  match env.readNat "maxSupply", env.readNat "totalMinted" with
  | .ok maxSupply, .ok totalMinted => .ok (maxSupply, totalMinted)
  | .error e, _ => .error e
  | .ok _, .error e => .error e

/-- The `try` block of `setSaleConfig`. -/
def setSaleConfigBody (env : Env) (s : State) : Run :=
  (checkAndSwitchNetwork env s).andThen fun s =>
    let whitelistCost := jsTrim (env.value "saleWhitelistCost")
    let publicCost := jsTrim (env.value "salePublicCost")
    let endTokenId := jsTrim (env.value "saleEndTokenId")
    let whitelistStart := env.checked "saleWhitelistStart"
    let publicStart := env.checked "salePublicStart"
    if !isValidAmountNum (env.toNumber whitelistCost) 0 maxSafeInteger then
      ⟨s, [], .error (mkError "화이트리스트 가격 형식이 올바르지 않습니다.")⟩
    else if !isValidAmountNum (env.toNumber publicCost) 0 maxSafeInteger then
      ⟨s, [], .error (mkError "퍼블릭 가격 형식이 올바르지 않습니다.")⟩
    else if !isValidIntegerNum (env.toNumber endTokenId) 1 maxSafeInteger then
      ⟨s, [], .error (mkError "판매 종료 ID는 1 이상인 정수여야 합니다.")⟩
    else
      (newContract env s).andThen fun s =>
        match readSupplyAndMinted env with
        | .error e => ⟨s, [.read "maxSupply", .read "totalMinted"], .error e⟩
        | .ok (maxSupply, totalMinted) =>
          match env.bigNumberFrom endTokenId with
          | .error e => ⟨s, [.read "maxSupply", .read "totalMinted"], .error e⟩
          | .ok endBN =>
            if endBN > (maxSupply : Int) then
              ⟨s, [.read "maxSupply", .read "totalMinted"],
                .error (mkError (msgEndAboveMaxSupply endBN maxSupply))⟩
            else if endBN < (totalMinted : Int) then
              ⟨s, [.read "maxSupply", .read "totalMinted"],
                .error (mkError (msgEndBelowMinted endBN totalMinted))⟩
            else
              match parseEther env whitelistCost with
              | (evs, .error e) => ⟨s, [.read "maxSupply", .read "totalMinted"] ++ evs, .error e⟩
              | (_, .ok whitelistCostWei) =>
                match parseEther env publicCost with
                | (evs, .error e) =>
                  ⟨s, [.read "maxSupply", .read "totalMinted"] ++ evs, .error e⟩
                | (_, .ok publicCostWei) =>
                  (Run.mk s [.read "maxSupply", .read "totalMinted"] (.ok ())).andThen fun s =>
                  (submitAndWait env s "setSaleConfig"
                    [.str whitelistCostWei, .str publicCostWei, .str endTokenId,
                     .bool whitelistStart, .bool publicStart]
                    (fun url hash => "⏳ 트랜잭션 전송됨\n\n판매 설정 업데이트\n\n" ++ url ++
                      "/tx/" ++ hash)
                    (fun hash => "✅ 판매 설정 업데이트 완료!\n\n" ++
                      "화이트리스트: " ++ (if whitelistStart then "시작" else "중지") ++ "\n" ++
                      "퍼블릭: " ++ (if publicStart then "시작" else "중지") ++ "\n" ++
                      "화이트리스트 가격: " ++ whitelistCost ++ " ETH\n" ++
                      "퍼블릭 가격: " ++ publicCost ++ " ETH\n" ++
                      "판매 종료 ID: " ++ endTokenId ++ "\n\n" ++
                      "트랜잭션 해시: " ++ hash)).andThen fun s =>
                    loadContractState env s

/-- `setSaleConfig()` of settings.js. -/
def setSaleConfig (env : Env) (s : State) : Run :=
  privileged msgBusyShort none labelPendingShort (setSaleConfigBody env)
    (reportError "판매 설정 실패:") env s

/-- The `catch` clause of the three toggles: the report, and then
`checkbox.checked = !checkbox.checked`. -/
def reportErrorAndRevert (tag id : String) (env : Env) (e : JSVal) (s : State) : Run :=
  ⟨s, [.errorLog tag, .alert (friendlyError e), .setChecked id (!env.checked id)], .ok ()⟩

/-- The `try` block of the three toggles `toggleWhitelistSale`,
`togglePublicSale` and `togglePause`, which differ in the checkbox, the
method, the subject named in the alerts and the two words for on and off. -/
def toggleBody (id method subject onWord offWord : String) (env : Env) (s : State) : Run :=
  (checkAndSwitchNetwork env s).andThen fun s =>
    let state := env.checked id
    let action := if state then onWord else offWord
    (newContract env s).andThen fun s =>
    (submitAndWait env s method [.bool state]
      (fun url hash => "⏳ 트랜잭션 전송됨\n\n" ++ subject ++ " " ++ action ++ "\n\n" ++ url ++
        "/tx/" ++ hash)
      (fun hash => "✅ " ++ subject ++ " " ++ action ++ " 완료!\n\n트랜잭션 해시: " ++
        hash)).andThen fun s =>
      loadContractState env s

/-- `toggleWhitelistSale()` of settings.js. -/
def toggleWhitelistSale (env : Env) (s : State) : Run :=
  privileged msgBusy none labelPending
    (toggleBody "quickWhitelistStart" "setWhitelistStart" "화이트리스트 판매" "시작" "중지" env)
    (reportErrorAndRevert "화이트리스트 판매 토글 실패:" "quickWhitelistStart" env) env s

/-- `togglePublicSale()` of settings.js. -/
def togglePublicSale (env : Env) (s : State) : Run :=
  privileged msgBusy none labelPending
    (toggleBody "quickPublicStart" "setPublicStart" "퍼블릭 판매" "시작" "중지" env)
    (reportErrorAndRevert "퍼블릭 판매 토글 실패:" "quickPublicStart" env) env s

/-- `togglePause()` of settings.js. -/
def togglePause (env : Env) (s : State) : Run :=
  privileged msgBusy none labelPending
    (toggleBody "pauseCheckbox" "pause" "컨트랙트" "일시정지" "재개" env)
    (reportErrorAndRevert "일시정지 토글 실패:" "pauseCheckbox" env) env s

/-- The `try` block of the five limit setters `setMaxSupply`,
`setMaxWhitelistMintPerTx`, `setMaxPublicMintPerTx`, `setMaxWhitelistBatchSize`
and `setMaxOperatorMintAmount`, which differ in the input, the upper bound of
`isValidInteger(value, 1, max)`, the method and the texts; `shown` is how the
alerts print the value. -/
def limitBody (id : String) (max : ℚ) (invalid method sentLabel doneHead doneLabel : String)
    (shown : String → String) (env : Env) (s : State) : Run :=
  (checkAndSwitchNetwork env s).andThen fun s =>
    let value := jsTrim (env.value id)
    if !isValidIntegerNum (env.toNumber value) 1 max then ⟨s, [], .error (mkError invalid)⟩
    else
      (newContract env s).andThen fun s =>
      (submitAndWait env s method [.str value]
        (fun url hash => "⏳ 트랜잭션 전송됨\n\n" ++ sentLabel ++ shown value ++ "개\n\n" ++ url ++
          "/tx/" ++ hash)
        (fun hash => doneHead ++ "\n\n" ++ doneLabel ++ shown value ++ "개\n\n트랜잭션 해시: " ++
          hash)).andThen fun s =>
      (loadContractState env s).andThen fun s =>
        ⟨s, [.setElement id ""], .ok ()⟩

/-- `setMaxSupply()` of settings.js. -/
def setMaxSupply (env : Env) (s : State) : Run :=
  privileged msgBusy none labelPending
    (limitBody "newMaxSupply" maxSafeInteger "최대 발행량은 1 이상의 정수여야 합니다."
      "setMaxSupply" "새 최대 발행량: " "✅ 최대 발행량 업데이트 완료!" "새 최대 발행량: "
      env.formatNumber env)
    (reportError "최대 발행량 설정 실패:") env s

/-- `setMaxWhitelistMintPerTx()` of settings.js. -/
def setMaxWhitelistMintPerTx (env : Env) (s : State) : Run :=
  privileged msgBusy none labelPending
    (limitBody "newMaxWhitelistMintPerTx" 2
      "화이트리스트 1회 민팅 제한은 1~2 사이의 정수여야 합니다."
      "setMaxWhitelistMintPerTx" "새 화이트리스트 1회 제한: "
      "✅ 화이트리스트 1회 제한 설정 완료!" "새 제한: " (fun v => v) env)
    (reportError "화이트리스트 1회 제한 설정 실패:") env s

/-- `setMaxPublicMintPerTx()` of settings.js. -/
def setMaxPublicMintPerTx (env : Env) (s : State) : Run :=
  privileged msgBusy none labelPending
    (limitBody "newMaxPublicMintPerTx" 12
      "퍼블릭 1회 민팅 제한은 1~12 사이의 정수여야 합니다."
      "setMaxPublicMintPerTx" "새 퍼블릭 1회 제한: "
      "✅ 퍼블릭 1회 제한 설정 완료!" "새 제한: " (fun v => v) env)
    (reportError "퍼블릭 1회 제한 설정 실패:") env s

/-- `setMaxWhitelistBatchSize()` of settings.js. -/
def setMaxWhitelistBatchSize (env : Env) (s : State) : Run :=
  privileged msgBusy none labelPending
    (limitBody "newMaxWhitelistBatchSize" 300 "배치 크기는 1~300 사이의 정수여야 합니다."
      "setMaxWhitelistBatchSize" "새 배치 크기: "
      "✅ 화이트리스트 배치 크기 업데이트 완료!" "새 배치 크기: " (fun v => v) env)
    (reportError "화이트리스트 배치 크기 설정 실패:") env s

/-- `setMaxOperatorMintAmount()` of settings.js. -/
def setMaxOperatorMintAmount (env : Env) (s : State) : Run :=
  privileged msgBusy none labelPending
    (limitBody "newMaxOperatorMintAmount" maxSafeInteger
      "최대 민팅 수량은 1 이상의 정수여야 합니다."
      "setMaxOperatorMintAmount" "새 운영자 최대 민팅 수량: "
      "✅ 운영자 최대 민팅 수량 업데이트 완료!" "새 수량: " (fun v => v) env)
    (reportError "운영자 최대 민팅 수량 설정 실패:") env s

/-- `isValidURI(uri)` of utils.js on a string: not empty, and either
`new URL(uri)` succeeds or the text starts with `ipfs://` or `ar://`. -/
def isValidURI (env : Env) (uri : String) : Bool :=
  if uri.data == [] then false
  else if env.urlParses uri then true
  else startsWith "ipfs://".data uri.data || startsWith "ar://".data uri.data

/-- The `try` block of `setBaseURI`. -/
def setBaseURIBody (env : Env) (s : State) : Run :=
  (checkAndSwitchNetwork env s).andThen fun s =>
    let baseURI := jsTrim (env.value "newBaseURI")
    if baseURI.data == [] then ⟨s, [], .error (mkError "Base URI를 입력해주세요.")⟩
    else if !isValidURI env baseURI then
      ⟨s, [], .error (mkError "올바른 URI 형식이 아닙니다. (https://, ipfs://, ar:// 등)")⟩
    else
      (newContract env s).andThen fun s =>
      (submitAndWait env s "setBaseURI" [.str baseURI]
        (fun url hash => "⏳ 트랜잭션 전송됨\n\n새 Base URI 설정\n\n" ++ url ++ "/tx/" ++ hash)
        (fun hash => "✅ Base URI 업데이트 완료!\n\n새 Base URI: " ++ baseURI ++
          "\n\n트랜잭션 해시: " ++ hash)).andThen fun s =>
        ⟨s, [.setElement "newBaseURI" ""], .ok ()⟩

/-- `setBaseURI()` of settings.js. -/
def setBaseURI (env : Env) (s : State) : Run :=
  privileged msgBusy none labelPending (setBaseURIBody env)
    (reportError "Base URI 설정 실패:") env s

/-- The `try` block of `setRoyalty`. -/
def setRoyaltyBody (env : Env) (s : State) : Run :=
  (checkAndSwitchNetwork env s).andThen fun s =>
    let receiver := jsTrim (env.value "royaltyReceiver")
    let percentage := jsTrim (env.value "royaltyPercentage")
    if !isValidEthereumAddress (.str receiver) then
      ⟨s, [], .error (mkError "올바른 주소 형식이 아닙니다.")⟩
    else if !isValidAmountNum (env.toNumber percentage) 0 10 then
      ⟨s, [], .error (mkError "로열티 비율은 0~10% 사이여야 합니다.")⟩
    else
      (newContract env s).andThen fun s =>
      (submitAndWait env s "setDefaultRoyalty"
        [.str receiver, .int (env.floorTimes100 percentage)]
        (fun url hash => "⏳ 트랜잭션 전송됨\n\n로열티 수신자: " ++ shortenAddress receiver ++
          "\n비율: " ++ percentage ++ "%\n\n" ++ url ++ "/tx/" ++ hash)
        (fun hash => "✅ 로열티 설정 완료!\n\n수신자: " ++ shortenAddress receiver ++
          "\n비율: " ++ percentage ++ "%\n\n트랜잭션 해시: " ++ hash)).andThen fun s =>
        ⟨s, [.setElement "royaltyReceiver" "", .setElement "royaltyPercentage" ""], .ok ()⟩

/-- `setRoyalty()` of settings.js. -/
def setRoyalty (env : Env) (s : State) : Run :=
  privileged msgBusy none labelPending (setRoyaltyBody env)
    (reportError "로열티 설정 실패:") env s

/-- The `try` block of `setWithdrawalAddress`. -/
def setWithdrawalAddressBody (env : Env) (s : State) : Run :=
  (checkAndSwitchNetwork env s).andThen fun s =>
    let address := jsTrim (env.value "newWithdrawalAddress")
    if !isValidEthereumAddress (.str address) then
      ⟨s, [], .error (mkError "올바른 주소 형식이 아닙니다.")⟩
    else
      (newContract env s).andThen fun s =>
      (submitAndWait env s "setWithdrawalAddress" [.str address]
        (fun url hash => "⏳ 트랜잭션 전송됨\n\n새 출금 주소: " ++ shortenAddress address ++
          "\n\n" ++ url ++ "/tx/" ++ hash)
        (fun hash => "✅ 출금 주소 업데이트 완료!\n\n새 주소: " ++ shortenAddress address ++
          "\n\n트랜잭션 해시: " ++ hash)).andThen fun s =>
      (loadContractState env s).andThen fun s =>
        ⟨s, [.setElement "newWithdrawalAddress" ""], .ok ()⟩

/-- `setWithdrawalAddress()` of settings.js. -/
def setWithdrawalAddress (env : Env) (s : State) : Run :=
  privileged msgBusy none labelPending (setWithdrawalAddressBody env)
    (reportError "출금 주소 설정 실패:") env s

/-- The question `withdrawFunds` asks before it sets the guard. -/
def withdrawQuestion : String := "⚠️ 컨트랙트의 모든 ETH를 출금합니다.\n\n계속하시겠습니까?"

/-- The `try` block of `withdrawFunds`. -/
def withdrawFundsBody (env : Env) (s : State) : Run :=
  (checkAndSwitchNetwork env s).andThen fun s =>
    (newContract env s).andThen fun s =>
    (submitAndWait env s "withdraw" []
      (fun url hash => "⏳ 트랜잭션 전송됨\n\nETH 출금 중...\n\n" ++ url ++ "/tx/" ++ hash)
      (fun hash => "✅ 출금 완료!\n\n트랜잭션 해시: " ++ hash)).andThen fun s =>
    (updateWalletInfo env s).andThen fun s =>
      loadContractState env s

/-- `withdrawFunds()` of settings.js. -/
def withdrawFunds (env : Env) (s : State) : Run :=
  privileged msgBusy (some withdrawQuestion) labelPending (withdrawFundsBody env)
    (reportError "출금 실패:") env s

/-! ## queries.js: role management -/

/-- The `try` block of the four role operations, which differ in the input, the
role constant read from the contract, the method (`grantRole` or `revokeRole`)
and the title used in the alerts. -/
def roleBody (id role method title : String) (env : Env) (s : State) : Run :=
  (checkAndSwitchNetwork env s).andThen fun s =>
    let address := jsTrim (env.value id)
    if !isValidEthereumAddress (.str address) then
      ⟨s, [], .error (mkError "올바른 주소 형식이 아닙니다.")⟩
    else
      (newContract env s).andThen fun s =>
        match env.readText role with
        | .error e => ⟨s, [.read role], .error e⟩
        | .ok roleId =>
          (Run.mk s [.read role] (.ok ())).andThen fun s =>
          (submitAndWait env s method [.str roleId, .str address]
            (fun url hash => "⏳ 트랜잭션 전송됨\n\n" ++ title ++ "\n주소: " ++
              shortenAddress address ++ "\n\n" ++ url ++ "/tx/" ++ hash)
            (fun hash => "✅ " ++ title ++ " 완료!\n\n주소: " ++ shortenAddress address ++
              "\n\n트랜잭션 해시: " ++ hash)).andThen fun s =>
            ⟨s, [.setElement id ""], .ok ()⟩

/-- `grantOperatorRole()` of queries.js. -/
def grantOperatorRole (env : Env) (s : State) : Run :=
  privileged msgBusy none labelPending
    (roleBody "operatorAddress" "OPERATOR_ROLE" "grantRole" "운영자 권한 부여" env)
    (reportError "운영자 권한 부여 실패:") env s

/-- `revokeOperatorRole()` of queries.js. -/
def revokeOperatorRole (env : Env) (s : State) : Run :=
  privileged msgBusy none labelPending
    (roleBody "revokeOperatorAddress" "OPERATOR_ROLE" "revokeRole" "운영자 권한 제거" env)
    (reportError "운영자 권한 제거 실패:") env s

/-- The question `grantAdminRole` asks before it sets the guard. -/
def grantAdminQuestion : String :=
  "⚠️ 경고: 관리자 권한은 모든 권한을 포함합니다.\n\n정말 부여하시겠습니까?"

/-- The question `revokeAdminRole` asks before it sets the guard. -/
def revokeAdminQuestion : String :=
  "⚠️ 경고: 관리자 권한을 제거하면 해당 주소는 모든 관리 기능을 사용할 수 없습니다.\n\n정말 제거하시겠습니까?"

/-- `grantAdminRole()` of queries.js. -/
def grantAdminRole (env : Env) (s : State) : Run :=
  privileged msgBusy (some grantAdminQuestion) labelPending
    (roleBody "adminAddress" "DEFAULT_ADMIN_ROLE" "grantRole" "관리자 권한 부여" env)
    (reportError "관리자 권한 부여 실패:") env s

/-- `revokeAdminRole()` of queries.js. -/
def revokeAdminRole (env : Env) (s : State) : Run :=
  privileged msgBusy (some revokeAdminQuestion) labelPending
    (roleBody "revokeAdminAddress" "DEFAULT_ADMIN_ROLE" "revokeRole" "관리자 권한 제거" env)
    (reportError "관리자 권한 제거 실패:") env s

/-! ## Interleaving of privileged operations -/

/-- How a call of a privileged operation ended. -/
inductive Outcome where
  /-- The call `ensureConnected()` threw. -/
  | notConnected : Outcome
  /-- The guard was held: busy alert and `return`, before the `try`. -/
  | busy : Outcome
  /-- The user declined the question asked before the guard is set. -/
  | declined : Outcome
  /-- The `try` block was entered and left through the `finally`. -/
  | completed : Outcome
  deriving DecidableEq, Repr

/-- Where a call of a privileged operation stands between two turns of the
event loop. The code of an operation runs without interruption from one
`await` to the next; `confirm` and `alert` block the event loop and do not
end a turn. -/
inductive Thread where
  /-- Suspended at `await ensureConnected()`. The call `ensureConnected()` has
  already run: `connected` is false when it threw. `declines` says that the
  operation asks a question before it sets the guard and the user will
  decline it; `awaits` bounds the suspensions left inside the `try` block. -/
  | atEnsure (connected : Bool) (declines : Bool) (awaits : Nat) : Thread
  /-- Past `isProcessing = true`, suspended at an `await` inside the `try`
  block, with `awaits` further suspensions before the `finally` runs. -/
  | inTry (awaits : Nat) : Thread
  /-- The call has ended. -/
  | finished (o : Outcome) : Thread
  deriving DecidableEq, Repr

/-- The thread holds the guard: it has executed `isProcessing = true` and not
yet its `finally`. -/
def Thread.holds : Thread → Bool
  | .inTry _ => true
  | _ => false

/-- One turn of a thread, given the value of `isProcessing` it finds: the value
it leaves and where it stands afterwards. The only writes of `isProcessing` in
the sources are `isProcessing = true` right after the check and
`isProcessing = false` in the `finally`. -/
def Thread.resume (isProcessing : Bool) : Thread → Bool × Thread
  | .atEnsure false _ _ => (isProcessing, .finished .notConnected)
  | .atEnsure true declines awaits =>
    if isProcessing then (isProcessing, .finished .busy)
    else if declines then (isProcessing, .finished .declined)
    else (true, .inTry awaits)
  | .inTry (awaits + 1) => (isProcessing, .inTry awaits)
  | .inTry 0 => (false, .finished .completed)
  | .finished o => (isProcessing, .finished o)

/-- The guard and the calls in progress. -/
structure Sys where
  /-- The global `isProcessing`. -/
  isProcessing : Bool
  /-- The calls of privileged operations made so far. -/
  threads : List Thread
  deriving DecidableEq, Repr

/-- The system when the scripts are loaded. -/
def Sys.initial : Sys := ⟨false, []⟩

/-- One turn of the event loop: a new call of a privileged operation (which
runs up to its first `await`), the resumption of a suspended call, or a turn of
other code (notification handlers, refreshes), which does not write
`isProcessing`. -/
inductive Sys.Step : Sys → Sys → Prop where
  | invoke (y : Sys) (connected declines : Bool) (awaits : Nat) :
    Sys.Step y ⟨y.isProcessing, y.threads ++ [.atEnsure connected declines awaits]⟩
  | resume (y : Sys) (i : Nat) (t : Thread) (h : y.threads.get? i = some t) :
    Sys.Step y ⟨(t.resume y.isProcessing).1, y.threads.set i (t.resume y.isProcessing).2⟩
  | other (y : Sys) : Sys.Step y y

/-- The systems reachable from the initial one. -/
inductive Sys.Reachable : Sys → Prop where
  | init : Sys.Reachable Sys.initial
  | step (y z : Sys) : Sys.Reachable y → Sys.Step y z → Sys.Reachable z

/-- The number of calls that hold the guard. -/
def Sys.holders (y : Sys) : Nat := (y.threads.filter Thread.holds).length

/-- A call running alone for `n` turns, from a value of `isProcessing`. -/
def Thread.runAlone : Nat → Bool → Thread → Bool × Thread
  | 0, isProcessing, t => (isProcessing, t)
  | n + 1, isProcessing, t => Thread.runAlone n (t.resume isProcessing).1 (t.resume isProcessing).2

/-- The invariant of the guard: `isProcessing` is set exactly when one call
holds it, and no two calls hold it. -/
def Sys.Inv (y : Sys) : Prop := y.holders = if y.isProcessing then 1 else 0

/-! ## The operations as a list -/

/-- The privileged operations that send `gas.mul(120).div(100)`: all of them
but `startNewRound`. -/
def ordinaryOperations : List (Env → State → Run) :=
  [ownerMint, addWhitelistBatch, removeWhitelistBatch, setWhitelistSingle,
   setSaleConfig, toggleWhitelistSale, togglePublicSale, setMaxSupply,
   setMaxWhitelistMintPerTx, setMaxPublicMintPerTx, setMaxWhitelistBatchSize,
   setMaxOperatorMintAmount, setBaseURI, togglePause, setRoyalty, setWithdrawalAddress,
   withdrawFunds, grantOperatorRole, revokeOperatorRole, grantAdminRole, revokeAdminRole]

/-- The privileged operations: every function of minting.js, settings.js and
queries.js that tests and sets `isProcessing`. -/
def privilegedOperations : List (Env → State → Run) :=
  startNewRound :: ordinaryOperations

/-- The operation is an instance of the frame `privileged`, with one of the
two busy texts. -/
def IsFramed (op : Env → State → Run) : Prop :=
  ∃ (busyText : String) (confirmFirst : Option String) (label : String)
    (body : Env → State → Run) (handler : Env → JSVal → State → Run),
    (busyText = msgBusy ∨ busyText = msgBusyShort) ∧
    ∀ env s, op env s = privileged busyText confirmFirst label (body env) (handler env) env s

/-- The gas limit of a submission is the gas estimate of the same call scaled
by `factor` percent; any other event passes. -/
def sendOk (factor : Nat) (env : Env) : Event → Bool
  | .send m a l =>
    match env.estimateGas m a with
    | .ok g => l == gasLimit factor g
    | .error _ => false
  | _ => true

/-- Every submission of the run carries the scaled estimate. -/
def Run.sendsOk (factor : Nat) (env : Env) (r : Run) : Prop :=
  ∀ ev ∈ r.log, sendOk factor env ev = true

/-! ## The classifier as an ordered rule list (specification side) -/

/-- One class of the classifier as the specification describes it: a condition
on the raw failure, looked at only when no earlier class matched, and the
result reported for the class. Both inspect the raw failure and may throw. -/
structure Rule where
  /-- The condition of the class. -/
  applies : JSVal → Except JSVal Bool
  /-- The result of the class. -/
  result : JSVal → Except JSVal String

/-- A condition or result stated on the raw message: the message is extracted
from the raw failure and converted to a string first. -/
def onMessage {α : Type} (f : JSVal → JSVal → String → Except JSVal α) (e : JSVal) :
    Except JSVal α :=
  match rawMessage e with
  | .error x => .error x
  | .ok msg =>
    match toStringJS msg with
    | .error x => .error x
    | .ok t => f e msg t

/-- A class given by an alternation of literal patterns on the message. -/
def patternRule (pats : List String) (result : String) : Rule :=
  ⟨onMessage (fun _ _ t => .ok (testAnyCI pats t.data)), fun _ => .ok result⟩

/-- The classes in the order of the specification: user rejection, timeout,
contract not found, revert (reason string, then registry, then generic),
insufficient funds, nonce too low, underpriced replacement, gas estimation,
malformed address, malformed number, network mismatch. -/
def classRules : List Rule :=
  [ ⟨isUserRejection, fun _ => .ok msgUserRejected⟩,
    patternRule timeoutPatterns msgTimeout,
    patternRule notFoundPatterns msgContractNotFound,
    ⟨onMessage (fun _ _ t => .ok (testAnyCI revertPatterns t.data)),
     onMessage (fun _ msg t => revertResult msg t.data)⟩,
    ⟨onMessage (fun e _ t => insufficientFundsCond e t.data), fun _ => .ok msgInsufficientFunds⟩,
    patternRule ["nonce too low"] msgNonce,
    patternRule replacementPatterns msgReplacement,
    ⟨onMessage (fun e _ t => gasEstimationCond e t.data), fun _ => .ok msgGasEstimation⟩,
    patternRule ["invalid address"] msgInvalidAddress,
    patternRule invalidNumberPatterns msgInvalidNumber,
    patternRule networkPatterns msgNetwork ]

/-- The fallback of the rule list: the stringified raw message after the prefix. -/
def fallbackResult (e : JSVal) : Except JSVal String :=
  onMessage (fun _ _ t => .ok (msgFallbackPrefix ++ t)) e

/-- First match wins: the result of the first rule whose condition holds, the
fallback when none does. A condition is evaluated only when every earlier one
was false. -/
def firstMatch : List Rule → JSVal → Except JSVal String
  | [], e => fallbackResult e
  | r :: rs, e =>
    match r.applies e with
    | .error x => .error x
    | .ok true => r.result e
    | .ok false => firstMatch rs e

/-- The classifier of the specification: the ordered rule list, and the fixed
unknown-error message when inspecting the raw failure throws. -/
def classifyByRules (e : JSVal) : String :=
  match firstMatch classRules e with
  | .ok s => s
  | .error _ => msgUnknown

/-- The rule list read without the unknown-error clause: a class whose
condition cannot be evaluated does not match, and when no class matches the
result is the prefix followed by `String(e)` or the extracted message. -/
def firstMatchTotal : List Rule → JSVal → Option String
  | [], e =>
    match fallbackResult e with
    | .ok s => some s
    | .error _ => none
  | r :: rs, e =>
    match r.applies e with
    | .ok true =>
      match r.result e with
      | .ok s => some s
      | .error _ => none
    | _ => firstMatchTotal rs e

/-! ## Sample inputs -/

/-- A valid address in lower case. -/
def addrLower : String := "0xaaaaaaaaaaaaaaaaaaaaaaaaaaaaaaaaaaaaaaaa"

/-- The same address in upper case. -/
def addrUpper : String := "0xAAAAAAAAAAAAAAAAAAAAAAAAAAAAAAAAAAAAAAAA"

/-- Another valid address. -/
def addrOther : String := "0xbbbbbbbbbbbbbbbbbbbbbbbbbbbbbbbbbbbbbbbb"

/-- An outside in which everything succeeds: the provider is on chain 1 and
grants one account, the user confirms, the mint form holds a valid address and the amount 5 (the other
fields are empty), the three batch slots hold an address, its upper-case
variant and another address, every gas estimate is 1 and every transaction is
mined. `Number` is given on the two texts the form holds. -/
def sampleEnv : Env where
  ethereum := true
  ethersLoaded := true
  newProvider := .ok (1, 2)
  web3Loaded := true
  newWeb3 := .ok 3
  requestAccounts := .ok [addrLower]
  chainId := .ok "0x1"
  chainIdAgain := .ok "0x1"
  switchChain := fun _ => .ok ()
  addChain := fun _ => .ok ()
  present := fun _ => true
  value := fun id => if id == "mintTo" then addrLower else if id == "mintAmount" then "5" else ""
  slots := fun _ => some [addrUpper, addrLower, addrOther]
  checked := fun _ => true
  confirm := fun _ => true
  toNumber := fun t => if t == "5" then .fin 5 else if t == "" then .fin 0 else .nan
  urlParses := fun _ => true
  formatNumber := fun t => t
  floorTimes100 := fun _ => 500
  bigNumberFrom := fun _ => .ok 5
  etherToWei := fun _ => .ok "5000000000000000000"
  getContractAddress := fun _ => .ok addrOther
  walletBalance := .ok ()
  formatEther := fun _ => .ok ()
  nftBalance := .ok ()
  walletRoles := .ok ()
  contractState := .ok ()
  newContract := .ok ()
  readNat := fun _ => .ok 0
  readText := fun _ => .ok "0x00"
  estimateGas := fun _ _ => .ok 1
  send := fun _ _ _ => .ok "0xh"
  wait := fun _ => .ok 1
  handleError := fun _ _ s => (s, .ok ())
  loadDashboardInfo := fun s => (s, .ok ())

/-- A connected, idle state on chain 1. -/
def connectedState : State := ⟨1, addrLower, some 3, some 1, some 2, false, false⟩

/-- A batch of 101 valid entries that are all the same address: its
deduplicated set has one entry. -/
def repeatedBatch : List String := List.replicate 101 addrLower

/-- The sample outside with the repeated batch in the slots. -/
def repeatedEnv : Env := { sampleEnv with slots := fun _ => some repeatedBatch }

/-- A state in which an operation is pending and the wallet has been
disconnected meanwhile. -/
def busyDisconnectedState : State := ⟨1, "", none, none, none, true, false⟩

/-- A raw failure whose `message` is the number 5. -/
def numericMessageError : JSVal := .obj [("message", some (.num 5))] (some "[object Object]")

/-- A raw failure whose `code` is guarded by a getter that throws. -/
def throwingCodeError : JSVal := .obj [("code", none)] (some "[object Object]")

/-- A raw failure that cannot be converted to a string. -/
def unprintableError : JSVal := .obj [] none

/-- The empty object. -/
def emptyObject : JSVal := .obj [] (some "[object Object]")

/-! ## The connection state: invariants and further sample inputs -/

/-- The selected chain id is a key of `NETWORKS`. -/
def State.networkSupported (s : State) : Prop :=
  (NETWORKS (intToString s.Network)).isSome = true

/-- The signer handle is present exactly when the provider handle is. -/
def State.handlesPaired (s : State) : Prop :=
  s.ethersSigner.isSome = s.ethersProvider.isSome

/-- The sample outside with the provider on Sepolia. -/
def sepoliaEnv : Env := { sampleEnv with chainId := .ok "0xaa36a7", chainIdAgain := .ok "0xaa36a7" }

/-- The sample outside with the provider on chain 137, which is not in
`NETWORKS`. -/
def polygonEnv : Env := { sampleEnv with chainId := .ok "0x89", chainIdAgain := .ok "0x89" }

/-- The sample outside with a provider that grants no account. -/
def noAccountsEnv : Env := { sampleEnv with requestAccounts := .ok [] }

/-! ## Predicates on traces -/

/-- The event is a gas estimation or a submission. -/
def Event.isEstimateOrSend : Event → Bool
  | .estimateGas _ _ => true
  | .send _ _ _ => true
  | _ => false

/-- The event is a call of `confirm`. -/
def Event.isConfirm : Event → Bool
  | .confirm _ => true
  | _ => false

/-- The run estimates gas or submits only when `P` holds. -/
def Run.submitsOnlyIf (P : Prop) (r : Run) : Prop :=
  ∀ ev ∈ r.log, ev.isEstimateOrSend = true → P

/-- The sample outside with the sale form filled in: the two prices are `1`,
the end id is the given text, whose value is `endValue`; the contract reports
`maxSupply` 100 and `totalMinted` 10. -/
def saleEnv (endTokenId : String) (endValue : Nat) : Env :=
  { sampleEnv with
    value := fun id => if id == "saleEndTokenId" then endTokenId else "1"
    toNumber := fun t => if t == endTokenId then .fin endValue else .fin 1
    bigNumberFrom := fun _ => .ok endValue
    etherToWei := fun _ => .ok "1000000000000000000"
    readNat := fun m => if m == "maxSupply" then .ok 100 else .ok 10 }

/-- Some alert of the log contains the text. -/
def reportNames (log : List Event) (text : String) : Bool :=
  log.any fun ev =>
    match ev with
    | .alert t => includes t.data text.data
    | _ => false

/-- The sample outside with a mint form that violates both constraints: the
recipient is not an address and the amount is 0. -/
def badMintEnv : Env :=
  { sampleEnv with
    value := fun id => if id == "mintTo" then "0x12" else if id == "mintAmount" then "0" else ""
    toNumber := fun t => if t == "0" then .fin 0 else .nan }

/-- The sample outside with a sale form that violates three constraints: the
whitelist price is not a number, the public price is negative and the end id
is 0. -/
def badSaleEnv : Env :=
  { sampleEnv with
    value := fun id =>
      if id == "saleWhitelistCost" then "abc" else if id == "salePublicCost" then "-1" else "0"
    toNumber := fun t => if t == "0" then .fin 0 else if t == "-1" then .fin (-1) else .nan }

/-- The operations the specification calls high-impact: the four role
operations, `startNewRound` and `withdrawFunds`. -/
def highImpactOperations : List (Env → State → Run) :=
  [grantOperatorRole, revokeOperatorRole, grantAdminRole, revokeAdminRole, startNewRound,
   withdrawFunds]

/-- The operations that call `confirm`. -/
def confirmingOperations : List (Env → State → Run) :=
  [grantAdminRole, revokeAdminRole, startNewRound, withdrawFunds]

/-- The sample outside with a valid address in every field of the page and a
user who declines every question. -/
def decliningEnv : Env := { sampleEnv with value := fun _ => addrLower, confirm := fun _ => false }

/-- The event is one a routine that reads and redraws makes: the mark of the
routine, an assignment to a page element, or a call of `errorLog`. -/
def Event.isRedraw : Event → Bool
  | .refresh _ => true
  | .setElement _ _ => true
  | .errorLog _ => true
  | _ => false

/-- The first `tx.wait()` of a log: the hash waited for and the events after
it; `none` when nothing is waited for. -/
def afterWait : List Event → Option (String × List Event)
  | [] => none
  | .wait hash :: rest => some (hash, rest)
  | _ :: rest => afterWait rest

/-- The outside `env` with another outcome of `tx.wait()`. -/
def withWait (env : Env) (wait : String → Except JSVal Int) : Env := { env with wait := wait }

/-- The run `r`, made with the outside `env`, against the run `r'` of the same
code with an outside whose waits all succeed: the two end in the same state
and with the same result, and either nothing is waited for and the logs are
equal, or the logs differ at most in the message shown right after the first
wait, which in `r` is the warning with the hash when the wait threw. -/
def Run.onlyWarns (env : Env) (url : String) (r r' : Run) : Prop :=
  r.st = r'.st ∧ r.res = r'.res ∧
  ((afterWait r.log = none ∧ r'.log = r.log) ∨
    ∃ pre hash done post, afterWait pre = none ∧
      r'.log = pre ++ .wait hash :: .alert done :: post ∧
      r.log = pre ++ .wait hash ::
        .alert (match env.wait hash with
          | .ok _ => done
          | .error _ => msgWaitWarning url hash) :: post)

/-- The sample outside with a provider that fails while the transaction is
waited for. -/
def waitFailsEnv : Env := { sampleEnv with wait := fun _ => .error (mkError "timeout") }

/-! ## Further predicates and sample inputs -/

/-- The event is a request `wallet_switchEthereumChain`. -/
def Event.isSwitchRequest : Event → Bool
  | .request method _ => method == "wallet_switchEthereumChain"
  | _ => false

/-- The last request `eth_chainId` of `selectNetwork` for a target in
`NETWORKS`, with a provider: the first one of the handler when the switch was
accepted, the second one when it was refused. -/
def lastChainRead (env : Env) (targetChainId : Int) : Except JSVal String :=
  match (switchNetwork env targetChainId).2 with
  | .ok true => env.chainId
  | _ => env.chainIdAgain

/-- A raw failure with the given numeric `code`. -/
def codedError (code : Int) : JSVal := .obj [("code", some (.num code))] (some "[object Object]")

/-- The sample outside with the provider on chain 137 and a user who rejects
every request to switch. -/
def refusingEnv : Env :=
  { sampleEnv with
    chainId := .ok "0x89"
    chainIdAgain := .ok "0x89"
    switchChain := fun _ => .error (codedError 4001) }

/-- The sample outside with a provider that rejects every request to switch
with the value `undefined`. -/
def undefinedRejectionEnv : Env :=
  { sampleEnv with switchChain := fun _ => .error .undefined }

/-- The sample outside with a provider that does not know the chain it is
asked to switch to and accepts to add it. -/
def unknownChainEnv : Env :=
  { sampleEnv with switchChain := fun _ => .error (codedError 4902) }

/-! ## Properties -/

theorem matchRunToEnd_iff (p : Char → Bool) (n : Nat) (cs : List Char) :
    matchRunToEnd p n cs = true ↔ cs.length = n ∧ ∀ c ∈ cs, p c = true := by
  induction n generalizing cs with
  | zero => cases cs <;> simp [matchRunToEnd]
  | succ n ih =>
    cases cs with
    | nil => simp [matchRunToEnd]
    | cons c cs => simp [matchRunToEnd, ih, and_left_comm, and_assoc]

theorem hexClass_iff (c : Char) :
    hexClass c = true ↔
      (('0' ≤ c ∧ c ≤ '9') ∨ ('a' ≤ c ∧ c ≤ 'f') ∨ ('A' ≤ c ∧ c ≤ 'F')) := by
  simp [hexClass]
  tauto

theorem addressRegexTest_iff (cs : List Char) :
    addressRegexTest cs = true ↔
      ∃ body : List Char, cs = '0' :: 'x' :: body ∧ body.length = 40 ∧
        ∀ c ∈ body, hexClass c = true := by
  rcases cs with _ | ⟨a, _ | ⟨b, rest⟩⟩
  · simp [addressRegexTest]
  · simp [addressRegexTest]
  · simp only [addressRegexTest, Bool.and_eq_true, beq_iff_eq, matchRunToEnd_iff,
      List.cons.injEq]
    constructor
    · rintro ⟨⟨rfl, rfl⟩, h1, h2⟩
      exact ⟨rest, ⟨rfl, rfl, rfl⟩, h1, h2⟩
    · rintro ⟨body, ⟨rfl, rfl, rfl⟩, h1, h2⟩
      exact ⟨⟨rfl, rfl⟩, h1, h2⟩

theorem isValidEthereumAddress_str (s : String) :
    isValidEthereumAddress (.str s) = addressRegexTest s.data := by
  rcases s with ⟨cs⟩
  cases cs with
  | nil => simp [isValidEthereumAddress, JSVal.truthy, JSVal.isString, addressRegexTest]
  | cons c cs => simp [isValidEthereumAddress, JSVal.truthy, JSVal.isString]

/-! ### Runs and their logs -/

theorem Run.mem_andThen_log {r : Run} {k : State → Run} {ev : Event}
    (h : ev ∈ (r.andThen k).log) : ev ∈ r.log ∨ ev ∈ (k r.st).log := by
  unfold Run.andThen at h
  split at h
  · exact Or.inl h
  · simpa using h

theorem ensureConnected_eq (env : Env) (s : State) :
    ensureConnected env s =
      if connected env s then ⟨s, [], .ok ()⟩
      else ⟨s, [.alert msgConnectFirst], .error (mkError "WALLET_NOT_CONNECTED")⟩ := by
  unfold ensureConnected connected
  by_cases hw : s.WalletAddress.data = []
  · simp [hw]
  · cases env.ethereum <;> cases s.ethersProvider <;> cases s.ethersSigner <;> simp [hw]

theorem switchNetwork_log (env : Env) (t : Int) :
    ∀ ev ∈ (switchNetwork env t).1, ev.isContractCall = false := by
  have h : (switchNetwork env t).1.all (fun ev => !ev.isContractCall) = true := by
    unfold switchNetwork
    repeat' split
    all_goals rfl
  intro ev hev
  simpa using (List.all_eq_true.1 h) ev hev

theorem checkAndSwitchNetwork_st (env : Env) (s : State) :
    (checkAndSwitchNetwork env s).st = s := by
  unfold checkAndSwitchNetwork
  repeat' split
  all_goals rfl

theorem checkAndSwitchNetwork_res (env : Env) (s : State) :
    (checkAndSwitchNetwork env s).res = .ok () := by
  unfold checkAndSwitchNetwork
  repeat' split
  all_goals rfl

theorem checkAndSwitchNetwork_log (env : Env) (s : State) :
    ∀ ev ∈ (checkAndSwitchNetwork env s).log, ev.isContractCall = false := by
  intro ev h
  unfold checkAndSwitchNetwork at h
  split at h
  · simp at h
  · split at h
    · simp only [List.mem_cons, List.mem_singleton, List.not_mem_nil, or_false] at h
      rcases h with h | h <;> subst h <;> rfl
    · split at h
      · split at h
        · rename_i evs _ heq
          simp only [List.mem_cons] at h
          rcases h with h | h
          · subst h; rfl
          · exact switchNetwork_log env s.Network ev (by rw [heq]; exact h)
        · rename_i evs _ heq
          simp only [List.cons_append, List.mem_cons, List.mem_append, List.mem_singleton,
            List.not_mem_nil, or_false] at h
          rcases h with h | h | h
          · subst h; rfl
          · exact switchNetwork_log env s.Network ev (by rw [heq]; exact h)
          · subst h; rfl
      · simp only [List.mem_singleton] at h
        subst h; rfl

theorem rebuildProvidersLog_redraws (env : Env) :
    ∀ ev ∈ rebuildProvidersLog env, ev.isRedraw = true := by
  intro ev hev
  unfold rebuildProvidersLog at hev
  split at hev
  · simp only [List.mem_singleton] at hev
    subst hev
    rfl
  · rcases List.mem_append.1 hev with h | h
    · split at h
      · simp only [List.mem_singleton] at h
        subst h
        rfl
      · split at h
        · simp at h
        · simp only [List.mem_singleton] at h
          subst h
          rfl
    · split at h
      · split at h
        · simp at h
        · simp only [List.mem_singleton] at h
          subst h
          rfl
      · simp at h

theorem formatEtherLog_redraws (env : Env) (quantity : String) :
    ∀ ev ∈ formatEtherLog env quantity, ev.isRedraw = true := by
  intro ev hev
  unfold formatEtherLog at hev
  split at hev
  · simp at hev
  · simp only [List.mem_singleton] at hev
    subst hev
    rfl

theorem updateWalletBalanceLog_redraws (env : Env) :
    ∀ ev ∈ updateWalletBalanceLog env, ev.isRedraw = true := by
  intro ev hev
  unfold updateWalletBalanceLog at hev
  split at hev
  · exact formatEtherLog_redraws env _ ev hev
  · simp only [List.mem_singleton] at hev
    subst hev
    rfl

theorem updateWalletRole_redraws (env : Env) :
    ∀ ev ∈ (updateWalletRole env).1, ev.isRedraw = true := by
  intro ev hev
  unfold updateWalletRole at hev
  split at hev
  · split at hev
    · simp at hev
    · simp only [List.mem_singleton] at hev
      subst hev
      rfl
  · simp only [List.mem_singleton] at hev
    subst hev
    rfl

theorem updateWalletNftLog_redraws (env : Env) :
    ∀ ev ∈ updateWalletNftLog env, ev.isRedraw = true := by
  intro ev hev
  unfold updateWalletNftLog at hev
  split at hev
  · simp only [List.mem_singleton] at hev
    subst hev
    rfl
  · split at hev
    · exact updateWalletRole_redraws env ev hev
    · rcases List.mem_append.1 hev with h | h
      · exact updateWalletRole_redraws env ev h
      · simp only [List.mem_singleton] at h
        subst h
        rfl

theorem updateWalletInfoShow_redraws (env : Env) (s : State) :
    ∀ ev ∈ (updateWalletInfoShow env s).log, ev.isRedraw = true := by
  have hb : ∀ ev ∈ (if s.ethersProvider.isNone then []
      else updateWalletBalanceLog env), ev.isRedraw = true := by
    intro ev hev
    split at hev
    · simp at hev
    · exact updateWalletBalanceLog_redraws env ev hev
  have hn : ∀ (c : Bool), ∀ ev ∈ (if c then [] else updateWalletNftLog env),
      ev.isRedraw = true := by
    intro c ev hev
    split at hev
    · simp at hev
    · exact updateWalletNftLog_redraws env ev hev
  have h2 : ∀ ev ∈ [Event.setElement "walletAddress" (shortenAddress s.WalletAddress),
      Event.refresh "updateWalletInfo"], ev.isRedraw = true := by
    intro ev hev
    simp only [List.mem_cons, List.mem_singleton, List.not_mem_nil, or_false] at hev
    rcases hev with rfl | rfl <;> rfl
  intro ev hev
  unfold updateWalletInfoShow at hev
  split at hev
  · simp only [List.mem_singleton] at hev
    subst hev
    rfl
  · split at hev
    · rcases List.mem_append.1 hev with h | h
      · exact h2 ev h
      · exact hb ev h
    · rcases List.mem_append.1 hev with h | h
      · rcases List.mem_append.1 h with h | h
        · exact h2 ev h
        · exact hb ev h
      · exact hn _ ev h

theorem updateWalletInfo_redraws (env : Env) (s : State) :
    ∀ ev ∈ (updateWalletInfo env s).log, ev.isRedraw = true := by
  intro ev hev
  unfold updateWalletInfo at hev
  split at hev
  · simp at hev
  · split at hev
    · simp only [Run.andThen] at hev
      rcases List.mem_append.1 hev with h | h
      · exact rebuildProvidersLog_redraws env ev h
      · exact updateWalletInfoShow_redraws env _ ev h
    · exact updateWalletInfoShow_redraws env _ ev hev

theorem loadContractState_redraws (env : Env) (s : State) :
    ∀ ev ∈ (loadContractState env s).log, ev.isRedraw = true := by
  have hpair : ∀ ev ∈ [Event.refresh "loadContractState",
      Event.errorLog "컨트랙트 상태 로드 실패:"], ev.isRedraw = true := by
    intro ev hev
    simp only [List.mem_cons, List.mem_singleton, List.not_mem_nil, or_false] at hev
    rcases hev with rfl | rfl <;> rfl
  intro ev hev
  unfold loadContractState at hev
  split at hev
  · simp at hev
  · split at hev
    · exact hpair ev hev
    · split at hev
      · simp only [List.mem_singleton] at hev
        subst hev
        rfl
      · split at hev
        · exact hpair ev hev
        · split at hev
          · exact hpair ev hev
          · dsimp only at hev
            rcases List.mem_append.1 hev with h | h
            · rcases List.mem_append.1 h with h | h
              · rcases List.mem_append.1 h with h | h
                · simp only [List.mem_singleton] at h
                  subst h
                  rfl
                · exact formatEtherLog_redraws env _ ev h
              · exact formatEtherLog_redraws env _ ev h
            · exact formatEtherLog_redraws env _ ev h

theorem Event.isRedraw_quiet {ev : Event} (h : ev.isRedraw = true) :
    ev.isContractCall = false := by
  cases ev <;> simp_all [Event.isRedraw, Event.isContractCall]

theorem updateWalletInfo_log (env : Env) (s : State) :
    ∀ ev ∈ (updateWalletInfo env s).log, ev.isContractCall = false :=
  fun ev hev => Event.isRedraw_quiet (updateWalletInfo_redraws env s ev hev)

theorem loadContractState_log (env : Env) (s : State) :
    ∀ ev ∈ (loadContractState env s).log, ev.isContractCall = false :=
  fun ev hev => Event.isRedraw_quiet (loadContractState_redraws env s ev hev)

theorem privileged_eq (busyText : String) (confirmFirst : Option String) (label : String)
    (body : State → Run) (handler : JSVal → State → Run) (env : Env) (s : State) :
    privileged busyText confirmFirst label body handler env s =
      if connected env s then
        if s.isProcessing then ⟨s, [.alert busyText], .ok ()⟩
        else if declines env confirmFirst then ⟨s, askedEvents confirmFirst, .ok ()⟩
        else
          ⟨{ (tryCatch (body { s with isProcessing := true }) handler).st with
              isProcessing := false },
            askedEvents confirmFirst ++ [.buttonBusy label] ++
              (tryCatch (body { s with isProcessing := true }) handler).log ++ [.buttonRestore],
            (tryCatch (body { s with isProcessing := true }) handler).res⟩
      else ⟨s, [.alert msgConnectFirst], .error (mkError "WALLET_NOT_CONNECTED")⟩ := by
  unfold privileged
  rw [ensureConnected_eq]
  cases connected env s <;> simp [Run.andThen]

theorem askedEvents_not_contractCall (confirmFirst : Option String) :
    ∀ ev ∈ askedEvents confirmFirst, ev.isContractCall = false := by
  intro ev h
  cases confirmFirst <;> simp [askedEvents] at h
  subst h; rfl

theorem tryCatch_log {b : Run} {handler : JSVal → State → Run} {ev : Event}
    (h : ev ∈ (tryCatch b handler).log) :
    ev ∈ b.log ∨ ∃ e, ev ∈ (handler e b.st).log := by
  unfold tryCatch at h
  split at h
  · exact Or.inl h
  · rename_i e _
    simp only [List.mem_append] at h
    rcases h with h | h
    · exact Or.inl h
    · exact Or.inr ⟨e, h⟩

theorem privileged_log_contractCall {busyText : String} {confirmFirst : Option String}
    {label : String} {body : State → Run} {handler : JSVal → State → Run} {env : Env}
    {s : State} {ev : Event}
    (h : ev ∈ (privileged busyText confirmFirst label body handler env s).log)
    (hc : ev.isContractCall = true) :
    ev ∈ (body { s with isProcessing := true }).log ∨
      ∃ e, ev ∈ (handler e (body { s with isProcessing := true }).st).log := by
  rw [privileged_eq] at h
  split at h
  · split at h
    · simp only [List.mem_singleton] at h
      subst h
      simp [Event.isContractCall] at hc
    · split at h
      · exact absurd (askedEvents_not_contractCall _ _ h) (by simp [hc])
      · simp only [List.append_assoc, List.mem_append, List.mem_singleton, List.mem_cons,
          List.not_mem_nil, or_false] at h
        rcases h with h | h | h | h
        · exact absurd (askedEvents_not_contractCall _ _ h) (by simp [hc])
        · subst h
          simp [Event.isContractCall] at hc
        · exact tryCatch_log h
        · subst h
          simp [Event.isContractCall] at hc
  · simp only [List.mem_singleton] at h
    subst h
    simp [Event.isContractCall] at hc

theorem gasLimit_120_floor (g : Nat) : gasLimit 120 g = ⌊(g : ℚ) * 1.2⌋₊ := by
  have h : (g : ℚ) * 1.2 = ((g * 120 : ℕ) : ℚ) / ((100 : ℕ) : ℚ) := by
    push_cast; norm_num; ring
  rw [h, Nat.floor_div_eq_div, gasLimit]

theorem gasLimit_130_floor (g : Nat) : gasLimit 130 g = ⌊(g : ℚ) * 1.3⌋₊ := by
  have h : (g : ℚ) * 1.3 = ((g * 130 : ℕ) : ℚ) / ((100 : ℕ) : ℚ) := by
    push_cast; norm_num; ring
  rw [h, Nat.floor_div_eq_div, gasLimit]

/-! ### Submissions carry the scaled estimate -/

theorem Run.sendsOk_mk {f : Nat} {env : Env} (s : State) (log : List Event)
    (res : Except JSVal Unit) (h : log.all (sendOk f env) = true) :
    (Run.mk s log res).sendsOk f env := by
  intro ev hev
  exact (List.all_eq_true.1 h) ev hev

theorem Run.sendsOk_of_quiet {f : Nat} {env : Env} {r : Run}
    (h : ∀ ev ∈ r.log, ev.isContractCall = false) : r.sendsOk f env := by
  intro ev hev
  have := h ev hev
  cases ev <;> simp_all [sendOk, Event.isContractCall]

theorem Run.sendsOk_andThen {f : Nat} {env : Env} {r : Run} {k : State → Run}
    (hr : r.sendsOk f env) (hk : ∀ s, (k s).sendsOk f env) : (r.andThen k).sendsOk f env := by
  intro ev hev
  rcases Run.mem_andThen_log hev with h | h
  · exact hr ev h
  · exact hk _ ev h

theorem checkAndSwitchNetwork_sendsOk (f : Nat) (env : Env) (s : State) :
    (checkAndSwitchNetwork env s).sendsOk f env :=
  Run.sendsOk_of_quiet (checkAndSwitchNetwork_log env s)

theorem updateWalletInfo_sendsOk (f : Nat) (env : Env) (s : State) :
    (updateWalletInfo env s).sendsOk f env :=
  Run.sendsOk_of_quiet (updateWalletInfo_log env s)

theorem loadContractState_sendsOk (f : Nat) (env : Env) (s : State) :
    (loadContractState env s).sendsOk f env :=
  Run.sendsOk_of_quiet (loadContractState_log env s)

theorem newContract_sendsOk (f : Nat) (env : Env) (s : State) :
    (newContract env s).sendsOk f env := by
  unfold newContract
  split <;> exact Run.sendsOk_mk _ _ _ rfl

theorem submitAndWait_sendsOk (env : Env) (s : State) (method : String) (args : List Arg)
    (sent : String → String → String) (done : String → String) :
    (submitAndWait env s method args sent done).sendsOk 120 env := by
  unfold submitAndWait
  split
  · exact Run.sendsOk_mk _ _ _ rfl
  · rename_i gas hgas
    split
    · exact Run.sendsOk_mk _ _ _ (by simp [sendOk, hgas])
    · rename_i hash _
      apply Run.sendsOk_mk
      cases env.wait hash <;> simp [sendOk, hgas]

theorem tryCatch_sendsOk {f : Nat} {env : Env} {b : Run} {handler : JSVal → State → Run}
    (hb : b.sendsOk f env) (hh : ∀ e s, (handler e s).sendsOk f env) :
    (tryCatch b handler).sendsOk f env := by
  intro ev hev
  rcases tryCatch_log hev with h | ⟨e, h⟩
  · exact hb ev h
  · exact hh _ _ ev h

theorem privileged_sendsOk {f : Nat} {busyText : String} {confirmFirst : Option String}
    {label : String} {body : State → Run} {handler : JSVal → State → Run} {env : Env}
    (hb : ∀ s, (body s).sendsOk f env) (hh : ∀ e s, (handler e s).sendsOk f env)
    (s : State) :
    (privileged busyText confirmFirst label body handler env s).sendsOk f env := by
  intro ev hev
  cases hc : ev.isContractCall
  · cases ev <;> simp_all [sendOk, Event.isContractCall]
  · rcases privileged_log_contractCall hev hc with h | ⟨e, h⟩
    · exact hb _ ev h
    · exact hh _ _ ev h

theorem reportError_sendsOk (f : Nat) (env : Env) (tag : String) (e : JSVal) (s : State) :
    (reportError tag e s).sendsOk f env :=
  Run.sendsOk_mk _ _ _ rfl

theorem reportErrorAndRevert_sendsOk (f : Nat) (env : Env) (tag id : String) (e : JSVal)
    (s : State) : (reportErrorAndRevert tag id env e s).sendsOk f env :=
  Run.sendsOk_mk _ _ _ rfl

theorem ownerMintBody_sendsOk (env : Env) (s : State) :
    (ownerMintBody env s).sendsOk 120 env := by
  unfold ownerMintBody
  refine Run.sendsOk_andThen (checkAndSwitchNetwork_sendsOk _ _ _) (fun s => ?_)
  dsimp only
  split
  · exact Run.sendsOk_mk _ _ _ rfl
  split
  · exact Run.sendsOk_mk _ _ _ rfl
  refine Run.sendsOk_andThen (newContract_sendsOk _ _ _) (fun s => ?_)
  refine Run.sendsOk_andThen (submitAndWait_sendsOk _ _ _ _ _ _) (fun s => ?_)
  refine Run.sendsOk_andThen (updateWalletInfo_sendsOk _ _ _) (fun s => ?_)
  refine Run.sendsOk_andThen (loadContractState_sendsOk _ _ _) (fun s => ?_)
  exact Run.sendsOk_mk _ _ _ rfl

theorem whitelistBatchBody_sendsOk (isAdd : Bool) (env : Env) (s : State) :
    (whitelistBatchBody isAdd env s).sendsOk 120 env := by
  unfold whitelistBatchBody
  refine Run.sendsOk_andThen (checkAndSwitchNetwork_sendsOk _ _ _) (fun s => ?_)
  dsimp only
  split
  · exact Run.sendsOk_mk _ _ _ rfl
  · exact Run.sendsOk_mk _ _ _ rfl
  · exact Run.sendsOk_mk _ _ _ rfl
  · exact Run.sendsOk_mk _ _ _ rfl
  · refine Run.sendsOk_andThen ?_ (fun s => ?_)
    · apply Run.sendsOk_mk
      unfold duplicateNotice
      split <;> rfl
    refine Run.sendsOk_andThen (newContract_sendsOk _ _ _) (fun s => ?_)
    refine Run.sendsOk_andThen (submitAndWait_sendsOk _ _ _ _ _ _) (fun s => ?_)
    exact Run.sendsOk_mk _ _ _ rfl

theorem setWhitelistSingleBody_sendsOk (env : Env) (s : State) :
    (setWhitelistSingleBody env s).sendsOk 120 env := by
  unfold setWhitelistSingleBody
  refine Run.sendsOk_andThen (checkAndSwitchNetwork_sendsOk _ _ _) (fun s => ?_)
  dsimp only
  split
  · exact Run.sendsOk_mk _ _ _ rfl
  refine Run.sendsOk_andThen (newContract_sendsOk _ _ _) (fun s => ?_)
  refine Run.sendsOk_andThen (submitAndWait_sendsOk _ _ _ _ _ _) (fun s => ?_)
  exact Run.sendsOk_mk _ _ _ rfl

theorem parseEther_log (env : Env) (eth : String) :
    (parseEther env eth).1.all (sendOk 120 env) = true := by
  unfold parseEther
  split <;> rfl

theorem setSaleConfigBody_sendsOk (env : Env) (s : State) :
    (setSaleConfigBody env s).sendsOk 120 env := by
  unfold setSaleConfigBody
  refine Run.sendsOk_andThen (checkAndSwitchNetwork_sendsOk _ _ _) (fun s => ?_)
  dsimp only
  split
  · exact Run.sendsOk_mk _ _ _ rfl
  split
  · exact Run.sendsOk_mk _ _ _ rfl
  split
  · exact Run.sendsOk_mk _ _ _ rfl
  refine Run.sendsOk_andThen (newContract_sendsOk _ _ _) (fun s => ?_)
  split
  · exact Run.sendsOk_mk _ _ _ rfl
  split
  · exact Run.sendsOk_mk _ _ _ rfl
  split
  · exact Run.sendsOk_mk _ _ _ rfl
  split
  · exact Run.sendsOk_mk _ _ _ rfl
  split
  · rename_i evs _ heq
    apply Run.sendsOk_mk
    have := parseEther_log env (jsTrim (env.value "saleWhitelistCost"))
    rw [heq] at this
    simpa [sendOk] using this
  split
  · rename_i evs _ heq
    apply Run.sendsOk_mk
    have := parseEther_log env (jsTrim (env.value "salePublicCost"))
    rw [heq] at this
    simpa [sendOk] using this
  refine Run.sendsOk_andThen (Run.sendsOk_mk _ _ _ rfl) (fun s => ?_)
  refine Run.sendsOk_andThen (submitAndWait_sendsOk _ _ _ _ _ _) (fun s => ?_)
  exact loadContractState_sendsOk _ _ _

theorem toggleBody_sendsOk (id method subject onWord offWord : String) (env : Env)
    (s : State) : (toggleBody id method subject onWord offWord env s).sendsOk 120 env := by
  unfold toggleBody
  refine Run.sendsOk_andThen (checkAndSwitchNetwork_sendsOk _ _ _) (fun s => ?_)
  dsimp only
  refine Run.sendsOk_andThen (newContract_sendsOk _ _ _) (fun s => ?_)
  refine Run.sendsOk_andThen (submitAndWait_sendsOk _ _ _ _ _ _) (fun s => ?_)
  exact loadContractState_sendsOk _ _ _

theorem limitBody_sendsOk (id : String) (max : ℚ)
    (invalid method sentLabel doneHead doneLabel : String) (shown : String → String)
    (env : Env) (s : State) :
    (limitBody id max invalid method sentLabel doneHead doneLabel shown env s).sendsOk 120 env := by
  unfold limitBody
  refine Run.sendsOk_andThen (checkAndSwitchNetwork_sendsOk _ _ _) (fun s => ?_)
  dsimp only
  split
  · exact Run.sendsOk_mk _ _ _ rfl
  refine Run.sendsOk_andThen (newContract_sendsOk _ _ _) (fun s => ?_)
  refine Run.sendsOk_andThen (submitAndWait_sendsOk _ _ _ _ _ _) (fun s => ?_)
  refine Run.sendsOk_andThen (loadContractState_sendsOk _ _ _) (fun s => ?_)
  exact Run.sendsOk_mk _ _ _ rfl

theorem setBaseURIBody_sendsOk (env : Env) (s : State) :
    (setBaseURIBody env s).sendsOk 120 env := by
  unfold setBaseURIBody
  refine Run.sendsOk_andThen (checkAndSwitchNetwork_sendsOk _ _ _) (fun s => ?_)
  dsimp only
  split
  · exact Run.sendsOk_mk _ _ _ rfl
  split
  · exact Run.sendsOk_mk _ _ _ rfl
  refine Run.sendsOk_andThen (newContract_sendsOk _ _ _) (fun s => ?_)
  refine Run.sendsOk_andThen (submitAndWait_sendsOk _ _ _ _ _ _) (fun s => ?_)
  exact Run.sendsOk_mk _ _ _ rfl

theorem setRoyaltyBody_sendsOk (env : Env) (s : State) :
    (setRoyaltyBody env s).sendsOk 120 env := by
  unfold setRoyaltyBody
  refine Run.sendsOk_andThen (checkAndSwitchNetwork_sendsOk _ _ _) (fun s => ?_)
  dsimp only
  split
  · exact Run.sendsOk_mk _ _ _ rfl
  split
  · exact Run.sendsOk_mk _ _ _ rfl
  refine Run.sendsOk_andThen (newContract_sendsOk _ _ _) (fun s => ?_)
  refine Run.sendsOk_andThen (submitAndWait_sendsOk _ _ _ _ _ _) (fun s => ?_)
  exact Run.sendsOk_mk _ _ _ rfl

theorem setWithdrawalAddressBody_sendsOk (env : Env) (s : State) :
    (setWithdrawalAddressBody env s).sendsOk 120 env := by
  unfold setWithdrawalAddressBody
  refine Run.sendsOk_andThen (checkAndSwitchNetwork_sendsOk _ _ _) (fun s => ?_)
  dsimp only
  split
  · exact Run.sendsOk_mk _ _ _ rfl
  refine Run.sendsOk_andThen (newContract_sendsOk _ _ _) (fun s => ?_)
  refine Run.sendsOk_andThen (submitAndWait_sendsOk _ _ _ _ _ _) (fun s => ?_)
  refine Run.sendsOk_andThen (loadContractState_sendsOk _ _ _) (fun s => ?_)
  exact Run.sendsOk_mk _ _ _ rfl

theorem withdrawFundsBody_sendsOk (env : Env) (s : State) :
    (withdrawFundsBody env s).sendsOk 120 env := by
  unfold withdrawFundsBody
  refine Run.sendsOk_andThen (checkAndSwitchNetwork_sendsOk _ _ _) (fun s => ?_)
  refine Run.sendsOk_andThen (newContract_sendsOk _ _ _) (fun s => ?_)
  refine Run.sendsOk_andThen (submitAndWait_sendsOk _ _ _ _ _ _) (fun s => ?_)
  refine Run.sendsOk_andThen (updateWalletInfo_sendsOk _ _ _) (fun s => ?_)
  exact loadContractState_sendsOk _ _ _

theorem roleBody_sendsOk (id role method title : String) (env : Env) (s : State) :
    (roleBody id role method title env s).sendsOk 120 env := by
  unfold roleBody
  refine Run.sendsOk_andThen (checkAndSwitchNetwork_sendsOk _ _ _) (fun s => ?_)
  dsimp only
  split
  · exact Run.sendsOk_mk _ _ _ rfl
  refine Run.sendsOk_andThen (newContract_sendsOk _ _ _) (fun s => ?_)
  split
  · exact Run.sendsOk_mk _ _ _ rfl
  refine Run.sendsOk_andThen (Run.sendsOk_mk _ _ _ rfl) (fun s => ?_)
  refine Run.sendsOk_andThen (submitAndWait_sendsOk _ _ _ _ _ _) (fun s => ?_)
  exact Run.sendsOk_mk _ _ _ rfl

theorem startNewRoundBody_sendsOk (env : Env) (s : State) :
    (startNewRoundBody env s).sendsOk 130 env := by
  unfold startNewRoundBody
  refine Run.sendsOk_andThen (checkAndSwitchNetwork_sendsOk _ _ _) (fun s => ?_)
  dsimp only
  split
  · exact Run.sendsOk_mk _ _ _ rfl
  split
  · exact Run.sendsOk_mk _ _ _ rfl
  split
  · exact Run.sendsOk_mk _ _ _ rfl
  split
  · exact Run.sendsOk_mk _ _ _ rfl
  rename_i gas hgas
  split
  · exact Run.sendsOk_mk _ _ _ (by simp [sendOk, hgas])
  split
  · exact Run.sendsOk_mk _ _ _ (by simp [sendOk, hgas])
  split
  · exact Run.sendsOk_mk _ _ _ (by simp [sendOk, hgas])
  · exact Run.sendsOk_mk _ _ _ (by simp [sendOk, hgas])

theorem startNewRoundCatch_sendsOk (f : Nat) (env : Env) (e : JSVal) (s : State) :
    (startNewRoundCatch env e s).sendsOk f env :=
  Run.sendsOk_mk _ _ _ rfl

theorem ordinaryOperations_sendsOk (env : Env) (s : State) :
    ∀ op ∈ ordinaryOperations, (op env s).sendsOk 120 env := by
  intro op hop
  simp only [ordinaryOperations, List.mem_cons, List.mem_singleton, List.not_mem_nil,
    or_false] at hop
  rcases hop with rfl | rfl | rfl | rfl | rfl | rfl | rfl | rfl | rfl | rfl | rfl | rfl | rfl |
    rfl | rfl | rfl | rfl | rfl | rfl | rfl | rfl
  · exact privileged_sendsOk (ownerMintBody_sendsOk env) (reportError_sendsOk _ _ _) s
  · exact privileged_sendsOk (whitelistBatchBody_sendsOk _ env) (reportError_sendsOk _ _ _) s
  · exact privileged_sendsOk (whitelistBatchBody_sendsOk _ env) (reportError_sendsOk _ _ _) s
  · exact privileged_sendsOk (setWhitelistSingleBody_sendsOk env) (reportError_sendsOk _ _ _) s
  · exact privileged_sendsOk (setSaleConfigBody_sendsOk env) (reportError_sendsOk _ _ _) s
  · exact privileged_sendsOk (toggleBody_sendsOk _ _ _ _ _ env)
      (reportErrorAndRevert_sendsOk _ _ _ _) s
  · exact privileged_sendsOk (toggleBody_sendsOk _ _ _ _ _ env)
      (reportErrorAndRevert_sendsOk _ _ _ _) s
  · exact privileged_sendsOk (limitBody_sendsOk _ _ _ _ _ _ _ _ env) (reportError_sendsOk _ _ _) s
  · exact privileged_sendsOk (limitBody_sendsOk _ _ _ _ _ _ _ _ env) (reportError_sendsOk _ _ _) s
  · exact privileged_sendsOk (limitBody_sendsOk _ _ _ _ _ _ _ _ env) (reportError_sendsOk _ _ _) s
  · exact privileged_sendsOk (limitBody_sendsOk _ _ _ _ _ _ _ _ env) (reportError_sendsOk _ _ _) s
  · exact privileged_sendsOk (limitBody_sendsOk _ _ _ _ _ _ _ _ env) (reportError_sendsOk _ _ _) s
  · exact privileged_sendsOk (setBaseURIBody_sendsOk env) (reportError_sendsOk _ _ _) s
  · exact privileged_sendsOk (toggleBody_sendsOk _ _ _ _ _ env)
      (reportErrorAndRevert_sendsOk _ _ _ _) s
  · exact privileged_sendsOk (setRoyaltyBody_sendsOk env) (reportError_sendsOk _ _ _) s
  · exact privileged_sendsOk (setWithdrawalAddressBody_sendsOk env) (reportError_sendsOk _ _ _) s
  · exact privileged_sendsOk (withdrawFundsBody_sendsOk env) (reportError_sendsOk _ _ _) s
  · exact privileged_sendsOk (roleBody_sendsOk _ _ _ _ env) (reportError_sendsOk _ _ _) s
  · exact privileged_sendsOk (roleBody_sendsOk _ _ _ _ env) (reportError_sendsOk _ _ _) s
  · exact privileged_sendsOk (roleBody_sendsOk _ _ _ _ env) (reportError_sendsOk _ _ _) s
  · exact privileged_sendsOk (roleBody_sendsOk _ _ _ _ env) (reportError_sendsOk _ _ _) s

theorem startNewRound_sendsOk (env : Env) (s : State) :
    (startNewRound env s).sendsOk 130 env :=
  privileged_sendsOk (startNewRoundBody_sendsOk env) (startNewRoundCatch_sendsOk _ env) s

theorem sendOk_elim {f : Nat} {env : Env} {m : String} {a : List Arg} {l : Nat}
    (h : sendOk f env (.send m a l) = true) :
    ∃ g, env.estimateGas m a = .ok g ∧ l = gasLimit f g := by
  simp only [sendOk] at h
  cases hg : env.estimateGas m a with
  | error e => simp [hg] at h
  | ok g =>
    simp only [hg, beq_iff_eq] at h
    exact ⟨g, rfl, h⟩

theorem privilegedOperations_framed : ∀ op ∈ privilegedOperations, IsFramed op := by
  intro op hop
  simp only [privilegedOperations, ordinaryOperations, List.mem_cons, List.mem_singleton,
    List.not_mem_nil, or_false] at hop
  rcases hop with rfl | rfl | rfl | rfl | rfl | rfl | rfl | rfl | rfl | rfl | rfl | rfl | rfl |
    rfl | rfl | rfl | rfl | rfl | rfl | rfl | rfl | rfl
  · exact ⟨_, _, _, startNewRoundBody, startNewRoundCatch, Or.inr rfl, fun _ _ => rfl⟩
  · exact ⟨_, _, _, ownerMintBody, fun _ => reportError _, Or.inl rfl, fun _ _ => rfl⟩
  · exact ⟨_, _, _, whitelistBatchBody true, fun _ => reportError _, Or.inl rfl,
      fun _ _ => rfl⟩
  · exact ⟨_, _, _, whitelistBatchBody false, fun _ => reportError _, Or.inl rfl,
      fun _ _ => rfl⟩
  · exact ⟨_, _, _, setWhitelistSingleBody, fun _ => reportError _, Or.inl rfl,
      fun _ _ => rfl⟩
  · exact ⟨_, _, _, setSaleConfigBody, fun _ => reportError _, Or.inr rfl, fun _ _ => rfl⟩
  · exact ⟨_, _, _, toggleBody _ _ _ _ _, reportErrorAndRevert _ _, Or.inl rfl,
      fun _ _ => rfl⟩
  · exact ⟨_, _, _, toggleBody _ _ _ _ _, reportErrorAndRevert _ _, Or.inl rfl,
      fun _ _ => rfl⟩
  · exact ⟨_, _, _, fun env => limitBody _ _ _ _ _ _ _ env.formatNumber env,
      fun _ => reportError _, Or.inl rfl, fun _ _ => rfl⟩
  · exact ⟨_, _, _, limitBody _ _ _ _ _ _ _ _, fun _ => reportError _, Or.inl rfl,
      fun _ _ => rfl⟩
  · exact ⟨_, _, _, limitBody _ _ _ _ _ _ _ _, fun _ => reportError _, Or.inl rfl,
      fun _ _ => rfl⟩
  · exact ⟨_, _, _, limitBody _ _ _ _ _ _ _ _, fun _ => reportError _, Or.inl rfl,
      fun _ _ => rfl⟩
  · exact ⟨_, _, _, limitBody _ _ _ _ _ _ _ _, fun _ => reportError _, Or.inl rfl,
      fun _ _ => rfl⟩
  · exact ⟨_, _, _, setBaseURIBody, fun _ => reportError _, Or.inl rfl, fun _ _ => rfl⟩
  · exact ⟨_, _, _, toggleBody _ _ _ _ _, reportErrorAndRevert _ _, Or.inl rfl,
      fun _ _ => rfl⟩
  · exact ⟨_, _, _, setRoyaltyBody, fun _ => reportError _, Or.inl rfl, fun _ _ => rfl⟩
  · exact ⟨_, _, _, setWithdrawalAddressBody, fun _ => reportError _, Or.inl rfl,
      fun _ _ => rfl⟩
  · exact ⟨_, _, _, withdrawFundsBody, fun _ => reportError _, Or.inl rfl, fun _ _ => rfl⟩
  · exact ⟨_, _, _, roleBody _ _ _ _, fun _ => reportError _, Or.inl rfl, fun _ _ => rfl⟩
  · exact ⟨_, _, _, roleBody _ _ _ _, fun _ => reportError _, Or.inl rfl, fun _ _ => rfl⟩
  · exact ⟨_, _, _, roleBody _ _ _ _, fun _ => reportError _, Or.inl rfl, fun _ _ => rfl⟩
  · exact ⟨_, _, _, roleBody _ _ _ _, fun _ => reportError _, Or.inl rfl, fun _ _ => rfl⟩

/-! ### The guard under interleaving -/

theorem holders_set (l : List Thread) (i : Nat) (t u : Thread) (h : l.get? i = some t) :
    ((l.set i u).filter Thread.holds).length + (if t.holds then 1 else 0) =
      (l.filter Thread.holds).length + (if u.holds then 1 else 0) := by
  induction l generalizing i with
  | nil => simp at h
  | cons x xs ih =>
    cases i with
    | zero =>
      simp only [List.get?_cons_zero, Option.some.injEq] at h
      subst h
      simp only [List.set_cons_zero, List.filter_cons]
      cases hx : x.holds <;> cases hu : u.holds <;> simp
    | succ j =>
      simp only [List.get?_cons_succ] at h
      have := ih j h
      simp only [List.set_cons_succ, List.filter_cons]
      cases hx : x.holds <;> simp <;> omega

theorem Sys.Inv_step {y z : Sys} (hinv : y.Inv) (hstep : Sys.Step y z) : z.Inv := by
  cases hstep with
  | invoke connected declines awaits =>
    unfold Sys.Inv Sys.holders at *
    simpa [List.filter_append, Thread.holds] using hinv
  | other => exact hinv
  | resume i t h =>
    unfold Sys.Inv Sys.holders at *
    have key := holders_set y.threads i t (t.resume y.isProcessing).2 h
    cases hp : y.isProcessing <;> rw [hp] at hinv key <;>
      simp only [Bool.false_eq_true, if_false, if_true] at hinv
    · cases t with
      | atEnsure c d k =>
        cases c <;> cases d <;>
          simp only [Thread.resume, Thread.holds, Bool.false_eq_true, if_false, if_true,
            Nat.add_zero] at key ⊢ <;> omega
      | inTry k =>
        cases k <;>
          simp only [Thread.resume, Thread.holds, Bool.false_eq_true, if_false, if_true,
            Nat.add_zero] at key ⊢ <;> omega
      | finished o =>
        simp only [Thread.resume, Thread.holds, Bool.false_eq_true, if_false, if_true,
          Nat.add_zero] at key ⊢
        omega
    · cases t with
      | atEnsure c d k =>
        cases c <;> cases d <;>
          simp only [Thread.resume, Thread.holds, Bool.false_eq_true, if_false, if_true,
            Nat.add_zero] at key ⊢ <;> omega
      | inTry k =>
        cases k <;>
          simp only [Thread.resume, Thread.holds, Bool.false_eq_true, if_false, if_true,
            Nat.add_zero] at key ⊢ <;> omega
      | finished o =>
        simp only [Thread.resume, Thread.holds, Bool.false_eq_true, if_false, if_true,
          Nat.add_zero] at key ⊢
        omega

theorem Sys.Inv_of_reachable {y : Sys} (hy : y.Reachable) : y.Inv := by
  induction hy with
  | init => simp [Sys.Inv, Sys.holders, Sys.initial]
  | step y z _ hstep ih => exact Sys.Inv_step ih hstep

theorem Thread.runAlone_inTry (k : Nat) (f : Bool) :
    Thread.runAlone (k + 1) f (.inTry k) = (false, .finished .completed) := by
  induction k generalizing f with
  | zero => rfl
  | succ k ih =>
    rw [Thread.runAlone]
    exact ih f

/-! ### Batches -/

theorem setAdd_length_le (acc : List String) (x : String) :
    (setAdd acc x).length ≤ acc.length + 1 := by
  unfold setAdd
  split <;> simp

theorem foldl_setAdd_length_le (l acc : List String) :
    (l.foldl setAdd acc).length ≤ acc.length + l.length := by
  induction l generalizing acc with
  | nil => simp
  | cons x xs ih =>
    have h1 := ih (setAdd acc x)
    have h2 := setAdd_length_le acc x
    simp only [List.foldl_cons, List.length_cons]
    omega

theorem uniqueArray_length_le (l : List String) : (uniqueArray l).length ≤ l.length := by
  have := foldl_setAdd_length_le l []
  simpa [uniqueArray] using this

theorem validateAddresses_of_valid (i : Nat) (raw : List String)
    (h : ∀ a ∈ raw, isValidEthereumAddress (.str a) = true) :
    validateAddresses i raw = (raw, []) := by
  induction raw generalizing i with
  | nil => rfl
  | cons a rest ih =>
    have ha : isValidEthereumAddress (.str a) = true := h a (by simp)
    have hr := ih (i + 1) (fun b hb => h b (by simp [hb]))
    simp [validateAddresses, ha, hr]

theorem checkBatch_of_valid (raw : List String) (hne : raw ≠ [])
    (hvalid : ∀ a ∈ raw, isValidEthereumAddress (.str a) = true) :
    checkBatch raw = if raw.length > 100 then .tooMany else .ready raw := by
  have hlen : raw.length ≠ 0 := by
    intro h0
    exact hne (List.length_eq_zero.1 h0)
  unfold checkBatch
  simp [validateAddresses_of_valid 0 raw hvalid, hlen]

theorem testAnyCI_singleton (p : String) (s : List Char) :
    testAnyCI [p] s = testCI p s := by
  simp [testAnyCI]

theorem friendlyError_eq_classifyByRules (e : JSVal) : friendlyError e = classifyByRules e := by
  unfold friendlyError friendlyErrorTry classifyByRules
  simp only [classRules, firstMatch, patternRule, onMessage, fallbackResult,
    testAnyCI_singleton]
  cases h1 : isUserRejection e with
  | error x => simp
  | ok b =>
    cases b
    · simp only []
      cases h2 : rawMessage e with
      | error x => simp
      | ok msg =>
        simp only []
        unfold classifyMessage
        cases h3 : toStringJS msg with
        | error x => simp
        | ok t =>
          simp only []
          cases c1 : testAnyCI timeoutPatterns t.data
          · cases c2 : testAnyCI notFoundPatterns t.data
            · cases c3 : testAnyCI revertPatterns t.data
              · simp only [if_false, Bool.false_eq_true]
                cases h4 : insufficientFundsCond e t.data with
                | error x => simp
                | ok b4 =>
                  cases b4
                  · simp only []
                    cases c5 : testCI "nonce too low" t.data
                    · cases c6 : testAnyCI replacementPatterns t.data
                      · simp only [if_false, Bool.false_eq_true]
                        cases h7 : gasEstimationCond e t.data with
                        | error x => simp
                        | ok b7 =>
                          cases b7
                          · simp only []
                            cases c8 : testCI "invalid address" t.data
                            · cases c9 : testAnyCI invalidNumberPatterns t.data
                              · cases c10 : testAnyCI networkPatterns t.data <;> simp
                              · simp
                            · simp
                          · simp
                      · simp
                    · simp
                  · simp
              · simp
            · simp
          · simp
    · simp

/-! ### The frame and the guard -/

theorem privileged_guard_released {busyText : String} {confirmFirst : Option String}
    {label : String} {body : State → Run} {handler : JSVal → State → Run} {env : Env}
    {s : State}
    (h : Event.buttonBusy label ∈ (privileged busyText confirmFirst label body handler env s).log) :
    (privileged busyText confirmFirst label body handler env s).st.isProcessing = false := by
  rw [privileged_eq] at h ⊢
  split at h
  · split at h
    · simp at h
    · split at h
      · cases confirmFirst <;> simp [askedEvents] at h
      · rename_i h1 h2 h3
        simp [h1, h2, h3]
  · simp at h

theorem privileged_untouched {busyText : String} {confirmFirst : Option String}
    {label : String} {body : State → Run} {handler : JSVal → State → Run} {env : Env}
    {s : State}
    (h : Event.buttonBusy label ∉ (privileged busyText confirmFirst label body handler env s).log) :
    (privileged busyText confirmFirst label body handler env s).st = s := by
  rw [privileged_eq] at h ⊢
  split
  · split
    · rfl
    · split
      · rfl
      · rename_i h1 h2 h3
        simp [h1, h2, h3] at h
  · rfl

theorem privileged_agrees_with_thread (busyText : String) (confirmFirst : Option String)
    (label : String) (body : State → Run) (handler : JSVal → State → Run) (env : Env)
    (s : State) (awaits : Nat) :
    (Thread.runAlone (awaits + 2) s.isProcessing
        (.atEnsure (connected env s) (declines env confirmFirst) awaits)).1 =
      (privileged busyText confirmFirst label body handler env s).st.isProcessing := by
  have hfin : ∀ (n : Nat) (f : Bool) (o : Outcome),
      Thread.runAlone n f (.finished o) = (f, .finished o) := by
    intro n
    induction n with
    | zero => intro f o; rfl
    | succ n ih => intro f o; rw [Thread.runAlone]; exact ih f o
  rw [privileged_eq, Thread.runAlone]
  cases hc : connected env s
  · simp [Thread.resume, hfin]
  · cases hp : s.isProcessing
    · cases hd : declines env confirmFirst
      · simp [Thread.resume, Thread.runAlone_inTry]
      · simp [Thread.resume, hfin, hp]
    · simp [Thread.resume, hfin, hp]

theorem firstMatchTotal_of_firstMatch (rs : List Rule) (e : JSVal) (t : String)
    (h : firstMatch rs e = .ok t) : firstMatchTotal rs e = some t := by
  induction rs with
  | nil =>
    simp only [firstMatch] at h
    simp [firstMatchTotal, h]
  | cons r rs ih =>
    simp only [firstMatch] at h
    unfold firstMatchTotal
    cases hr : r.applies e with
    | error x => simp [hr] at h
    | ok b =>
      cases b
      · simp only [hr] at h
        simpa using ih h
      · simp only [hr] at h
        simp [h]

/-! ### The connection state -/

theorem rebuildProviders_keeps (env : Env) (s : State) :
    (rebuildProviders env s).1.Network = s.Network ∧
    (rebuildProviders env s).1.WalletAddress = s.WalletAddress ∧
    (rebuildProviders env s).1.isProcessing = s.isProcessing ∧
    (rebuildProviders env s).1.handlesPaired := by
  unfold rebuildProviders State.handlesPaired
  split
  · exact ⟨rfl, rfl, rfl, rfl⟩
  · dsimp only
    repeat' split
    all_goals exact ⟨rfl, rfl, rfl, rfl⟩

theorem updateWalletInfoShow_keeps (env : Env) (s : State) :
    (updateWalletInfoShow env s).st.Network = s.Network ∧
    (updateWalletInfoShow env s).st.WalletAddress = s.WalletAddress ∧
    (updateWalletInfoShow env s).st.isProcessing = s.isProcessing ∧
    (updateWalletInfoShow env s).st.ethersSigner = s.ethersSigner ∧
    (updateWalletInfoShow env s).st.ethersProvider = s.ethersProvider := by
  unfold updateWalletInfoShow
  repeat' split
  all_goals exact ⟨rfl, rfl, rfl, rfl, rfl⟩

theorem updateWalletInfoShow_res (env : Env) (s : State) :
    (updateWalletInfoShow env s).res = .ok () ∨
    ∃ e, env.getContractAddress s.Network = .error e ∧
      (updateWalletInfoShow env s).res = .error e := by
  unfold updateWalletInfoShow
  split
  · exact Or.inl rfl
  · split
    · rename_i e he
      exact Or.inr ⟨e, he, rfl⟩
    · exact Or.inl rfl

theorem updateWalletInfo_keeps (env : Env) (s : State) :
    (updateWalletInfo env s).st.Network = s.Network ∧
    (updateWalletInfo env s).st.WalletAddress = s.WalletAddress ∧
    ((updateWalletInfo env s).st.handlesPaired ∨ 
      ((updateWalletInfo env s).st.ethersSigner = s.ethersSigner ∧
       (updateWalletInfo env s).st.ethersProvider = s.ethersProvider)) := by
  have h := rebuildProviders_keeps env s
  have k := updateWalletInfoShow_keeps env
  unfold updateWalletInfo
  split
  · exact ⟨rfl, rfl, Or.inr ⟨rfl, rfl⟩⟩
  · split
    · simp only [Run.andThen]
      refine ⟨(k _).1.trans h.1, (k _).2.1.trans h.2.1, Or.inl ?_⟩
      unfold State.handlesPaired
      rw [(k _).2.2.2.1, (k _).2.2.2.2]
      exact h.2.2.2
    · exact ⟨(k s).1, (k s).2.1, Or.inr (k s).2.2.2⟩

theorem loadContractState_st (env : Env) (s : State) : (loadContractState env s).st = s := by
  unfold loadContractState
  repeat' split
  all_goals rfl

theorem loadContractState_res (env : Env) (s : State) :
    (loadContractState env s).res = .ok () := by
  unfold loadContractState
  repeat' split
  all_goals rfl

/-- The only throw of `updateWalletInfo` is the one of `getContractAddress`. -/
theorem updateWalletInfo_res (env : Env) (s : State) :
    (updateWalletInfo env s).res = .ok () ∨
    ∃ e, env.getContractAddress s.Network = .error e ∧
      (updateWalletInfo env s).res = .error e := by
  unfold updateWalletInfo
  split
  · exact Or.inl rfl
  · split
    · simp only [Run.andThen]
      rcases updateWalletInfoShow_res env (rebuildProviders env s).1 with h | ⟨e, he, h⟩
      · exact Or.inl h
      · rw [(rebuildProviders_keeps env s).1] at he
        exact Or.inr ⟨e, he, h⟩
    · exact updateWalletInfoShow_res env s

theorem updateWalletInfo_res_of_ok (env : Env) (s : State)
    (h : ∀ chainId, ∃ address, env.getContractAddress chainId = .ok address) :
    (updateWalletInfo env s).res = .ok () := by
  rcases updateWalletInfo_res env s with h1 | ⟨e, he, _⟩
  · exact h1
  · obtain ⟨a, ha⟩ := h s.Network
    rw [ha] at he
    cases he

theorem Run.andThen_st_of {r : Run} {k : State → Run} (P : State → Prop) (h1 : P r.st)
    (h2 : P (k r.st).st) : P (r.andThen k).st := by
  unfold Run.andThen
  split
  · exact h1
  · exact h2

theorem realOrTarget_supported (chainIdHex : String) (targetChainId : Int)
    (h : (NETWORKS (intToString targetChainId)).isSome = true) :
    (NETWORKS (intToString (realOrTarget chainIdHex targetChainId))).isSome = true := by
  unfold realOrTarget
  split
  · rename_i realId info h1 h2
    rw [h1] at h2
    simp only [chainKey] at h2
    rw [h2]
    rfl
  · exact h

theorem resync_keeps (response : Except JSVal String) (targetChainId : Int) (s : State)
    (h : (NETWORKS (intToString targetChainId)).isSome = true) :
    (resync response targetChainId s).networkSupported ∧
    (resync response targetChainId s).WalletAddress = s.WalletAddress ∧
    (resync response targetChainId s).ethersSigner = s.ethersSigner ∧
    (resync response targetChainId s).ethersProvider = s.ethersProvider := by
  unfold resync State.networkSupported
  split
  · exact ⟨realOrTarget_supported _ _ h, rfl, rfl, rfl⟩
  · exact ⟨h, rfl, rfl, rfl⟩

/-- What `updateWalletInfo` followed by `loadContractState` leaves. -/
theorem refreshWallet_keeps (env : Env) (s : State) :
    ((updateWalletInfo env s).andThen fun s => loadContractState env s).st.Network = s.Network ∧
    ((updateWalletInfo env s).andThen fun s => loadContractState env s).st.WalletAddress =
      s.WalletAddress ∧
    (s.handlesPaired →
      ((updateWalletInfo env s).andThen fun s => loadContractState env s).st.handlesPaired) := by
  have h := updateWalletInfo_keeps env s
  have hst : ((updateWalletInfo env s).andThen fun s => loadContractState env s).st =
      (updateWalletInfo env s).st :=
    Run.andThen_st_of (fun t => t = (updateWalletInfo env s).st) rfl (loadContractState_st _ _)
  rw [hst]
  refine ⟨h.1, h.2.1, fun hp => ?_⟩
  rcases h.2.2 with h3 | ⟨h3, h4⟩
  · exact h3
  · unfold State.handlesPaired at hp ⊢
    rw [h3, h4]
    exact hp

theorem afterNetworkChange_keeps (env : Env) (s : State) :
    (afterNetworkChange env s).st.Network = s.Network ∧
    (afterNetworkChange env s).st.WalletAddress = s.WalletAddress ∧
    (afterNetworkChange env s).st.handlesPaired := by
  have h := rebuildProviders_keeps env s
  have k := refreshWallet_keeps env (rebuildProviders env s).1
  unfold afterNetworkChange
  simp only [Run.andThen]
  split
  · exact ⟨k.1.trans h.1, k.2.1.trans h.2.1, k.2.2 h.2.2.2⟩
  · exact ⟨h.1, h.2.1, h.2.2.2⟩


theorem updateWalletInfo_inv (env : Env) (s : State) :
    (updateWalletInfo env s).st.Network = s.Network ∧
    (updateWalletInfo env s).st.WalletAddress = s.WalletAddress ∧
    (s.handlesPaired → (updateWalletInfo env s).st.handlesPaired) := by
  have h := updateWalletInfo_keeps env s
  refine ⟨h.1, h.2.1, fun hp => ?_⟩
  rcases h.2.2 with h3 | ⟨h3, h4⟩
  · exact h3
  · unfold State.handlesPaired at hp ⊢
    rw [h3, h4]
    exact hp

theorem connectWallet_st (env : Env) (s : State) :
    (connectWallet env s).st = (connectWalletTry env s).st := by
  unfold connectWallet tryCatch
  split <;> rfl

theorem connectWalletTry_inv (env : Env) (s : State) :
    (s.networkSupported → (connectWalletTry env s).st.networkSupported) ∧
    (s.handlesPaired → (connectWalletTry env s).st.handlesPaired) := by
  have h := rebuildProviders_keeps env s
  unfold connectWalletTry
  split
  · exact ⟨id, id⟩
  · dsimp only
    split
    · exact ⟨fun hn => by unfold State.networkSupported at hn ⊢; rw [h.1]; exact hn,
        fun _ => h.2.2.2⟩
    · exact ⟨fun hn => by unfold State.networkSupported at hn ⊢; rw [h.1]; exact hn,
        fun _ => h.2.2.2⟩
    · split
      · exact ⟨fun hn => by unfold State.networkSupported at hn ⊢; exact h.1 ▸ hn,
          fun _ => h.2.2.2⟩
      · split
        · rename_i account _ _ _ _ _ _ _ decimalChainId info h1 h2
          have k := updateWalletInfo_inv env
            { (rebuildProviders env s).1 with
              WalletAddress := account, Network := decimalChainId }
          have hn : (NETWORKS (intToString decimalChainId)).isSome = true := by
            rw [h1] at h2
            simp only [chainKey] at h2
            simp [h2]
          have hst : ∀ k2 : State → Run, (∀ t, (k2 t).st = t) →
              ((updateWalletInfo env { (rebuildProviders env s).1 with
                  WalletAddress := account, Network := decimalChainId }).andThen fun t =>
                (loadContractState env t).andThen k2).st =
              (updateWalletInfo env { (rebuildProviders env s).1 with
                  WalletAddress := account, Network := decimalChainId }).st := by
            intro k2 hk2
            refine Run.andThen_st_of (fun t => t = _) rfl ?_
            refine Run.andThen_st_of (fun t => t = _) (loadContractState_st _ _) ?_
            rw [hk2, loadContractState_st]
          have hst2 := hst (fun t => ⟨t, [.uiState true, .refresh "setupExplorerLinks",
            .refresh "updateNetworkDisplay",
            .setElement ".btn-connect-wallet" "✅ 지갑 연결됨"], .ok ()⟩) (fun _ => rfl)
          have hfirst : ∀ (l : List Event) (k1 : State → Run) (t : State),
              ((Run.mk t l (.ok ())).andThen k1).st = (k1 t).st := fun _ _ _ => rfl
          rw [hfirst, hst2]
          refine ⟨fun _ => ?_, fun _ => k.2.2 h.2.2.2⟩
          unfold State.networkSupported
          rw [k.1]
          exact hn
        · exact ⟨fun hn => by unfold State.networkSupported at hn ⊢; exact h.1 ▸ hn,
            fun _ => h.2.2.2⟩

theorem networkSupported_of_eq {s t : State} (h : t.Network = s.Network)
    (hs : s.networkSupported) : t.networkSupported := by
  unfold State.networkSupported at hs ⊢
  rw [h]
  exact hs

theorem selectNetwork_inv (env : Env) (targetChainId : Int) (s : State) :
    (s.networkSupported → (selectNetwork env targetChainId s).st.networkSupported) ∧
    (s.handlesPaired → (selectNetwork env targetChainId s).st.handlesPaired) := by
  unfold selectNetwork
  split
  · exact ⟨id, id⟩
  · rename_i info hinfo
    have ht : (NETWORKS (intToString targetChainId)).isSome = true := by rw [hinfo]; rfl
    split
    · split
      · exact ⟨id, id⟩
      · simp only [Run.andThen]
        have k := afterNetworkChange_keeps env (resync env.chainId targetChainId s)
        exact ⟨fun _ => networkSupported_of_eq k.1 (resync_keeps _ _ _ ht).1, fun _ => k.2.2⟩
      · simp only [Run.andThen]
        have k := afterNetworkChange_keeps env
          (resync env.chainIdAgain targetChainId (resync env.chainId targetChainId s))
        exact ⟨fun _ => networkSupported_of_eq k.1 (resync_keeps _ _ _ ht).1, fun _ => k.2.2⟩
    · simp only [Run.andThen]
      have k := afterNetworkChange_keeps env { s with Network := targetChainId }
      exact ⟨fun _ => networkSupported_of_eq k.1 ht, fun _ => k.2.2⟩

theorem onChainChanged_inv (env : Env) (chainId : String) (s : State) :
    (s.networkSupported → (onChainChanged env chainId s).st.networkSupported) ∧
    (s.handlesPaired → (onChainChanged env chainId s).st.handlesPaired) := by
  unfold onChainChanged
  split
  · rename_i decimalChainId info h1 h2
    have k := afterNetworkChange_keeps env { s with Network := decimalChainId }
    refine ⟨fun _ => networkSupported_of_eq k.1 ?_, fun _ => k.2.2⟩
    unfold State.networkSupported
    rw [h1] at h2
    simp only [chainKey] at h2
    simp [h2]
  · exact ⟨id, id⟩

theorem onAccountsChanged_inv (env : Env) (accounts : List String) (s : State) :
    (s.networkSupported → (onAccountsChanged env accounts s).st.networkSupported) ∧
    (s.handlesPaired → (onAccountsChanged env accounts s).st.handlesPaired) := by
  unfold onAccountsChanged
  split
  · exact ⟨id, fun _ => rfl⟩
  · rename_i account _
    split
    · have k := refreshWallet_keeps env { s with WalletAddress := account }
      exact ⟨fun hn => networkSupported_of_eq k.1 hn, fun hp => k.2.2 hp⟩
    · exact ⟨id, id⟩

theorem WalletStep_inv {s t : State} (h : WalletStep s t) :
    (s.networkSupported → t.networkSupported) ∧ (s.handlesPaired → t.handlesPaired) := by
  cases h with
  | connectWallet env =>
    rw [connectWallet_st]
    exact connectWalletTry_inv env s
  | disconnectWallet => exact ⟨id, fun _ => rfl⟩
  | selectNetwork env targetChainId => exact selectNetwork_inv env targetChainId s
  | chainChanged env chainId => exact onChainChanged_inv env chainId s
  | accountsChanged env accounts => exact onAccountsChanged_inv env accounts s

theorem WalletReachable_inv {s : State} (h : WalletReachable s) :
    s.networkSupported ∧ s.handlesPaired := by
  induction h with
  | init => exact ⟨rfl, rfl⟩
  | step s t _ hstep ih => exact ⟨(WalletStep_inv hstep).1 ih.1, (WalletStep_inv hstep).2 ih.2⟩

/-! ### Validation of a batch -/

theorem validateAddresses_eq (i : Nat) (raw : List String) :
    validateAddresses i raw =
      (raw.filter (fun a => isValidEthereumAddress (.str a)),
        ((raw.enumFrom i).filter (fun p => !isValidEthereumAddress (.str p.2))).map
          (fun p => formatErrorLine p.1 p.2)) := by
  induction raw generalizing i with
  | nil => rfl
  | cons addr rest ih =>
    unfold validateAddresses
    rw [ih (i + 1)]
    cases h : isValidEthereumAddress (.str addr) <;>
      simp [List.enumFrom, List.filter, h]

theorem enumFrom_filter_length (q : String → Bool) (i : Nat) (raw : List String) :
    ((raw.enumFrom i).filter (fun p => q p.2)).length = (raw.filter q).length := by
  induction raw generalizing i with
  | nil => rfl
  | cons a rest ih =>
    cases h : q a <;> simp [List.enumFrom, List.filter, h, ih (i + 1)]

theorem validateAddresses_errors_length (raw : List String) :
    (validateAddresses 0 raw).2.length =
      (raw.filter (fun a => !isValidEthereumAddress (.str a))).length := by
  rw [validateAddresses_eq]
  simp only [List.length_map]
  exact enumFrom_filter_length (fun a => !isValidEthereumAddress (.str a)) 0 raw

theorem checkBatch_of_invalid (raw : List String)
    (h : ∃ a ∈ raw, isValidEthereumAddress (.str a) = false) :
    checkBatch raw = .formatErrors (validateAddresses 0 raw).2 := by
  obtain ⟨a, ha, hinv⟩ := h
  have hne : raw.length ≠ 0 := by
    intro h0
    rw [List.length_eq_zero] at h0
    rw [h0] at ha
    simp at ha
  have hpos : 0 < (validateAddresses 0 raw).2.length := by
    rw [validateAddresses_errors_length]
    apply List.length_pos_of_mem
    exact List.mem_filter.2 ⟨ha, by simp [hinv]⟩
  unfold checkBatch
  simp [hne, hpos]

theorem checkBatch_ready {raw addresses : List String} (h : checkBatch raw = .ready addresses) :
    raw ≠ [] ∧ (∀ a ∈ raw, isValidEthereumAddress (.str a) = true) ∧ addresses = raw := by
  have hvalid : (validateAddresses 0 raw).2.length = 0 →
      ∀ a ∈ raw, isValidEthereumAddress (.str a) = true := by
    intro h0 a ha
    rw [validateAddresses_errors_length, List.length_eq_zero, List.filter_eq_nil_iff] at h0
    simpa using h0 a ha
  unfold checkBatch at h
  split at h
  · cases h
  · rename_i hne
    dsimp only at h
    split at h
    · cases h
    · rename_i herr
      split at h
      · cases h
      · split at h
        · cases h
        · injection h with h
          have hv := hvalid (by omega)
          refine ⟨?_, hv, ?_⟩
          · intro h0
            rw [h0] at hne
            simp at hne
          · rw [← h, validateAddresses_eq]
            exact List.filter_eq_self.2 hv

theorem submitAndWait_calls {env : Env} {s : State} {method : String} {args : List Arg}
    {sent : String → String → String} {done : String → String} {ev : Event}
    (h : ev ∈ (submitAndWait env s method args sent done).log)
    (hc : ev.isContractCall = true) :
    ev = .estimateGas method args ∨ (∃ l, ev = .send method args l) ∨ ∃ hash, ev = .wait hash := by
  unfold submitAndWait at h
  split at h
  · simp only [List.mem_singleton] at h
    exact Or.inl h
  · split at h
    · simp only [List.mem_cons, List.mem_singleton, List.not_mem_nil, or_false] at h
      rcases h with h | h
      · exact Or.inl h
      · exact Or.inr (Or.inl ⟨_, h⟩)
    · simp only [List.mem_cons, List.mem_singleton, List.not_mem_nil, or_false] at h
      rcases h with h | h | h | h | h
      · exact Or.inl h
      · exact Or.inr (Or.inl ⟨_, h⟩)
      · subst h
        simp [Event.isContractCall] at hc
      · exact Or.inr (Or.inr ⟨_, h⟩)
      · split at h <;> subst h <;> simp [Event.isContractCall] at hc

theorem whitelistBatchBody_calls {isAdd : Bool} {env : Env} {s : State} {ev : Event}
    (h : ev ∈ (whitelistBatchBody isAdd env s).log) (hc : ev.isContractCall = true) :
    ∃ addresses,
      checkBatch (collectWhitelistAddresses env (if isAdd then "add" else "remove")) =
        .ready addresses ∧
      (ev = .estimateGas (if isAdd then "addWhitelist" else "removeWhitelist")
          [.list (uniqueArray addresses)] ∨
        (∃ l, ev = .send (if isAdd then "addWhitelist" else "removeWhitelist")
          [.list (uniqueArray addresses)] l) ∨
        ∃ hash, ev = .wait hash) := by
  unfold whitelistBatchBody at h
  rcases Run.mem_andThen_log h with h | h
  · exact absurd (checkAndSwitchNetwork_log _ _ ev h) (by simp [hc])
  · split at h
    · simp at h
    · simp only [List.mem_singleton] at h
      subst h
      simp [Event.isContractCall] at hc
    · simp at h
    · simp at h
    · rename_i addresses hready
      refine ⟨addresses, hready, ?_⟩
      dsimp only at h
      rcases Run.mem_andThen_log h with h | h
      · exfalso
        unfold duplicateNotice at h
        split at h
        · simp only [List.mem_singleton] at h
          subst h
          simp [Event.isContractCall] at hc
        · simp at h
      · rcases Run.mem_andThen_log h with h | h
        · exfalso
          unfold newContract at h
          split at h <;> simp at h
        · rcases Run.mem_andThen_log h with h | h
          · exact submitAndWait_calls h hc
          · exfalso
            simp only [List.mem_cons, List.mem_singleton, List.not_mem_nil, or_false] at h
            rcases h with h | h | h <;> subst h <;> simp [Event.isContractCall] at hc

/-! ### Operations that stop at a local check -/

theorem privileged_of_throw {busyText label tag : String} {body : State → Run} {env : Env}
    {s : State} {e : JSVal} (hc : connected env s = true) (hp : s.isProcessing = false)
    (hb : (body { s with isProcessing := true }).res = .error e) :
    (privileged busyText none label body (reportError tag) env s).log =
      .buttonBusy label :: ((body { s with isProcessing := true }).log ++
        [.errorLog tag, .alert (friendlyError e), .buttonRestore]) := by
  rw [privileged_eq]
  simp [hc, hp, declines, askedEvents, tryCatch, hb, reportError]

theorem andThen_checkAndSwitchNetwork (env : Env) (s : State) (k : State → Run) :
    (checkAndSwitchNetwork env s).andThen k =
      ⟨(k s).st, (checkAndSwitchNetwork env s).log ++ (k s).log, (k s).res⟩ := by
  simp only [Run.andThen, checkAndSwitchNetwork_res, checkAndSwitchNetwork_st]

theorem whitelistBatchBody_empty (isAdd : Bool) (env : Env) (s : State)
    (h : collectWhitelistAddresses env (if isAdd then "add" else "remove") = []) :
    whitelistBatchBody isAdd env s =
      ⟨s, (checkAndSwitchNetwork env s).log, .error (mkError "주소 목록이 비어있습니다.")⟩ := by
  unfold whitelistBatchBody
  rw [andThen_checkAndSwitchNetwork, h]
  simp [checkBatch]

theorem whitelistBatch_calls (isAdd : Bool) {tag : String} {env : Env} {s : State} {ev : Event}
    (h : ev ∈ (privileged msgBusy none labelPending (whitelistBatchBody isAdd env)
      (reportError tag) env s).log) (hc : ev.isContractCall = true) :
    collectWhitelistAddresses env (if isAdd then "add" else "remove") ≠ [] ∧
    (∀ a ∈ collectWhitelistAddresses env (if isAdd then "add" else "remove"),
      isValidEthereumAddress (.str a) = true) ∧
    (ev = .estimateGas (if isAdd then "addWhitelist" else "removeWhitelist")
        [.list (uniqueArray (collectWhitelistAddresses env (if isAdd then "add" else "remove")))] ∨
      (∃ l, ev = .send (if isAdd then "addWhitelist" else "removeWhitelist")
        [.list (uniqueArray (collectWhitelistAddresses env (if isAdd then "add" else "remove")))]
        l) ∨
      ∃ hash, ev = .wait hash) := by
  rcases privileged_log_contractCall h hc with h | ⟨e, h⟩
  · obtain ⟨addresses, hready, hev⟩ := whitelistBatchBody_calls h hc
    obtain ⟨h1, h2, h3⟩ := checkBatch_ready hready
    subst h3
    exact ⟨h1, h2, hev⟩
  · exfalso
    simp only [reportError, List.mem_cons, List.mem_singleton, List.not_mem_nil, or_false] at h
    rcases h with h | h <;> subst h <;> simp [Event.isContractCall] at hc

theorem whitelistBatch_empty (isAdd : Bool) {tag : String} {env : Env} {s : State}
    (hc : connected env s = true) (hp : s.isProcessing = false)
    (h : collectWhitelistAddresses env (if isAdd then "add" else "remove") = []) :
    Event.alert (msgFallbackPrefix ++ "주소 목록이 비어있습니다.") ∈
      (privileged msgBusy none labelPending (whitelistBatchBody isAdd env)
        (reportError tag) env s).log := by
  rw [privileged_of_throw hc hp
    (by rw [whitelistBatchBody_empty isAdd env _ h] : _ = .error (mkError "주소 목록이 비어있습니다."))]
  have : friendlyError (mkError "주소 목록이 비어있습니다.") =
      msgFallbackPrefix ++ "주소 목록이 비어있습니다." := by decide
  simp [this]

/-! ### What must hold before a gas estimation or a submission -/

theorem Event.isContractCall_of_isEstimateOrSend {ev : Event}
    (h : ev.isEstimateOrSend = true) : ev.isContractCall = true := by
  cases ev <;> simp_all [Event.isEstimateOrSend, Event.isContractCall]

theorem Run.submitsOnlyIf_mk {P : Prop} (s : State) (log : List Event)
    (res : Except JSVal Unit) (h : log.all (fun ev => !ev.isEstimateOrSend) = true) :
    (Run.mk s log res).submitsOnlyIf P := by
  intro ev hev hc
  have := (List.all_eq_true.1 h) ev hev
  simp [hc] at this

theorem Run.submitsOnlyIf_of {P : Prop} (r : Run) (h : P) : r.submitsOnlyIf P :=
  fun _ _ _ => h

theorem Run.submitsOnlyIf_of_quiet {P : Prop} {r : Run}
    (h : ∀ ev ∈ r.log, ev.isContractCall = false) : r.submitsOnlyIf P := by
  intro ev hev hc
  have := h ev hev
  rw [Event.isContractCall_of_isEstimateOrSend hc] at this
  cases this

theorem Run.submitsOnlyIf_andThen {P : Prop} {r : Run} {k : State → Run}
    (hr : r.submitsOnlyIf P) (hk : ∀ s, (k s).submitsOnlyIf P) :
    (r.andThen k).submitsOnlyIf P := by
  intro ev hev hc
  rcases Run.mem_andThen_log hev with h | h
  · exact hr ev h hc
  · exact hk _ ev h hc

theorem privileged_submitsOnlyIf {P : Prop} {busyText : String} {confirmFirst : Option String}
    {label : String} {body : State → Run} {handler : JSVal → State → Run} {env : Env}
    (hb : ∀ s, (body s).submitsOnlyIf P) (hh : ∀ e s, (handler e s).submitsOnlyIf P)
    (s : State) :
    (privileged busyText confirmFirst label body handler env s).submitsOnlyIf P := by
  intro ev hev hc
  rcases privileged_log_contractCall hev (Event.isContractCall_of_isEstimateOrSend hc) with
    h | ⟨e, h⟩
  · exact hb _ ev h hc
  · exact hh _ _ ev h hc

theorem reportError_submitsOnlyIf (P : Prop) (tag : String) (e : JSVal) (s : State) :
    (reportError tag e s).submitsOnlyIf P :=
  Run.submitsOnlyIf_mk _ _ _ rfl

theorem readSupplyAndMinted_ok {env : Env} {maxSupply totalMinted : Nat}
    (h : readSupplyAndMinted env = .ok (maxSupply, totalMinted)) :
    env.readNat "maxSupply" = .ok maxSupply ∧ env.readNat "totalMinted" = .ok totalMinted := by
  unfold readSupplyAndMinted at h
  split at h
  · rename_i a b h1 h2
    injection h with h
    injection h with ha hb
    subst ha hb
    exact ⟨h1, h2⟩
  · cases h
  · cases h

theorem setSaleConfigBody_submitsOnlyIf (env : Env) (s : State) :
    (setSaleConfigBody env s).submitsOnlyIf
      (∃ (maxSupply totalMinted : Nat) (endBN : Int),
        env.readNat "maxSupply" = .ok maxSupply ∧ env.readNat "totalMinted" = .ok totalMinted ∧
        env.bigNumberFrom (jsTrim (env.value "saleEndTokenId")) = .ok endBN ∧
        (totalMinted : Int) ≤ endBN ∧ endBN ≤ (maxSupply : Int)) := by
  unfold setSaleConfigBody
  refine Run.submitsOnlyIf_andThen
    (Run.submitsOnlyIf_of_quiet (checkAndSwitchNetwork_log _ _)) (fun s => ?_)
  dsimp only
  split
  · exact Run.submitsOnlyIf_mk _ _ _ rfl
  split
  · exact Run.submitsOnlyIf_mk _ _ _ rfl
  split
  · exact Run.submitsOnlyIf_mk _ _ _ rfl
  refine Run.submitsOnlyIf_andThen ?_ (fun s => ?_)
  · unfold newContract
    split <;> exact Run.submitsOnlyIf_mk _ _ _ rfl
  split
  · exact Run.submitsOnlyIf_mk _ _ _ rfl
  rename_i maxSupply totalMinted hreads
  split
  · exact Run.submitsOnlyIf_mk _ _ _ rfl
  rename_i endBN hbn
  split
  · exact Run.submitsOnlyIf_mk _ _ _ rfl
  rename_i hmax
  split
  · exact Run.submitsOnlyIf_mk _ _ _ rfl
  rename_i hmin
  exact Run.submitsOnlyIf_of _
    ⟨maxSupply, totalMinted, endBN, (readSupplyAndMinted_ok hreads).1,
      (readSupplyAndMinted_ok hreads).2, hbn, by omega, by omega⟩

theorem setSaleConfigBody_range_error (env : Env) (s : State) (maxSupply totalMinted : Nat)
    (endBN : Int)
    (h1 : isValidAmountNum (env.toNumber (jsTrim (env.value "saleWhitelistCost"))) 0
      maxSafeInteger = true)
    (h2 : isValidAmountNum (env.toNumber (jsTrim (env.value "salePublicCost"))) 0
      maxSafeInteger = true)
    (h3 : isValidIntegerNum (env.toNumber (jsTrim (env.value "saleEndTokenId"))) 1
      maxSafeInteger = true)
    (hcontract : env.newContract = .ok ())
    (hmax : env.readNat "maxSupply" = .ok maxSupply)
    (hmin : env.readNat "totalMinted" = .ok totalMinted)
    (hbn : env.bigNumberFrom (jsTrim (env.value "saleEndTokenId")) = .ok endBN) :
    ((maxSupply : Int) < endBN →
      setSaleConfigBody env s =
        ⟨s, (checkAndSwitchNetwork env s).log ++ [.read "maxSupply", .read "totalMinted"],
          .error (mkError (msgEndAboveMaxSupply endBN maxSupply))⟩) ∧
    (endBN ≤ (maxSupply : Int) → endBN < (totalMinted : Int) →
      setSaleConfigBody env s =
        ⟨s, (checkAndSwitchNetwork env s).log ++ [.read "maxSupply", .read "totalMinted"],
          .error (mkError (msgEndBelowMinted endBN totalMinted))⟩) := by
  have hreads : readSupplyAndMinted env = .ok (maxSupply, totalMinted) := by
    simp [readSupplyAndMinted, hmax, hmin]
  constructor
  · intro habove
    unfold setSaleConfigBody
    rw [andThen_checkAndSwitchNetwork]
    simp [h1, h2, h3, newContract, hcontract, Run.andThen, hreads, hbn, habove]
  · intro hle hbelow
    have hnot : ¬ (maxSupply : Int) < endBN := by omega
    unfold setSaleConfigBody
    rw [andThen_checkAndSwitchNetwork]
    simp [h1, h2, h3, newContract, hcontract, Run.andThen, hreads, hbn, hnot, hbelow]

theorem Run.mem_andThen_of_left {r : Run} {k : State → Run} {ev : Event} (h : ev ∈ r.log) :
    ev ∈ (r.andThen k).log := by
  unfold Run.andThen
  split
  · exact h
  · exact List.mem_append_left _ h

theorem Run.mem_andThen_of_right {r : Run} {k : State → Run} {ev : Event}
    (hr : r.res = .ok ()) (h : ev ∈ (k r.st).log) : ev ∈ (r.andThen k).log := by
  unfold Run.andThen
  rw [hr]
  exact List.mem_append_right _ h

theorem submitAndWait_estimates (env : Env) (s : State) (method : String) (args : List Arg)
    (sent : String → String → String) (done : String → String) :
    Event.estimateGas method args ∈ (submitAndWait env s method args sent done).log := by
  unfold submitAndWait
  repeat' split
  all_goals simp

theorem privileged_mem_of_body {busyText label : String} {body : State → Run}
    {handler : JSVal → State → Run} {env : Env} {s : State} {ev : Event}
    (hc : connected env s = true) (hp : s.isProcessing = false)
    (h : ev ∈ (body { s with isProcessing := true }).log) :
    ev ∈ (privileged busyText none label body handler env s).log := by
  have ht : ev ∈ (tryCatch (body { s with isProcessing := true }) handler).log := by
    unfold tryCatch
    split
    · exact h
    · exact List.mem_append_left _ h
  rw [privileged_eq]
  simp [hc, hp, declines, askedEvents, ht]

theorem setSaleConfigBody_accepts (env : Env) (s : State) (maxSupply totalMinted : Nat)
    (endBN : Int) (whitelistCostWei publicCostWei : String)
    (h1 : isValidAmountNum (env.toNumber (jsTrim (env.value "saleWhitelistCost"))) 0
      maxSafeInteger = true)
    (h2 : isValidAmountNum (env.toNumber (jsTrim (env.value "salePublicCost"))) 0
      maxSafeInteger = true)
    (h3 : isValidIntegerNum (env.toNumber (jsTrim (env.value "saleEndTokenId"))) 1
      maxSafeInteger = true)
    (hcontract : env.newContract = .ok ())
    (hmax : env.readNat "maxSupply" = .ok maxSupply)
    (hmin : env.readNat "totalMinted" = .ok totalMinted)
    (hbn : env.bigNumberFrom (jsTrim (env.value "saleEndTokenId")) = .ok endBN)
    (hlow : (totalMinted : Int) ≤ endBN) (hhigh : endBN ≤ (maxSupply : Int))
    (hw : env.etherToWei (jsTrim (env.value "saleWhitelistCost")) = .ok whitelistCostWei)
    (hq : env.etherToWei (jsTrim (env.value "salePublicCost")) = .ok publicCostWei) :
    Event.estimateGas "setSaleConfig"
      [.str whitelistCostWei, .str publicCostWei, .str (jsTrim (env.value "saleEndTokenId")),
       .bool (env.checked "saleWhitelistStart"), .bool (env.checked "salePublicStart")] ∈
      (setSaleConfigBody env s).log := by
  have hreads : readSupplyAndMinted env = .ok (maxSupply, totalMinted) := by
    simp [readSupplyAndMinted, hmax, hmin]
  have hnot1 : ¬ (maxSupply : Int) < endBN := by omega
  have hnot2 : ¬ endBN < (totalMinted : Int) := by omega
  unfold setSaleConfigBody
  apply Run.mem_andThen_of_right (checkAndSwitchNetwork_res _ _)
  simp only [h1, h2, h3, Bool.not_true, Bool.false_eq_true, if_false]
  apply Run.mem_andThen_of_right (by simp [newContract, hcontract])
  simp only [hreads, hbn, hnot1, hnot2, gt_iff_lt, if_false, parseEther, hw, hq]
  apply Run.mem_andThen_of_right rfl
  exact Run.mem_andThen_of_left (submitAndWait_estimates _ _ _ _ _ _)

theorem ownerMintBody_invalid_address (env : Env) (s : State)
    (h : isValidEthereumAddress (.str (jsTrim (env.value "mintTo"))) = false) :
    ownerMintBody env s =
      ⟨s, (checkAndSwitchNetwork env s).log, .error (mkError "올바른 주소 형식이 아닙니다.")⟩ := by
  unfold ownerMintBody
  rw [andThen_checkAndSwitchNetwork]
  simp [h]

theorem setRoyaltyBody_invalid_address (env : Env) (s : State)
    (h : isValidEthereumAddress (.str (jsTrim (env.value "royaltyReceiver"))) = false) :
    setRoyaltyBody env s =
      ⟨s, (checkAndSwitchNetwork env s).log, .error (mkError "올바른 주소 형식이 아닙니다.")⟩ := by
  unfold setRoyaltyBody
  rw [andThen_checkAndSwitchNetwork]
  simp [h]

theorem setSaleConfigBody_invalid_price (env : Env) (s : State) :
    (isValidAmountNum (env.toNumber (jsTrim (env.value "saleWhitelistCost"))) 0
        maxSafeInteger = false →
      setSaleConfigBody env s =
        ⟨s, (checkAndSwitchNetwork env s).log,
          .error (mkError "화이트리스트 가격 형식이 올바르지 않습니다.")⟩) ∧
    (isValidAmountNum (env.toNumber (jsTrim (env.value "saleWhitelistCost"))) 0
        maxSafeInteger = true →
      isValidAmountNum (env.toNumber (jsTrim (env.value "salePublicCost"))) 0
        maxSafeInteger = false →
      setSaleConfigBody env s =
        ⟨s, (checkAndSwitchNetwork env s).log,
          .error (mkError "퍼블릭 가격 형식이 올바르지 않습니다.")⟩) := by
  constructor
  · intro h
    unfold setSaleConfigBody
    rw [andThen_checkAndSwitchNetwork]
    simp [h]
  · intro h1 h2
    unfold setSaleConfigBody
    rw [andThen_checkAndSwitchNetwork]
    simp [h1, h2]

/-! ### Confirmation before submission -/

theorem privileged_isProcessing {busyText : String} {confirmFirst : Option String}
    {label : String} {body : State → Run} {handler : JSVal → State → Run} {env : Env}
    {s : State} (h : s.isProcessing = false) :
    (privileged busyText confirmFirst label body handler env s).st.isProcessing = false := by
  rw [privileged_eq]
  split
  · split
    · exact h
    · split
      · exact h
      · rfl
  · exact h

theorem privileged_body_sublog {busyText : String} {confirmFirst : Option String}
    {label : String} {body : State → Run} {handler : JSVal → State → Run} {env : Env}
    {s : State} {ev : Event}
    (h : ev ∈ (privileged busyText confirmFirst label body handler env s).log)
    (hc : ev.isContractCall = true) :
    (declines env confirmFirst = false) ∧
    (∀ a ∈ askedEvents confirmFirst,
      a ∈ (privileged busyText confirmFirst label body handler env s).log) ∧
    ∀ b ∈ (body { s with isProcessing := true }).log,
      b ∈ (privileged busyText confirmFirst label body handler env s).log := by
  rw [privileged_eq] at h ⊢
  split at h
  · split at h
    · simp only [List.mem_singleton] at h
      subst h
      simp [Event.isContractCall] at hc
    · split at h
      · exact absurd (askedEvents_not_contractCall _ _ h) (by simp [hc])
      · rename_i h1 h2 h3
        simp only [h1, h2, h3, if_true]
        refine ⟨trivial, fun a ha => by simp [ha], fun b hb => ?_⟩
        have : b ∈ (tryCatch (body { s with isProcessing := true }) handler).log := by
          unfold tryCatch
          split
          · exact hb
          · simp [hb]
        simp [this]
  · simp only [List.mem_singleton] at h
    subst h
    simp [Event.isContractCall] at hc

theorem privileged_confirmed {busyText question : String}
    {label : String} {body : State → Run} {handler : JSVal → State → Run} {env : Env}
    {s : State} {ev : Event}
    (h : ev ∈ (privileged busyText (some question) label body handler env s).log)
    (hc : ev.isContractCall = true) :
    Event.confirm question ∈ (privileged busyText (some question) label body handler env s).log ∧
    env.confirm question = true := by
  obtain ⟨h1, h2, -⟩ := privileged_body_sublog h hc
  refine ⟨h2 _ (by simp [askedEvents]), ?_⟩
  simpa [declines] using h1

theorem startNewRoundBody_confirmed {env : Env} {s : State} {ev : Event}
    (h : ev ∈ (startNewRoundBody env s).log) (hc : ev.isEstimateOrSend = true) :
    ∃ n, Event.confirm (startNewRoundQuestion n) ∈ (startNewRoundBody env s).log ∧
      env.confirm (startNewRoundQuestion n) = true := by
  unfold startNewRoundBody at h ⊢
  rw [andThen_checkAndSwitchNetwork] at h ⊢
  simp only [List.mem_append] at h
  rcases h with h | h
  · have := checkAndSwitchNetwork_log _ _ ev h
    rw [Event.isContractCall_of_isEstimateOrSend hc] at this
    cases this
  · dsimp only at h ⊢
    split at h
    · simp at h
    · split at h
      · simp only [List.mem_singleton] at h
        subst h
        simp [Event.isEstimateOrSend] at hc
      · rename_i n hn
        split at h
        · simp only [List.mem_cons, List.mem_singleton, List.not_mem_nil, or_false] at h
          rcases h with h | h <;> subst h <;> simp [Event.isEstimateOrSend] at hc
        · rename_i hconf
          refine ⟨n, ?_, by simpa using hconf⟩
          simp only [hn, hconf]
          simp only [List.mem_append]
          right
          repeat' split
          all_goals simp

theorem switchNetwork_noConfirm (env : Env) (t : Int) :
    ∀ ev ∈ (switchNetwork env t).1, ev.isConfirm = false := by
  have h : (switchNetwork env t).1.all (fun ev => !ev.isConfirm) = true := by
    unfold switchNetwork
    repeat' split
    all_goals rfl
  intro ev hev
  simpa using (List.all_eq_true.1 h) ev hev

theorem checkAndSwitchNetwork_noConfirm (env : Env) (s : State) :
    ∀ ev ∈ (checkAndSwitchNetwork env s).log, ev.isConfirm = false := by
  intro ev h
  unfold checkAndSwitchNetwork at h
  split at h
  · simp at h
  · split at h
    · simp only [List.mem_cons, List.mem_singleton, List.not_mem_nil, or_false] at h
      rcases h with h | h <;> subst h <;> rfl
    · split at h
      · split at h
        · rename_i evs _ heq
          simp only [List.mem_cons] at h
          rcases h with h | h
          · subst h; rfl
          · exact switchNetwork_noConfirm env s.Network ev (by rw [heq]; exact h)
        · rename_i evs _ heq
          simp only [List.cons_append, List.mem_cons, List.mem_append, List.mem_singleton,
            List.not_mem_nil, or_false] at h
          rcases h with h | h | h
          · subst h; rfl
          · exact switchNetwork_noConfirm env s.Network ev (by rw [heq]; exact h)
          · subst h; rfl
      · simp only [List.mem_singleton] at h
        subst h; rfl

theorem submitAndWait_noConfirm (env : Env) (s : State) (method : String) (args : List Arg)
    (sent : String → String → String) (done : String → String) :
    ∀ ev ∈ (submitAndWait env s method args sent done).log, ev.isConfirm = false := by
  have h : (submitAndWait env s method args sent done).log.all
      (fun ev => !ev.isConfirm) = true := by
    unfold submitAndWait
    repeat' split
    all_goals rfl
  intro ev hev
  simpa using (List.all_eq_true.1 h) ev hev

theorem roleBody_noConfirm (id role method title : String) (env : Env) (s : State) :
    ∀ ev ∈ (roleBody id role method title env s).log, ev.isConfirm = false := by
  intro ev h
  unfold roleBody at h
  rcases Run.mem_andThen_log h with h | h
  · exact checkAndSwitchNetwork_noConfirm _ _ ev h
  · dsimp only at h
    split at h
    · simp at h
    · rcases Run.mem_andThen_log h with h | h
      · unfold newContract at h
        split at h <;> simp at h
      · split at h
        · simp only [List.mem_singleton] at h
          subst h; rfl
        · rcases Run.mem_andThen_log h with h | h
          · simp only [List.mem_singleton] at h
            subst h; rfl
          · rcases Run.mem_andThen_log h with h | h
            · exact submitAndWait_noConfirm _ _ _ _ _ _ ev h
            · simp only [List.mem_singleton] at h
              subst h; rfl

theorem privileged_noConfirm {busyText label tag : String} {body : State → Run} {env : Env}
    {s : State} (hb : ∀ t, ∀ ev ∈ (body t).log, ev.isConfirm = false) :
    ∀ ev ∈ (privileged busyText none label body (reportError tag) env s).log,
      ev.isConfirm = false := by
  intro ev h
  rw [privileged_eq] at h
  split at h
  · split at h
    · simp only [List.mem_singleton] at h
      subst h; rfl
    · split at h
      · simp [askedEvents] at h
      · simp only [askedEvents, List.nil_append, List.singleton_append, List.mem_cons,
          List.mem_append, List.mem_singleton, List.not_mem_nil, or_false] at h
        rcases h with (h | h) | h
        · subst h; rfl
        · rcases tryCatch_log h with h | ⟨e, h⟩
          · exact hb _ ev h
          · simp only [reportError, List.mem_cons, List.mem_singleton, List.not_mem_nil,
              or_false] at h
            rcases h with h | h <;> subst h <;> rfl
        · subst h; rfl
  · simp only [List.mem_singleton] at h
    subst h; rfl

theorem confirmingOperations_confirmed {op : Env → State → Run} (hop : op ∈ confirmingOperations)
    {env : Env} {s : State} {ev : Event} (h : ev ∈ (op env s).log)
    (hc : ev.isEstimateOrSend = true) :
    ∃ q, Event.confirm q ∈ (op env s).log ∧ env.confirm q = true := by
  have hcall := Event.isContractCall_of_isEstimateOrSend hc
  simp only [confirmingOperations, List.mem_cons, List.mem_singleton, List.not_mem_nil,
    or_false] at hop
  rcases hop with rfl | rfl | rfl | rfl
  · exact ⟨_, privileged_confirmed h hcall⟩
  · exact ⟨_, privileged_confirmed h hcall⟩
  · unfold startNewRound at h ⊢
    obtain ⟨-, -, hsub⟩ := privileged_body_sublog h hcall
    rcases privileged_log_contractCall h hcall with hb | ⟨e, hh⟩
    · obtain ⟨n, hn, hconf⟩ := startNewRoundBody_confirmed hb hc
      exact ⟨_, hsub _ hn, hconf⟩
    · simp only [startNewRoundCatch, List.mem_singleton] at hh
      subst hh
      simp [Event.isEstimateOrSend] at hc
  · exact ⟨_, privileged_confirmed h hcall⟩

/-! ### A wait that throws after the submission -/

theorem afterWait_append_of_none {l1 : List Event} (l2 : List Event)
    (h : afterWait l1 = none) : afterWait (l1 ++ l2) = afterWait l2 := by
  induction l1 with
  | nil => rfl
  | cons ev l ih =>
    cases ev <;> simp_all [afterWait]

theorem afterWait_append_of_some {l1 : List Event} (l2 : List Event) {hash : String}
    {rest : List Event} (h : afterWait l1 = some (hash, rest)) :
    afterWait (l1 ++ l2) = some (hash, rest ++ l2) := by
  induction l1 with
  | nil => simp [afterWait] at h
  | cons ev l ih =>
    cases ev <;> simp_all [afterWait]

theorem afterWait_none_of_quiet {l : List Event} (h : ∀ ev ∈ l, ev.isContractCall = false) :
    afterWait l = none := by
  induction l with
  | nil => rfl
  | cons ev l ih =>
    have h1 := h ev (by simp)
    have h2 := ih (fun e he => h e (by simp [he]))
    cases ev <;> simp_all [afterWait, Event.isContractCall]

theorem withWait_wait (env : Env) (w : String → Except JSVal Int) :
    (withWait env w).wait = w := rfl

theorem withWait_value (env : Env) (w : String → Except JSVal Int) :
    (withWait env w).value = env.value := rfl

theorem withWait_toNumber (env : Env) (w : String → Except JSVal Int) :
    (withWait env w).toNumber = env.toNumber := rfl

theorem withWait_checked (env : Env) (w : String → Except JSVal Int) :
    (withWait env w).checked = env.checked := rfl

theorem withWait_confirm (env : Env) (w : String → Except JSVal Int) :
    (withWait env w).confirm = env.confirm := rfl

theorem withWait_present (env : Env) (w : String → Except JSVal Int) :
    (withWait env w).present = env.present := rfl

theorem withWait_slots (env : Env) (w : String → Except JSVal Int) :
    (withWait env w).slots = env.slots := rfl

theorem withWait_urlParses (env : Env) (w : String → Except JSVal Int) :
    (withWait env w).urlParses = env.urlParses := rfl

theorem withWait_formatNumber (env : Env) (w : String → Except JSVal Int) :
    (withWait env w).formatNumber = env.formatNumber := rfl

theorem withWait_floorTimes100 (env : Env) (w : String → Except JSVal Int) :
    (withWait env w).floorTimes100 = env.floorTimes100 := rfl

theorem withWait_bigNumberFrom (env : Env) (w : String → Except JSVal Int) :
    (withWait env w).bigNumberFrom = env.bigNumberFrom := rfl

theorem withWait_etherToWei (env : Env) (w : String → Except JSVal Int) :
    (withWait env w).etherToWei = env.etherToWei := rfl

theorem withWait_newContract (env : Env) (w : String → Except JSVal Int) :
    (withWait env w).newContract = env.newContract := rfl

theorem withWait_readNat (env : Env) (w : String → Except JSVal Int) :
    (withWait env w).readNat = env.readNat := rfl

theorem withWait_readText (env : Env) (w : String → Except JSVal Int) :
    (withWait env w).readText = env.readText := rfl

theorem withWait_estimateGas (env : Env) (w : String → Except JSVal Int) :
    (withWait env w).estimateGas = env.estimateGas := rfl

theorem withWait_send (env : Env) (w : String → Except JSVal Int) :
    (withWait env w).send = env.send := rfl

theorem withWait_ethereum (env : Env) (w : String → Except JSVal Int) :
    (withWait env w).ethereum = env.ethereum := rfl

theorem checkAndSwitchNetwork_withWait (env : Env) (w : String → Except JSVal Int) (s : State) :
    checkAndSwitchNetwork (withWait env w) s = checkAndSwitchNetwork env s := rfl

theorem newContract_withWait (env : Env) (w : String → Except JSVal Int) (s : State) :
    newContract (withWait env w) s = newContract env s := rfl

theorem updateWalletInfo_withWait (env : Env) (w : String → Except JSVal Int) (s : State) :
    updateWalletInfo (withWait env w) s = updateWalletInfo env s := rfl

theorem loadContractState_withWait (env : Env) (w : String → Except JSVal Int) (s : State) :
    loadContractState (withWait env w) s = loadContractState env s := rfl

theorem ensureConnected_withWait (env : Env) (w : String → Except JSVal Int) (s : State) :
    ensureConnected (withWait env w) s = ensureConnected env s := rfl

theorem collectWhitelistAddresses_withWait (env : Env) (w : String → Except JSVal Int)
    (mode : String) :
    collectWhitelistAddresses (withWait env w) mode = collectWhitelistAddresses env mode := rfl

theorem readSupplyAndMinted_withWait (env : Env) (w : String → Except JSVal Int) :
    readSupplyAndMinted (withWait env w) = readSupplyAndMinted env := rfl

theorem parseEther_withWait (env : Env) (w : String → Except JSVal Int) (eth : String) :
    parseEther (withWait env w) eth = parseEther env eth := rfl

theorem isValidURI_withWait (env : Env) (w : String → Except JSVal Int) (uri : String) :
    isValidURI (withWait env w) uri = isValidURI env uri := rfl

theorem connected_withWait (env : Env) (w : String → Except JSVal Int) (s : State) :
    connected (withWait env w) s = connected env s := rfl

theorem declines_withWait (env : Env) (w : String → Except JSVal Int)
    (confirmFirst : Option String) :
    declines (withWait env w) confirmFirst = declines env confirmFirst := rfl


theorem Run.onlyWarns_of_none {env : Env} {url : String} {r : Run}
    (h : afterWait r.log = none) : r.onlyWarns env url r :=
  ⟨rfl, rfl, Or.inl ⟨h, rfl⟩⟩

theorem Run.onlyWarns_after {env : Env} {url : String} {r : Run} {k k' : State → Run}
    (h : afterWait r.log = none) (hk : (k r.st).onlyWarns env url (k' r.st)) :
    (r.andThen k).onlyWarns env url (r.andThen k') := by
  unfold Run.andThen
  split
  · exact Run.onlyWarns_of_none h
  · obtain ⟨h1, h2, h3⟩ := hk
    refine ⟨h1, h2, ?_⟩
    rcases h3 with ⟨h4, h5⟩ | ⟨pre, hash, done, post, h4, h5, h6⟩
    · refine Or.inl ⟨?_, ?_⟩
      · show afterWait (r.log ++ (k r.st).log) = none
        rw [afterWait_append_of_none _ h]
        exact h4
      · show r.log ++ (k' r.st).log = r.log ++ (k r.st).log
        rw [h5]
    · refine Or.inr ⟨r.log ++ pre, hash, done, post, ?_, ?_, ?_⟩
      · rw [afterWait_append_of_none _ h]
        exact h4
      · show r.log ++ (k' r.st).log = _
        rw [h5, List.append_assoc]
      · show r.log ++ (k r.st).log = _
        rw [h6, List.append_assoc]

theorem Run.onlyWarns_before {env : Env} {url : String} {r r' : Run} {k : State → Run}
    (hr : r.onlyWarns env url r') (hk : ∀ s, afterWait (k s).log = none) :
    (r.andThen k).onlyWarns env url (r'.andThen k) := by
  obtain ⟨h1, h2, h3⟩ := hr
  unfold Run.andThen
  rw [← h1, ← h2]
  split
  · exact ⟨rfl, rfl, h3⟩
  · refine ⟨rfl, rfl, ?_⟩
    rcases h3 with ⟨h4, h5⟩ | ⟨pre, hash, done, post, h4, h5, h6⟩
    · refine Or.inl ⟨?_, ?_⟩
      · show afterWait (r.log ++ (k r.st).log) = none
        rw [afterWait_append_of_none _ h4]
        exact hk _
      · show r'.log ++ (k r.st).log = r.log ++ (k r.st).log
        rw [h5]
    · refine Or.inr ⟨pre, hash, done, post ++ (k r.st).log, h4, ?_, ?_⟩
      · show r'.log ++ (k r.st).log = _
        rw [h5]
        simp
      · show r.log ++ (k r.st).log = _
        rw [h6]
        simp

theorem Run.onlyWarns_tryCatch {env : Env} {url : String} {b b' : Run}
    {handler handler' : JSVal → State → Run} (hb : b.onlyWarns env url b')
    (hsame : ∀ e t, handler' e t = handler e t)
    (hh : ∀ e t, afterWait (handler e t).log = none) :
    (tryCatch b handler).onlyWarns env url (tryCatch b' handler') := by
  obtain ⟨h1, h2, h3⟩ := hb
  unfold tryCatch
  rw [← h1, ← h2]
  split
  · exact ⟨h1, h2, h3⟩
  · rename_i e _
    rw [hsame]
    refine ⟨rfl, rfl, ?_⟩
    rcases h3 with ⟨h4, h5⟩ | ⟨pre, hash, done, post, h4, h5, h6⟩
    · refine Or.inl ⟨?_, ?_⟩
      · show afterWait (b.log ++ (handler e b.st).log) = none
        rw [afterWait_append_of_none _ h4]
        exact hh _ _
      · show b'.log ++ (handler e b.st).log = b.log ++ (handler e b.st).log
        rw [h5]
    · refine Or.inr ⟨pre, hash, done, post ++ (handler e b.st).log, h4, ?_, ?_⟩
      · show b'.log ++ (handler e b.st).log = _
        rw [h5]
        simp
      · show b.log ++ (handler e b.st).log = _
        rw [h6]
        simp

theorem Run.onlyWarns_frame {env : Env} {url : String} {r r' : Run} (f : State → State)
    {pre post : List Event} (hr : r.onlyWarns env url r') (hpre : afterWait pre = none)
    (hpost : afterWait post = none) :
    (Run.mk (f r.st) (pre ++ r.log ++ post) r.res).onlyWarns env url
      (Run.mk (f r'.st) (pre ++ r'.log ++ post) r'.res) := by
  obtain ⟨h1, h2, h3⟩ := hr
  refine ⟨by rw [h1], h2, ?_⟩
  rcases h3 with ⟨h4, h5⟩ | ⟨p, hash, done, q, h4, h5, h6⟩
  · refine Or.inl ⟨?_, ?_⟩
    · show afterWait (pre ++ r.log ++ post) = none
      rw [List.append_assoc, afterWait_append_of_none _ hpre, afterWait_append_of_none _ h4]
      exact hpost
    · show pre ++ r'.log ++ post = pre ++ r.log ++ post
      rw [h5]
  · refine Or.inr ⟨pre ++ p, hash, done, q ++ post, ?_, ?_, ?_⟩
    · rw [afterWait_append_of_none _ hpre]
      exact h4
    · show pre ++ r'.log ++ post = _
      rw [h5]
      simp
    · show pre ++ r.log ++ post = _
      rw [h6]
      simp

theorem Run.afterWait_andThen {r : Run} {k : State → Run} (h : afterWait r.log = none)
    (hk : ∀ s, afterWait (k s).log = none) : afterWait (r.andThen k).log = none := by
  unfold Run.andThen
  split
  · exact h
  · show afterWait (r.log ++ (k r.st).log) = none
    rw [afterWait_append_of_none _ h]
    exact hk _

theorem updateWalletInfo_afterWait (env : Env) (s : State) :
    afterWait (updateWalletInfo env s).log = none :=
  afterWait_none_of_quiet (updateWalletInfo_log env s)

theorem loadContractState_afterWait (env : Env) (s : State) :
    afterWait (loadContractState env s).log = none :=
  afterWait_none_of_quiet (loadContractState_log env s)

theorem Run.onlyWarns_elim {env : Env} {url : String} {r r' : Run} {hash : String}
    {rest : List Event} {e : JSVal} (h : r.onlyWarns env url r')
    (hw : afterWait r.log = some (hash, rest)) (he : env.wait hash = .error e) :
    rest.head? = some (.alert (msgWaitWarning url hash)) ∧ r.st = r'.st ∧ r.res = r'.res ∧
      ∃ done, afterWait r'.log = some (hash, .alert done :: rest.tail) := by
  obtain ⟨h1, h2, h3⟩ := h
  rcases h3 with ⟨h4, _⟩ | ⟨pre, hash1, done, post, h4, h5, h6⟩
  · rw [h4] at hw
    cases hw
  · rw [h6, afterWait_append_of_none _ h4] at hw
    simp only [afterWait, Option.some.injEq, Prod.mk.injEq] at hw
    obtain ⟨hh, hr⟩ := hw
    subst hh
    subst hr
    rw [he]
    refine ⟨rfl, h1, h2, done, ?_⟩
    rw [h5, afterWait_append_of_none _ h4]
    rfl


theorem newContract_st (env : Env) (s : State) : (newContract env s).st = s := by
  unfold newContract
  split <;> rfl


theorem newContract_afterWait (env : Env) (s : State) :
    afterWait (newContract env s).log = none := by
  unfold newContract
  split <;> rfl


theorem checkAndSwitchNetwork_afterWait (env : Env) (s : State) :
    afterWait (checkAndSwitchNetwork env s).log = none :=
  afterWait_none_of_quiet (checkAndSwitchNetwork_log env s)


theorem submitAndWait_onlyWarns (env : Env) (w : String → Except JSVal Int)
    (hw : ∀ hash, ∃ status, w hash = .ok status) (s : State) (method : String)
    (args : List Arg) (sent : String → String → String) (done : String → String) :
    (submitAndWait env s method args sent done).onlyWarns env (getExplorerUrl s.Network)
      (submitAndWait (withWait env w) s method args sent done) := by
  unfold submitAndWait
  simp only [withWait_estimateGas, withWait_send, withWait_wait]
  split
  · exact Run.onlyWarns_of_none rfl
  · split
    · exact Run.onlyWarns_of_none rfl
    · rename_i _ gas _ _ hash _
      obtain ⟨status, hs⟩ := hw hash
      refine ⟨rfl, rfl, Or.inr ⟨[.estimateGas method args, .send method args (gasLimit 120 gas),
        .alert (sent (getExplorerUrl s.Network) hash)], hash, done hash, [], rfl, ?_, ?_⟩⟩
      · simp [hs]
      · cases env.wait hash <;> rfl


theorem ownerMintBody_onlyWarns (env : Env)
    (w : String → Except JSVal Int) (hw : ∀ hash, ∃ status, w hash = .ok status)
    (s : State) :
    (ownerMintBody env s).onlyWarns env (getExplorerUrl s.Network)
      (ownerMintBody (withWait env w) s) := by
  unfold ownerMintBody
  simp only [
    withWait_value, withWait_toNumber, withWait_checked, withWait_confirm, withWait_present,
    withWait_slots, withWait_urlParses, withWait_formatNumber, withWait_floorTimes100,
    withWait_bigNumberFrom, withWait_etherToWei, withWait_newContract, withWait_readNat,
    withWait_readText, withWait_estimateGas, withWait_send, withWait_ethereum,
    checkAndSwitchNetwork_withWait, newContract_withWait, updateWalletInfo_withWait,
    loadContractState_withWait, ensureConnected_withWait, collectWhitelistAddresses_withWait,
    readSupplyAndMinted_withWait, parseEther_withWait, isValidURI_withWait]
  refine Run.onlyWarns_after (checkAndSwitchNetwork_afterWait _ _) ?_
  rw [checkAndSwitchNetwork_st]
  try dsimp only
  split
  · exact Run.onlyWarns_of_none rfl
  split
  · exact Run.onlyWarns_of_none rfl
  refine Run.onlyWarns_after (newContract_afterWait _ _) ?_
  rw [newContract_st]
  refine Run.onlyWarns_before (submitAndWait_onlyWarns _ _ hw _ _ _ _ _) (fun s => ?_)
  refine Run.afterWait_andThen (updateWalletInfo_afterWait _ _) (fun s => ?_)
  refine Run.afterWait_andThen (loadContractState_afterWait _ _) (fun s => ?_)
  rfl


theorem whitelistBatchBody_onlyWarns (isAdd : Bool) (env : Env)
    (w : String → Except JSVal Int) (hw : ∀ hash, ∃ status, w hash = .ok status)
    (s : State) :
    (whitelistBatchBody isAdd env s).onlyWarns env (getExplorerUrl s.Network)
      (whitelistBatchBody isAdd (withWait env w) s) := by
  unfold whitelistBatchBody
  simp only [
    withWait_value, withWait_toNumber, withWait_checked, withWait_confirm, withWait_present,
    withWait_slots, withWait_urlParses, withWait_formatNumber, withWait_floorTimes100,
    withWait_bigNumberFrom, withWait_etherToWei, withWait_newContract, withWait_readNat,
    withWait_readText, withWait_estimateGas, withWait_send, withWait_ethereum,
    checkAndSwitchNetwork_withWait, newContract_withWait, updateWalletInfo_withWait,
    loadContractState_withWait, ensureConnected_withWait, collectWhitelistAddresses_withWait,
    readSupplyAndMinted_withWait, parseEther_withWait, isValidURI_withWait]
  refine Run.onlyWarns_after (checkAndSwitchNetwork_afterWait _ _) ?_
  rw [checkAndSwitchNetwork_st]
  try dsimp only
  split
  · exact Run.onlyWarns_of_none rfl
  · exact Run.onlyWarns_of_none rfl
  · exact Run.onlyWarns_of_none rfl
  · exact Run.onlyWarns_of_none rfl
  · refine Run.onlyWarns_after ?_ ?_
    · unfold duplicateNotice
      split <;> rfl
    refine Run.onlyWarns_after (newContract_afterWait _ _) ?_
    rw [newContract_st]
    refine Run.onlyWarns_before (submitAndWait_onlyWarns _ _ hw _ _ _ _ _) (fun s => ?_)
    rfl


theorem setWhitelistSingleBody_onlyWarns (env : Env)
    (w : String → Except JSVal Int) (hw : ∀ hash, ∃ status, w hash = .ok status)
    (s : State) :
    (setWhitelistSingleBody env s).onlyWarns env (getExplorerUrl s.Network)
      (setWhitelistSingleBody (withWait env w) s) := by
  unfold setWhitelistSingleBody
  simp only [
    withWait_value, withWait_toNumber, withWait_checked, withWait_confirm, withWait_present,
    withWait_slots, withWait_urlParses, withWait_formatNumber, withWait_floorTimes100,
    withWait_bigNumberFrom, withWait_etherToWei, withWait_newContract, withWait_readNat,
    withWait_readText, withWait_estimateGas, withWait_send, withWait_ethereum,
    checkAndSwitchNetwork_withWait, newContract_withWait, updateWalletInfo_withWait,
    loadContractState_withWait, ensureConnected_withWait, collectWhitelistAddresses_withWait,
    readSupplyAndMinted_withWait, parseEther_withWait, isValidURI_withWait]
  refine Run.onlyWarns_after (checkAndSwitchNetwork_afterWait _ _) ?_
  rw [checkAndSwitchNetwork_st]
  try dsimp only
  split
  · exact Run.onlyWarns_of_none rfl
  refine Run.onlyWarns_after (newContract_afterWait _ _) ?_
  rw [newContract_st]
  refine Run.onlyWarns_before (submitAndWait_onlyWarns _ _ hw _ _ _ _ _) (fun s => ?_)
  rfl


theorem parseEther_afterWait (env : Env) (eth : String) (pre : List Event)
    (h : afterWait pre = none) : afterWait (pre ++ (parseEther env eth).1) = none := by
  rw [afterWait_append_of_none _ h]
  unfold parseEther
  split <;> rfl


theorem setSaleConfigBody_onlyWarns (env : Env)
    (w : String → Except JSVal Int) (hw : ∀ hash, ∃ status, w hash = .ok status)
    (s : State) :
    (setSaleConfigBody env s).onlyWarns env (getExplorerUrl s.Network)
      (setSaleConfigBody (withWait env w) s) := by
  unfold setSaleConfigBody
  simp only [
    withWait_value, withWait_toNumber, withWait_checked, withWait_confirm, withWait_present,
    withWait_slots, withWait_urlParses, withWait_formatNumber, withWait_floorTimes100,
    withWait_bigNumberFrom, withWait_etherToWei, withWait_newContract, withWait_readNat,
    withWait_readText, withWait_estimateGas, withWait_send, withWait_ethereum,
    checkAndSwitchNetwork_withWait, newContract_withWait, updateWalletInfo_withWait,
    loadContractState_withWait, ensureConnected_withWait, collectWhitelistAddresses_withWait,
    readSupplyAndMinted_withWait, parseEther_withWait, isValidURI_withWait]
  refine Run.onlyWarns_after (checkAndSwitchNetwork_afterWait _ _) ?_
  rw [checkAndSwitchNetwork_st]
  try dsimp only
  split
  · exact Run.onlyWarns_of_none rfl
  split
  · exact Run.onlyWarns_of_none rfl
  split
  · exact Run.onlyWarns_of_none rfl
  refine Run.onlyWarns_after (newContract_afterWait _ _) ?_
  rw [newContract_st]
  split
  · exact Run.onlyWarns_of_none rfl
  split
  · exact Run.onlyWarns_of_none rfl
  split
  · exact Run.onlyWarns_of_none rfl
  split
  · exact Run.onlyWarns_of_none rfl
  split
  · rename_i evs _ heq
    apply Run.onlyWarns_of_none
    have := parseEther_afterWait env (jsTrim (env.value "saleWhitelistCost"))
      [.read "maxSupply", .read "totalMinted"] rfl
    rw [heq] at this
    exact this
  split
  · rename_i evs _ heq
    apply Run.onlyWarns_of_none
    have := parseEther_afterWait env (jsTrim (env.value "salePublicCost"))
      [.read "maxSupply", .read "totalMinted"] rfl
    rw [heq] at this
    exact this
  refine Run.onlyWarns_after (by rfl) ?_
  refine Run.onlyWarns_before (submitAndWait_onlyWarns _ _ hw _ _ _ _ _) (fun s => ?_)
  exact loadContractState_afterWait _ _


theorem toggleBody_onlyWarns (id method subject onWord offWord : String) (env : Env)
    (w : String → Except JSVal Int) (hw : ∀ hash, ∃ status, w hash = .ok status)
    (s : State) :
    (toggleBody id method subject onWord offWord env s).onlyWarns env (getExplorerUrl s.Network)
      (toggleBody id method subject onWord offWord (withWait env w) s) := by
  unfold toggleBody
  simp only [
    withWait_value, withWait_toNumber, withWait_checked, withWait_confirm, withWait_present,
    withWait_slots, withWait_urlParses, withWait_formatNumber, withWait_floorTimes100,
    withWait_bigNumberFrom, withWait_etherToWei, withWait_newContract, withWait_readNat,
    withWait_readText, withWait_estimateGas, withWait_send, withWait_ethereum,
    checkAndSwitchNetwork_withWait, newContract_withWait, updateWalletInfo_withWait,
    loadContractState_withWait, ensureConnected_withWait, collectWhitelistAddresses_withWait,
    readSupplyAndMinted_withWait, parseEther_withWait, isValidURI_withWait]
  refine Run.onlyWarns_after (checkAndSwitchNetwork_afterWait _ _) ?_
  rw [checkAndSwitchNetwork_st]
  try dsimp only
  refine Run.onlyWarns_after (newContract_afterWait _ _) ?_
  rw [newContract_st]
  refine Run.onlyWarns_before (submitAndWait_onlyWarns _ _ hw _ _ _ _ _) (fun s => ?_)
  exact loadContractState_afterWait _ _


theorem limitBody_onlyWarns (id : String) (max : ℚ)
    (invalid method sentLabel doneHead doneLabel : String) (shown : String → String)
    (env : Env)
    (w : String → Except JSVal Int) (hw : ∀ hash, ∃ status, w hash = .ok status)
    (s : State) :
    (limitBody id max invalid method sentLabel doneHead doneLabel shown env s).onlyWarns env
      (getExplorerUrl s.Network)
      (limitBody id max invalid method sentLabel doneHead doneLabel shown (withWait env w) s) := by
  unfold limitBody
  simp only [
    withWait_value, withWait_toNumber, withWait_checked, withWait_confirm, withWait_present,
    withWait_slots, withWait_urlParses, withWait_formatNumber, withWait_floorTimes100,
    withWait_bigNumberFrom, withWait_etherToWei, withWait_newContract, withWait_readNat,
    withWait_readText, withWait_estimateGas, withWait_send, withWait_ethereum,
    checkAndSwitchNetwork_withWait, newContract_withWait, updateWalletInfo_withWait,
    loadContractState_withWait, ensureConnected_withWait, collectWhitelistAddresses_withWait,
    readSupplyAndMinted_withWait, parseEther_withWait, isValidURI_withWait]
  refine Run.onlyWarns_after (checkAndSwitchNetwork_afterWait _ _) ?_
  rw [checkAndSwitchNetwork_st]
  try dsimp only
  split
  · exact Run.onlyWarns_of_none rfl
  refine Run.onlyWarns_after (newContract_afterWait _ _) ?_
  rw [newContract_st]
  refine Run.onlyWarns_before (submitAndWait_onlyWarns _ _ hw _ _ _ _ _) (fun s => ?_)
  refine Run.afterWait_andThen (loadContractState_afterWait _ _) (fun s => ?_)
  rfl


theorem setBaseURIBody_onlyWarns (env : Env)
    (w : String → Except JSVal Int) (hw : ∀ hash, ∃ status, w hash = .ok status)
    (s : State) :
    (setBaseURIBody env s).onlyWarns env (getExplorerUrl s.Network)
      (setBaseURIBody (withWait env w) s) := by
  unfold setBaseURIBody
  simp only [
    withWait_value, withWait_toNumber, withWait_checked, withWait_confirm, withWait_present,
    withWait_slots, withWait_urlParses, withWait_formatNumber, withWait_floorTimes100,
    withWait_bigNumberFrom, withWait_etherToWei, withWait_newContract, withWait_readNat,
    withWait_readText, withWait_estimateGas, withWait_send, withWait_ethereum,
    checkAndSwitchNetwork_withWait, newContract_withWait, updateWalletInfo_withWait,
    loadContractState_withWait, ensureConnected_withWait, collectWhitelistAddresses_withWait,
    readSupplyAndMinted_withWait, parseEther_withWait, isValidURI_withWait]
  refine Run.onlyWarns_after (checkAndSwitchNetwork_afterWait _ _) ?_
  rw [checkAndSwitchNetwork_st]
  try dsimp only
  split
  · exact Run.onlyWarns_of_none rfl
  split
  · exact Run.onlyWarns_of_none rfl
  refine Run.onlyWarns_after (newContract_afterWait _ _) ?_
  rw [newContract_st]
  refine Run.onlyWarns_before (submitAndWait_onlyWarns _ _ hw _ _ _ _ _) (fun s => ?_)
  rfl


theorem setRoyaltyBody_onlyWarns (env : Env)
    (w : String → Except JSVal Int) (hw : ∀ hash, ∃ status, w hash = .ok status)
    (s : State) :
    (setRoyaltyBody env s).onlyWarns env (getExplorerUrl s.Network)
      (setRoyaltyBody (withWait env w) s) := by
  unfold setRoyaltyBody
  simp only [
    withWait_value, withWait_toNumber, withWait_checked, withWait_confirm, withWait_present,
    withWait_slots, withWait_urlParses, withWait_formatNumber, withWait_floorTimes100,
    withWait_bigNumberFrom, withWait_etherToWei, withWait_newContract, withWait_readNat,
    withWait_readText, withWait_estimateGas, withWait_send, withWait_ethereum,
    checkAndSwitchNetwork_withWait, newContract_withWait, updateWalletInfo_withWait,
    loadContractState_withWait, ensureConnected_withWait, collectWhitelistAddresses_withWait,
    readSupplyAndMinted_withWait, parseEther_withWait, isValidURI_withWait]
  refine Run.onlyWarns_after (checkAndSwitchNetwork_afterWait _ _) ?_
  rw [checkAndSwitchNetwork_st]
  try dsimp only
  split
  · exact Run.onlyWarns_of_none rfl
  split
  · exact Run.onlyWarns_of_none rfl
  refine Run.onlyWarns_after (newContract_afterWait _ _) ?_
  rw [newContract_st]
  refine Run.onlyWarns_before (submitAndWait_onlyWarns _ _ hw _ _ _ _ _) (fun s => ?_)
  rfl


theorem setWithdrawalAddressBody_onlyWarns (env : Env)
    (w : String → Except JSVal Int) (hw : ∀ hash, ∃ status, w hash = .ok status)
    (s : State) :
    (setWithdrawalAddressBody env s).onlyWarns env (getExplorerUrl s.Network)
      (setWithdrawalAddressBody (withWait env w) s) := by
  unfold setWithdrawalAddressBody
  simp only [
    withWait_value, withWait_toNumber, withWait_checked, withWait_confirm, withWait_present,
    withWait_slots, withWait_urlParses, withWait_formatNumber, withWait_floorTimes100,
    withWait_bigNumberFrom, withWait_etherToWei, withWait_newContract, withWait_readNat,
    withWait_readText, withWait_estimateGas, withWait_send, withWait_ethereum,
    checkAndSwitchNetwork_withWait, newContract_withWait, updateWalletInfo_withWait,
    loadContractState_withWait, ensureConnected_withWait, collectWhitelistAddresses_withWait,
    readSupplyAndMinted_withWait, parseEther_withWait, isValidURI_withWait]
  refine Run.onlyWarns_after (checkAndSwitchNetwork_afterWait _ _) ?_
  rw [checkAndSwitchNetwork_st]
  try dsimp only
  split
  · exact Run.onlyWarns_of_none rfl
  refine Run.onlyWarns_after (newContract_afterWait _ _) ?_
  rw [newContract_st]
  refine Run.onlyWarns_before (submitAndWait_onlyWarns _ _ hw _ _ _ _ _) (fun s => ?_)
  refine Run.afterWait_andThen (loadContractState_afterWait _ _) (fun s => ?_)
  rfl


theorem withdrawFundsBody_onlyWarns (env : Env)
    (w : String → Except JSVal Int) (hw : ∀ hash, ∃ status, w hash = .ok status)
    (s : State) :
    (withdrawFundsBody env s).onlyWarns env (getExplorerUrl s.Network)
      (withdrawFundsBody (withWait env w) s) := by
  unfold withdrawFundsBody
  simp only [
    withWait_value, withWait_toNumber, withWait_checked, withWait_confirm, withWait_present,
    withWait_slots, withWait_urlParses, withWait_formatNumber, withWait_floorTimes100,
    withWait_bigNumberFrom, withWait_etherToWei, withWait_newContract, withWait_readNat,
    withWait_readText, withWait_estimateGas, withWait_send, withWait_ethereum,
    checkAndSwitchNetwork_withWait, newContract_withWait, updateWalletInfo_withWait,
    loadContractState_withWait, ensureConnected_withWait, collectWhitelistAddresses_withWait,
    readSupplyAndMinted_withWait, parseEther_withWait, isValidURI_withWait]
  refine Run.onlyWarns_after (checkAndSwitchNetwork_afterWait _ _) ?_
  rw [checkAndSwitchNetwork_st]
  refine Run.onlyWarns_after (newContract_afterWait _ _) ?_
  rw [newContract_st]
  refine Run.onlyWarns_before (submitAndWait_onlyWarns _ _ hw _ _ _ _ _) (fun s => ?_)
  refine Run.afterWait_andThen (updateWalletInfo_afterWait _ _) (fun s => ?_)
  exact loadContractState_afterWait _ _


theorem roleBody_onlyWarns (id role method title : String) (env : Env)
    (w : String → Except JSVal Int) (hw : ∀ hash, ∃ status, w hash = .ok status)
    (s : State) :
    (roleBody id role method title env s).onlyWarns env (getExplorerUrl s.Network)
      (roleBody id role method title (withWait env w) s) := by
  unfold roleBody
  simp only [
    withWait_value, withWait_toNumber, withWait_checked, withWait_confirm, withWait_present,
    withWait_slots, withWait_urlParses, withWait_formatNumber, withWait_floorTimes100,
    withWait_bigNumberFrom, withWait_etherToWei, withWait_newContract, withWait_readNat,
    withWait_readText, withWait_estimateGas, withWait_send, withWait_ethereum,
    checkAndSwitchNetwork_withWait, newContract_withWait, updateWalletInfo_withWait,
    loadContractState_withWait, ensureConnected_withWait, collectWhitelistAddresses_withWait,
    readSupplyAndMinted_withWait, parseEther_withWait, isValidURI_withWait]
  refine Run.onlyWarns_after (checkAndSwitchNetwork_afterWait _ _) ?_
  rw [checkAndSwitchNetwork_st]
  try dsimp only
  split
  · exact Run.onlyWarns_of_none rfl
  refine Run.onlyWarns_after (newContract_afterWait _ _) ?_
  rw [newContract_st]
  split
  · exact Run.onlyWarns_of_none rfl
  refine Run.onlyWarns_after (by rfl) ?_
  refine Run.onlyWarns_before (submitAndWait_onlyWarns _ _ hw _ _ _ _ _) (fun s => ?_)
  rfl


theorem askedEvents_afterWait (confirmFirst : Option String) :
    afterWait (askedEvents confirmFirst) = none := by
  cases confirmFirst <;> rfl


theorem privileged_onlyWarns {busyText : String} {confirmFirst : Option String}
    {label url : String} {body body' : State → Run} {handler handler' : JSVal → State → Run}
    {env : Env} {w : String → Except JSVal Int} {s : State}
    (hb : (body { s with isProcessing := true }).onlyWarns env url
      (body' { s with isProcessing := true }))
    (hsame : ∀ e t, handler' e t = handler e t)
    (hh : ∀ e t, afterWait (handler e t).log = none) :
    (privileged busyText confirmFirst label body handler env s).onlyWarns env url
      (privileged busyText confirmFirst label body' handler' (withWait env w) s) := by
  rw [privileged_eq, privileged_eq, connected_withWait, declines_withWait]
  split
  · split
    · exact Run.onlyWarns_of_none rfl
    · split
      · exact Run.onlyWarns_of_none (askedEvents_afterWait _)
      · refine Run.onlyWarns_frame (fun t => { t with isProcessing := false })
          (Run.onlyWarns_tryCatch hb hsame hh) ?_ rfl
        rw [afterWait_append_of_none _ (askedEvents_afterWait _)]
        rfl
  · exact Run.onlyWarns_of_none rfl

/-- In an ordinary operation the outcome of the wait changes nothing but the
message shown after it. -/
theorem ordinaryOperations_onlyWarns (env : Env) (w : String → Except JSVal Int)
    (hw : ∀ hash, ∃ status, w hash = .ok status) (s : State) :
    ∀ op ∈ ordinaryOperations,
      (op env s).onlyWarns env (getExplorerUrl s.Network) (op (withWait env w) s) := by
  intro op hop
  have hr : ∀ (tag : String) (e : JSVal) (t : State), afterWait (reportError tag e t).log = none :=
    fun _ _ _ => rfl
  have hv : ∀ (tag id : String) (e : JSVal) (t : State),
      afterWait (reportErrorAndRevert tag id env e t).log = none := fun _ _ _ _ => rfl
  simp only [ordinaryOperations, List.mem_cons, List.mem_singleton, List.not_mem_nil,
    or_false] at hop
  rcases hop with rfl | rfl | rfl | rfl | rfl | rfl | rfl | rfl | rfl | rfl | rfl | rfl | rfl |
    rfl | rfl | rfl | rfl | rfl | rfl | rfl | rfl
  · exact privileged_onlyWarns (ownerMintBody_onlyWarns env w hw _) (fun _ _ => rfl) (hr _)
  · exact privileged_onlyWarns (whitelistBatchBody_onlyWarns _ env w hw _) (fun _ _ => rfl) (hr _)
  · exact privileged_onlyWarns (whitelistBatchBody_onlyWarns _ env w hw _) (fun _ _ => rfl) (hr _)
  · exact privileged_onlyWarns (setWhitelistSingleBody_onlyWarns env w hw _) (fun _ _ => rfl) (hr _)
  · exact privileged_onlyWarns (setSaleConfigBody_onlyWarns env w hw _) (fun _ _ => rfl) (hr _)
  · exact privileged_onlyWarns (toggleBody_onlyWarns _ _ _ _ _ env w hw _) (fun _ _ => rfl) (hv _ _)
  · exact privileged_onlyWarns (toggleBody_onlyWarns _ _ _ _ _ env w hw _) (fun _ _ => rfl) (hv _ _)
  · exact privileged_onlyWarns (limitBody_onlyWarns _ _ _ _ _ _ _ _ env w hw _) (fun _ _ => rfl) (hr _)
  · exact privileged_onlyWarns (limitBody_onlyWarns _ _ _ _ _ _ _ _ env w hw _) (fun _ _ => rfl) (hr _)
  · exact privileged_onlyWarns (limitBody_onlyWarns _ _ _ _ _ _ _ _ env w hw _) (fun _ _ => rfl) (hr _)
  · exact privileged_onlyWarns (limitBody_onlyWarns _ _ _ _ _ _ _ _ env w hw _) (fun _ _ => rfl) (hr _)
  · exact privileged_onlyWarns (limitBody_onlyWarns _ _ _ _ _ _ _ _ env w hw _) (fun _ _ => rfl) (hr _)
  · exact privileged_onlyWarns (setBaseURIBody_onlyWarns env w hw _) (fun _ _ => rfl) (hr _)
  · exact privileged_onlyWarns (toggleBody_onlyWarns _ _ _ _ _ env w hw _) (fun _ _ => rfl) (hv _ _)
  · exact privileged_onlyWarns (setRoyaltyBody_onlyWarns env w hw _) (fun _ _ => rfl) (hr _)
  · exact privileged_onlyWarns (setWithdrawalAddressBody_onlyWarns env w hw _) (fun _ _ => rfl) (hr _)
  · exact privileged_onlyWarns (withdrawFundsBody_onlyWarns env w hw _) (fun _ _ => rfl) (hr _)
  · exact privileged_onlyWarns (roleBody_onlyWarns _ _ _ _ env w hw _) (fun _ _ => rfl) (hr _)
  · exact privileged_onlyWarns (roleBody_onlyWarns _ _ _ _ env w hw _) (fun _ _ => rfl) (hr _)
  · exact privileged_onlyWarns (roleBody_onlyWarns _ _ _ _ env w hw _) (fun _ _ => rfl) (hr _)
  · exact privileged_onlyWarns (roleBody_onlyWarns _ _ _ _ env w hw _) (fun _ _ => rfl) (hr _)

theorem tryCatch_res_ok {b : Run} {handler : JSVal → State → Run}
    (hh : ∀ e t, (handler e t).res = .ok ()) : (tryCatch b handler).res = .ok () := by
  unfold tryCatch
  split
  · rename_i hres
    rw [hres]
  · exact hh _ _

theorem privileged_res_of_wait {busyText : String} {confirmFirst : Option String}
    {label : String} {body : State → Run} {handler : JSVal → State → Run} {env : Env}
    {s : State} {hash : String} {rest : List Event}
    (hh : ∀ e t, (handler e t).res = .ok ())
    (hw : afterWait (privileged busyText confirmFirst label body handler env s).log =
      some (hash, rest)) :
    (privileged busyText confirmFirst label body handler env s).res = .ok () := by
  rw [privileged_eq] at hw ⊢
  split at hw
  · split at hw
    · simp [afterWait] at hw
    · split at hw
      · rw [askedEvents_afterWait] at hw
        cases hw
      · rename_i h1 h2 h3
        simp only [h1, h2, h3, if_true]
        exact tryCatch_res_ok hh
  · simp [afterWait] at hw

/-- An ordinary operation that has waited for a transaction completes
normally. -/
theorem ordinaryOperations_res_of_wait (env : Env) (s : State) (hash : String)
    (rest : List Event) :
    ∀ op ∈ ordinaryOperations, afterWait (op env s).log = some (hash, rest) →
      (op env s).res = .ok () := by
  intro op hop
  simp only [ordinaryOperations, List.mem_cons, List.mem_singleton, List.not_mem_nil,
    or_false] at hop
  rcases hop with rfl | rfl | rfl | rfl | rfl | rfl | rfl | rfl | rfl | rfl | rfl | rfl | rfl |
    rfl | rfl | rfl | rfl | rfl | rfl | rfl | rfl <;>
  exact privileged_res_of_wait (fun _ _ => rfl)

theorem startNewRoundBody_wait_failure {env : Env} {s : State} {hash : String}
    {rest : List Event} {e : JSVal}
    (h : afterWait (startNewRoundBody env s).log = some (hash, rest))
    (he : env.wait hash = .error e) :
    (startNewRoundBody env s).res = .error e ∧ rest = [] ∧ (startNewRoundBody env s).st = s := by
  unfold startNewRoundBody at h ⊢
  rw [andThen_checkAndSwitchNetwork] at h ⊢
  simp only [afterWait_append_of_none _ (checkAndSwitchNetwork_afterWait _ _)] at h
  dsimp only at h ⊢
  cases hc : env.newContract with
  | error x => simp [hc, afterWait] at h
  | ok u =>
    cases hr : env.readNat "currentEpoch" with
    | error x => simp [hc, hr, afterWait] at h
    | ok n =>
      cases hq : env.confirm (startNewRoundQuestion n) with
      | false => simp [hc, hr, hq, afterWait] at h
      | true =>
        cases hg : env.estimateGas "startNewRound" [] with
        | error x => simp [hc, hr, hq, hg, afterWait] at h
        | ok gas =>
          cases hs : env.send "startNewRound" [] (gasLimit 130 gas) with
          | error x => simp [hc, hr, hq, hg, hs, afterWait] at h
          | ok hash1 =>
            cases hw : env.wait hash1 with
            | error x =>
              simp only [hc, hr, hq, hg, hs, hw, afterWait, Bool.not_true, Bool.false_eq_true,
                if_false, Option.some.injEq, Prod.mk.injEq] at h ⊢
              obtain ⟨h1, h2⟩ := h
              subst h1
              rw [hw] at he
              injection he with he
              subst he
              exact ⟨rfl, h2.symm, trivial⟩
            | ok status =>
              exfalso
              simp only [hc, hr, hq, hg, hs, hw, Bool.not_true, Bool.false_eq_true,
                if_false] at h
              split at h <;> simp only [afterWait, List.cons_append, List.nil_append,
                Option.some.injEq, Prod.mk.injEq] at h <;>
              · obtain ⟨h1, -⟩ := h
                subst h1
                rw [hw] at he
                cases he

theorem startNewRound_wait_failure {env : Env} {s : State} {hash : String}
    {rest : List Event} {e : JSVal}
    (h : afterWait (startNewRound env s).log = some (hash, rest))
    (he : env.wait hash = .error e) :
    rest = [.errorLog "startNewRound 에러:", .buttonRestore] ∧
    (startNewRound env s).res =
      (env.handleError e "새 라운드 시작" { s with isProcessing := true }).2 := by
  unfold startNewRound at h ⊢
  rw [privileged_eq] at h ⊢
  split at h
  · split at h
    · simp [afterWait] at h
    · split at h
      · simp [afterWait, askedEvents] at h
      · rename_i h1 h2 h3
        simp only [h1, h2, h3, if_true]
        simp only [List.append_assoc] at h
        rw [afterWait_append_of_none _ (askedEvents_afterWait _)] at h
        rw [afterWait_append_of_none _
          (by rfl : afterWait [Event.buttonBusy labelPending] = none)] at h
        unfold tryCatch at h ⊢
        split at h
        · rename_i hres
          exfalso
          cases h4 : afterWait (startNewRoundBody env { s with isProcessing := true }).log with
          | none =>
            rw [afterWait_append_of_none _ h4] at h
            simp [afterWait] at h
          | some p =>
            obtain ⟨hash1, rest1⟩ := p
            rw [afterWait_append_of_some _ h4] at h
            injection h with h
            injection h with hhash hrest
            subst hhash
            have := (startNewRoundBody_wait_failure h4 he).1
            rw [hres] at this
            cases this
        · rename_i e1 hres
          dsimp only at h
          cases h4 : afterWait (startNewRoundBody env { s with isProcessing := true }).log with
          | none =>
            simp only [List.append_assoc] at h
            rw [afterWait_append_of_none _ h4] at h
            simp [afterWait, startNewRoundCatch] at h
          | some p =>
            obtain ⟨hash1, rest1⟩ := p
            simp only [List.append_assoc] at h
            rw [afterWait_append_of_some _ h4] at h
            injection h with h
            injection h with hhash hrest
            subst hhash
            obtain ⟨k1, k2, k3⟩ := startNewRoundBody_wait_failure h4 he
            rw [hres] at k1
            injection k1 with k1
            subst k1 k2
            simp only [hres, k3]
            exact ⟨by simpa [startNewRoundCatch] using hrest.symm, rfl⟩
  · simp [afterWait] at h

theorem startsWith_append (p r : List Char) : startsWith p (p ++ r) = true := by
  induction p with
  | nil => rfl
  | cons c cs ih => simp [startsWith, ih]

theorem includes_append_left (a b : List Char) : includes (a ++ b) b = true := by
  induction a with
  | nil =>
    cases b with
    | nil => rfl
    | cons c cs =>
      have := startsWith_append (c :: cs) []
      simp only [List.append_nil] at this
      simp [includes, this]
  | cons x a ih => simp [includes, ih]

theorem msgWaitWarning_includes (url hash : String) :
    includes (msgWaitWarning url hash).data hash.data = true := by
  have : (msgWaitWarning url hash).data =
      ("⚠️ 트랜잭션 전송은 완료되었으나 확인 중 오류 발생\n\nExplorer에서 확인: " ++ url ++ "/tx/").data ++
        hash.data := by
    simp [msgWaitWarning, String.data_append]
  rw [this]
  exact includes_append_left _ _

/-! ### Network selection -/

theorem onChainChanged_unsupported (env : Env) (chainId : String) (s : State)
    (h : NETWORKS (chainKey (parseInt16 chainId)) = none) :
    onChainChanged env chainId s = ⟨s, [.alert msgChangedToUnsupported], .ok ()⟩ := by
  unfold onChainChanged
  split
  · rename_i h2
    rw [h] at h2
    cases h2
  · rfl

theorem switchNetwork_unsupported (env : Env) (targetChainId : Int)
    (h : NETWORKS (intToString targetChainId) = none) :
    switchNetwork env targetChainId = ([.alert msgUnsupportedTarget], .ok false) := by
  unfold switchNetwork
  rw [h]
  rfl

theorem selectNetwork_unsupported (env : Env) (targetChainId : Int) (s : State)
    (h : NETWORKS (intToString targetChainId) = none) :
    selectNetwork env targetChainId s = ⟨s, [.alert msgUnsupportedTarget], .ok ()⟩ := by
  unfold selectNetwork
  rw [h]

theorem checkAndSwitchNetwork_unsupported (env : Env) (s : State)
    (h : NETWORKS (intToString s.Network) = none) :
    (∀ ev ∈ (checkAndSwitchNetwork env s).log, ev.isProviderCall = true →
      ev = .request "eth_chainId" "") ∧
    (env.ethereum = true → Event.request "eth_chainId" "" ∈ (checkAndSwitchNetwork env s).log) := by
  unfold checkAndSwitchNetwork
  rw [switchNetwork_unsupported env s.Network h]
  constructor
  · intro ev hev hc
    split at hev
    · simp at hev
    · split at hev
      · simp only [List.mem_cons, List.mem_singleton, List.not_mem_nil, or_false] at hev
        rcases hev with rfl | rfl
        · rfl
        · simp [Event.isProviderCall] at hc
      · split at hev
        · simp only [List.mem_cons, List.mem_singleton, List.not_mem_nil, or_false] at hev
          rcases hev with rfl | rfl
          · rfl
          · simp [Event.isProviderCall] at hc
        · simp only [List.mem_singleton] at hev
          exact hev
  · intro he
    simp only [he, Bool.not_true, Bool.false_eq_true, if_false]
    repeat' split
    all_goals simp

theorem resync_Network (response : Except JSVal String) (targetChainId : Int) (s : State) :
    (resync response targetChainId s).Network =
      match response with
      | .ok chainIdHex => realOrTarget chainIdHex targetChainId
      | .error _ => targetChainId := by
  unfold resync
  split <;> rfl

theorem selectNetwork_Network (env : Env) (targetChainId : Int) (s : State)
    (ht : (NETWORKS (intToString targetChainId)).isSome = true) (he : env.ethereum = true)
    (hsw : ∃ b, (switchNetwork env targetChainId).2 = .ok b) :
    (selectNetwork env targetChainId s).st.Network =
      match lastChainRead env targetChainId with
      | .ok chainIdHex => realOrTarget chainIdHex targetChainId
      | .error _ => targetChainId := by
  obtain ⟨b, hb⟩ := hsw
  unfold selectNetwork lastChainRead
  cases hn : NETWORKS (intToString targetChainId) with
  | none => rw [hn] at ht; cases ht
  | some info =>
    simp only [he, if_true]
    cases hs : switchNetwork env targetChainId with
    | mk evs r =>
      rw [hs] at hb
      simp only at hb
      subst hb
      cases b
      · simp only [Run.andThen]
        rw [(afterNetworkChange_keeps env _).1, resync_Network]
      · simp only [Run.andThen]
        rw [(afterNetworkChange_keeps env _).1, resync_Network]

theorem getProp_error {v x : JSVal} {k : String} (h : getProp v k = .error x) :
    v = .undefined ∨ v = .null ∨
      ∃ props toStr, v = .obj props toStr ∧ props.lookup k = some none := by
  cases v with
  | undefined => exact Or.inl rfl
  | null => exact Or.inr (Or.inl rfl)
  | bool b => simp [getProp] at h
  | num n => simp [getProp] at h
  | str t => simp [getProp] at h
  | obj props toStr =>
    refine Or.inr (Or.inr ⟨props, toStr, rfl, ?_⟩)
    unfold getProp at h
    cases hl : props.lookup k with
    | none => simp [hl] at h
    | some w =>
      cases w with
      | none => rfl
      | some u => simp [hl] at h

theorem switchNetwork_throws {env : Env} {targetChainId : Int} {x : JSVal}
    (h : (switchNetwork env targetChainId).2 = .error x) :
    ∃ info e, NETWORKS (intToString targetChainId) = some info ∧
      env.switchChain info.chainIdHex = .error e ∧ getProp e "code" = .error x := by
  unfold switchNetwork at h
  cases hn : NETWORKS (intToString targetChainId) with
  | none => simp [hn] at h
  | some info =>
    cases hs : env.switchChain info.chainIdHex with
    | ok u => simp [hn, hs] at h
    | error e =>
      cases hc : getProp e "code" with
      | error y =>
        simp only [hn, hs, hc] at h
        injection h with h
        subst h
        exact ⟨info, e, rfl, hs, hc⟩
      | ok code =>
        exfalso
        simp only [hn, hs, hc] at h
        split at h
        · split at h <;> cases h
        · cases h

theorem selectNetwork_of_throw (env : Env) (targetChainId : Int) (s : State) {x : JSVal}
    (ht : (NETWORKS (intToString targetChainId)).isSome = true) (he : env.ethereum = true)
    (h : (switchNetwork env targetChainId).2 = .error x) :
    selectNetwork env targetChainId s = ⟨s, (switchNetwork env targetChainId).1, .error x⟩ := by
  unfold selectNetwork
  cases hn : NETWORKS (intToString targetChainId) with
  | none => rw [hn] at ht; cases ht
  | some info =>
    simp only [he, if_true]
    cases hs : switchNetwork env targetChainId with
    | mk evs r =>
      rw [hs] at h
      simp only at h
      subst h
      rfl

theorem realOrTarget_cases (chainIdHex : String) (targetChainId : Int) :
    (∀ v, parseInt16 chainIdHex = some v → (NETWORKS (intToString v)).isSome = true →
      realOrTarget chainIdHex targetChainId = v) ∧
    (NETWORKS (chainKey (parseInt16 chainIdHex)) = none →
      realOrTarget chainIdHex targetChainId = targetChainId) := by
  constructor
  · intro v hv hsome
    unfold realOrTarget
    split
    · rename_i realId _ h1 _
      rw [hv] at h1
      injection h1 with h1
      exact h1.symm
    · rename_i hno
      exfalso
      cases hn : NETWORKS (intToString v) with
      | none => rw [hn] at hsome; cases hsome
      | some info =>
        apply hno v info hv
        rw [hv]
        exact hn
  · intro hnone
    unfold realOrTarget
    split
    · rename_i h2
      rw [hnone] at h2
      cases h2
    · rfl

theorem switchNetwork_on_failure (env : Env) (targetChainId : Int) (info : NetworkInfo)
    (e code : JSVal) (hn : NETWORKS (intToString targetChainId) = some info)
    (hs : env.switchChain info.chainIdHex = .error e) (hc : getProp e "code" = .ok code) :
    (isNum code 4902 = true → env.addChain info.chainIdHex = .ok () →
      switchNetwork env targetChainId =
        ([.request "wallet_switchEthereumChain" info.chainIdHex,
          .addChain (addChainParams info)], .ok true)) ∧
    (isNum code 4902 = true → ∀ addError, env.addChain info.chainIdHex = .error addError →
      switchNetwork env targetChainId =
        ([.request "wallet_switchEthereumChain" info.chainIdHex,
          .addChain (addChainParams info), .errorLog "네트워크 추가 실패:",
          .alert ("네트워크 추가에 실패했습니다.\n\n" ++ friendlyError addError)], .ok false)) ∧
    (isNum code 4902 = false →
      switchNetwork env targetChainId =
        ([.request "wallet_switchEthereumChain" info.chainIdHex,
          .errorLog "네트워크 전환 실패:",
          .alert ("네트워크 전환에 실패했습니다.\n\n" ++ friendlyError e)], .ok false)) := by
  refine ⟨?_, ?_, ?_⟩
  · intro h1 h2
    unfold switchNetwork
    simp [hn, hs, hc, h1, h2]
  · intro h1 addError h2
    unfold switchNetwork
    simp [hn, hs, hc, h1, h2]
  · intro h1
    unfold switchNetwork
    simp [hn, hs, hc, h1]

theorem rebuildProviders_isProcessing (env : Env) (s : State) :
    (rebuildProviders env s).1.isProcessing = s.isProcessing :=
  (rebuildProviders_keeps env s).2.2.1

theorem updateWalletInfo_isProcessing (env : Env) (s : State) :
    (updateWalletInfo env s).st.isProcessing = s.isProcessing := by
  have h := rebuildProviders_isProcessing env s
  have k := updateWalletInfoShow_keeps env
  unfold updateWalletInfo
  split
  · rfl
  · split
    · simp only [Run.andThen]
      exact (k _).2.2.1.trans h
    · exact (k s).2.2.1

theorem submitAndWait_sends (env : Env) (s : State) (method : String) (args : List Arg)
    (sent : String → String → String) (done : String → String) (gas : Nat)
    (h : env.estimateGas method args = .ok gas) :
    Event.send method args (gasLimit 120 gas) ∈
      (submitAndWait env s method args sent done).log := by
  unfold submitAndWait
  rw [h]
  dsimp only
  split <;> simp

theorem ownerMintBody_submits (env : Env) (s : State) (gas : Nat)
    (h1 : isValidEthereumAddress (.str (jsTrim (env.value "mintTo"))) = true)
    (h2 : isValidIntegerNum (env.toNumber (jsTrim (env.value "mintAmount"))) 1 100 = true)
    (hcontract : env.newContract = .ok ())
    (hg : env.estimateGas "safeMint"
      [.str (jsTrim (env.value "mintTo")), .str (jsTrim (env.value "mintAmount"))] = .ok gas) :
    Event.send "safeMint"
      [.str (jsTrim (env.value "mintTo")), .str (jsTrim (env.value "mintAmount"))]
      (gasLimit 120 gas) ∈ (ownerMintBody env s).log := by
  unfold ownerMintBody
  apply Run.mem_andThen_of_right (checkAndSwitchNetwork_res _ _)
  simp only [h1, h2, Bool.not_true, Bool.false_eq_true, if_false]
  apply Run.mem_andThen_of_right (by simp [newContract, hcontract])
  exact Run.mem_andThen_of_left (submitAndWait_sends _ _ _ _ _ _ gas hg)

theorem gasLimit_bounds (factor g : Nat) (hf : 100 ≤ factor) :
    gasLimit factor g = ⌊(g : ℚ) * factor / 100⌋₊ ∧ g ≤ gasLimit factor g ∧
    (gasLimit factor g : ℚ) ≤ (g : ℚ) * factor / 100 := by
  have h : (g : ℚ) * factor / 100 = ((g * factor : ℕ) : ℚ) / ((100 : ℕ) : ℚ) := by
    push_cast
    ring
  refine ⟨?_, ?_, ?_⟩
  · rw [h, Nat.floor_div_eq_div, gasLimit]
  · unfold gasLimit
    rw [Nat.le_div_iff_mul_le (by norm_num)]
    exact Nat.mul_le_mul_left g hf
  · rw [h]
    unfold gasLimit
    exact Nat.cast_div_le

/-! ### The input slots and the preview -/

theorem foldl_setAdd_spec (l acc : List String) (h : acc.Nodup) :
    (l.foldl setAdd acc).Nodup ∧ ∀ x, x ∈ l.foldl setAdd acc ↔ x ∈ acc ∨ x ∈ l := by
  induction l generalizing acc with
  | nil => exact ⟨h, fun x => by simp⟩
  | cons a rest ih =>
    simp only [List.foldl_cons]
    by_cases ha : a ∈ acc
    · have hs : setAdd acc a = acc := by simp [setAdd, ha]
      rw [hs]
      refine ⟨(ih acc h).1, fun x => ?_⟩
      rw [(ih acc h).2 x]
      constructor
      · rintro (hx | hx)
        · exact Or.inl hx
        · exact Or.inr (List.mem_cons_of_mem _ hx)
      · rintro (hx | hx)
        · exact Or.inl hx
        · rcases List.mem_cons.1 hx with rfl | hx
          · exact Or.inl ha
          · exact Or.inr hx
    · have hs : setAdd acc a = acc ++ [a] := by simp [setAdd, ha]
      rw [hs]
      have hnd : (acc ++ [a]).Nodup := by
        rw [List.nodup_append]
        refine ⟨h, List.nodup_singleton a, ?_⟩
        intro x hx hx'
        simp only [List.mem_singleton] at hx'
        subst hx'
        exact ha hx
      refine ⟨(ih _ hnd).1, fun x => ?_⟩
      rw [(ih _ hnd).2 x]
      simp only [List.mem_append, List.mem_singleton, List.mem_cons]
      tauto

theorem uniqueArray_length_eq_card (l : List String) :
    (uniqueArray l).length = l.toFinset.card := by
  have h := foldl_setAdd_spec l [] List.nodup_nil
  unfold uniqueArray
  rw [← List.toFinset_card_of_nodup h.1]
  congr 1
  ext x
  simp [h.2 x]

theorem previewPartition_eq (idx : Nat) (raw : List String) :
    previewPartition idx raw =
      (((raw.enumFrom idx).filter (fun p => !isValidEthereumAddress (.str p.2))).map
          (fun p => natToString (p.1 + 1) ++ "번: " ++ p.2),
        raw.filter (fun a => isValidEthereumAddress (.str a))) := by
  induction raw generalizing idx with
  | nil => rfl
  | cons a rest ih =>
    unfold previewPartition
    rw [ih (idx + 1)]
    cases h : isValidEthereumAddress (.str a) <;>
      simp [List.enumFrom, List.filter, h]

theorem previewUnique_le (valid : List String) :
    previewUnique valid ≤ (uniqueArray valid).length := by
  unfold previewUnique
  rw [uniqueArray_length_eq_card, uniqueArray_length_eq_card]
  have h : (valid.map lowerString).toFinset = valid.toFinset.image lowerString := by
    ext x
    simp
  rw [h]
  exact Finset.card_image_le

theorem clampInt_spec (v : String) (lo hi : Int) (h : lo ≤ hi) :
    (parseInt10 (jsTrim v) = none → clampInt v lo hi = none) ∧
    (∀ k, parseInt10 (jsTrim v) = some k →
      clampInt v lo hi = some (max lo (min hi k)) ∧ lo ≤ max lo (min hi k) ∧
      max lo (min hi k) ≤ hi ∧ (lo ≤ k → k ≤ hi → max lo (min hi k) = k)) := by
  constructor
  · intro hp
    simp [clampInt, hp]
  · intro k hp
    refine ⟨by simp [clampInt, hp], le_max_left _ _, max_le h (min_le_left _ _), fun h1 h2 => ?_⟩
    rw [min_eq_right h2, max_eq_right h1]

theorem getD_map_range (f : Nat → String) (n i : Nat) (h : i < n) :
    ((List.range n).map f).getD i "" = f i := by
  simp [List.getD, List.getElem?_map, List.getElem?_range h]

set_option maxRecDepth 1000000

/-! ## The claims -/

/-- C1, as stated, fails: it is not true that every gas limit `ownerMint`
sends is the ceiling of 1.2 times the estimate, nor that every gas limit
`startNewRound` sends is the ceiling of 1.3 times the estimate. With the
estimate 1 both send the limit 1, and the ceilings are 2. -/
theorem C1_counterexample :
    (¬ ∀ (env : Env) (s : State) (m : String) (args : List Arg) (limit : Nat),
        Event.send m args limit ∈ (ownerMint env s).log →
          ∃ g, env.estimateGas m args = .ok g ∧ limit = ⌈(g : ℚ) * 1.2⌉₊) ∧
    (¬ ∀ (env : Env) (s : State) (m : String) (args : List Arg) (limit : Nat),
        Event.send m args limit ∈ (startNewRound env s).log →
          ∃ g, env.estimateGas m args = .ok g ∧ limit = ⌈(g : ℚ) * 1.3⌉₊) := by
  constructor
  · intro h
    obtain ⟨g, hg, hl⟩ := h sampleEnv connectedState "safeMint"
      [.str addrLower, .str "5"] 1 (by decide)
    have hg1 : g = 1 := by
      have : (Except.ok 1 : Except JSVal Nat) = .ok g := hg
      injection this with h1
      exact h1.symm
    subst hg1
    have : ⌈((1 : ℕ) : ℚ) * 1.2⌉₊ = 2 := by
      rw [Nat.ceil_eq_iff (by norm_num)]
      norm_num
    omega
  · intro h
    obtain ⟨g, hg, hl⟩ := h sampleEnv connectedState "startNewRound" [] 1 (by decide)
    have hg1 : g = 1 := by
      have : (Except.ok 1 : Except JSVal Nat) = .ok g := hg
      injection this with h1
      exact h1.symm
    subst hg1
    have : ⌈((1 : ℕ) : ℚ) * 1.3⌉₊ = 2 := by
      rw [Nat.ceil_eq_iff (by norm_num)]
      norm_num
    omega

/-- C1, amended: every gas limit sent by an ordinary privileged operation
(`ownerMint`, `addWhitelistBatch`, `setSaleConfig` and the eighteen others) is
the floor of 1.2 times the gas estimate of the same call, and every gas limit
sent by `startNewRound` is the floor of 1.3 times the estimate. -/
theorem C1_gas_limit_is_floor (env : Env) (s : State) (m : String) (args : List Arg)
    (limit : Nat) :
    (∀ op ∈ ordinaryOperations, Event.send m args limit ∈ (op env s).log →
      ∃ g, env.estimateGas m args = .ok g ∧ limit = ⌊(g : ℚ) * 1.2⌋₊) ∧
    (Event.send m args limit ∈ (startNewRound env s).log →
      ∃ g, env.estimateGas m args = .ok g ∧ limit = ⌊(g : ℚ) * 1.3⌋₊) := by
  constructor
  · intro op hop h
    obtain ⟨g, hg, hl⟩ := sendOk_elim (ordinaryOperations_sendsOk env s op hop _ h)
    exact ⟨g, hg, by rw [hl, gasLimit_120_floor]⟩
  · intro h
    obtain ⟨g, hg, hl⟩ := sendOk_elim (startNewRound_sendsOk env s _ h)
    exact ⟨g, hg, by rw [hl, gasLimit_130_floor]⟩

/-- C1, amended, at a concrete input: in the sample outside `ownerMint` and
`startNewRound` do submit, with the limit 1 for the estimate 1. -/
theorem C1_gas_limit_is_floor_witness :
    (∃ g, sampleEnv.estimateGas "safeMint" [.str addrLower, .str "5"] = .ok g ∧
      1 = ⌊(g : ℚ) * 1.2⌋₊) ∧
    (∃ g, sampleEnv.estimateGas "startNewRound" [] = .ok g ∧ 1 = ⌊(g : ℚ) * 1.3⌋₊) :=
  ⟨(C1_gas_limit_is_floor sampleEnv connectedState "safeMint" [.str addrLower, .str "5"] 1).1
      ownerMint (by simp [ordinaryOperations]) (by decide),
   (C1_gas_limit_is_floor sampleEnv connectedState "startNewRound" [] 1).2 (by decide)⟩

/-- C2, the code at the failing input: for an address, its upper-case variant
and another address, `uniqueArray` keeps all three entries, no duplicate is
reported, and `addWhitelistBatch` submits all three, although the two first
entries differ only by letter case. -/
theorem C2_dedup_is_case_sensitive :
    toLowerCase addrUpper.data = toLowerCase addrLower.data ∧
    checkBatch [addrUpper, addrLower, addrOther] = .ready [addrUpper, addrLower, addrOther] ∧
    uniqueArray [addrUpper, addrLower, addrOther] = [addrUpper, addrLower, addrOther] ∧
    duplicateNotice [addrUpper, addrLower, addrOther] = [] ∧
    Event.send "addWhitelist" [.list [addrUpper, addrLower, addrOther]] 1 ∈
      (addWhitelistBatch sampleEnv connectedState).log ∧
    Event.send "removeWhitelist" [.list [addrUpper, addrLower, addrOther]] 1 ∈
      (removeWhitelistBatch sampleEnv connectedState).log := by
  refine ⟨by decide, by decide, by decide, by decide, by decide, by decide⟩

/-- C3, the code at the failing input: a batch of 101 valid entries that are
one and the same address. `uniqueArray` leaves one entry, but the batch
operations test `addresses.length > 100` on the validated list before they
call `uniqueArray`: `addWhitelistBatch` and `removeWhitelistBatch` report the
capacity error and neither estimate gas nor submit. For a non-empty list of
valid entries the check fails exactly when the list has more than 100 entries,
whatever number `uniqueArray` would leave. The two previews of the text areas
make the same test after `uniqueArray`: for the same entries they count one
valid address and 100 duplicates and give no capacity notice, which they give
only for more than 100 addresses left by `uniqueArray`. -/
theorem C3_capacity_checked_before_dedup :
    repeatedBatch.length = 101 ∧
    (∀ a ∈ repeatedBatch, isValidEthereumAddress (.str a) = true) ∧
    (uniqueArray repeatedBatch).length = 1 ∧
    checkBatch repeatedBatch = .tooMany ∧
    (addWhitelistBatch repeatedEnv connectedState).log =
      [.buttonBusy labelPending, .request "eth_chainId" "",
       .errorLog "화이트리스트 추가 실패:",
       .alert "오류: 한 번에 최대 100개까지만 추가할 수 있습니다.", .buttonRestore] ∧
    (removeWhitelistBatch repeatedEnv connectedState).log =
      [.buttonBusy labelPending, .request "eth_chainId" "",
       .errorLog "화이트리스트 제거 실패:",
       .alert "오류: 한 번에 최대 100개까지만 제거할 수 있습니다.", .buttonRestore] ∧
    (∀ raw : List String, raw ≠ [] → (∀ a ∈ raw, isValidEthereumAddress (.str a) = true) →
      (checkBatch raw = .tooMany ↔ 100 < raw.length) ∧
      (checkBatch raw = .ready raw ↔ raw.length ≤ 100)) ∧
    previewWhitelistText true (String.intercalate "\n" repeatedBatch) =
      "✅ 유효한 주소: 1개\n⚠️ 중복 주소: 100개 (제거됨)\n" ∧
    previewWhitelistText false (String.intercalate "\n" repeatedBatch) =
      "✅ 유효한 주소: 1개\n⚠️ 중복 주소: 100개 (제거됨)\n" ∧
    (∀ (isAdd : Bool) (uniqueCount : Nat),
      (uniqueCount ≤ 100 → previewCapacityNotice isAdd uniqueCount = "") ∧
      (100 < uniqueCount → previewCapacityNotice isAdd uniqueCount =
        "\n\n⚠️ 한 번에 최대 100개까지만 " ++ (if isAdd then "추가" else "제거") ++
          "할 수 있습니다. (현재: " ++ natToString uniqueCount ++ "개)")) := by
  refine ⟨by decide, by decide, by decide, by decide, by decide, by decide, ?_, by decide,
    by decide, ?_⟩
  · intro raw hne hvalid
    have key := checkBatch_of_valid raw hne hvalid
    rw [key]
    constructor
    · constructor
      · intro h
        by_contra hc
        rw [if_neg hc] at h
        cases h
      · intro h
        rw [if_pos h]
    · constructor
      · intro h
        by_contra hc
        rw [if_pos (by omega)] at h
        cases h
      · intro h
        rw [if_neg (by omega)]
  · intro isAdd uniqueCount
    constructor
    · intro h
      unfold previewCapacityNotice
      rw [if_neg (by omega)]
    · intro h
      unfold previewCapacityNotice
      rw [if_pos h]

/-- C4: a string is accepted by `isValidEthereumAddress` exactly when it is the
prefix `0x` followed by exactly 40 characters, each in `0-9`, `a-f` or `A-F`
(so its length is 42); the empty string and every value that is not a string
are rejected. -/
theorem C4_isValidEthereumAddress_iff :
    (∀ s : String, isValidEthereumAddress (.str s) = true ↔
      (∃ body : List Char, s.data = '0' :: 'x' :: body ∧ body.length = 40 ∧
        ∀ c ∈ body, ('0' ≤ c ∧ c ≤ '9') ∨ ('a' ≤ c ∧ c ≤ 'f') ∨ ('A' ≤ c ∧ c ≤ 'F'))) ∧
    (∀ s : String, isValidEthereumAddress (.str s) = true → s.length = 42) ∧
    isValidEthereumAddress (.str "") = false ∧
    (∀ v : JSVal, v.isString = false → isValidEthereumAddress v = false) := by
  have key : ∀ s : String, isValidEthereumAddress (.str s) = true ↔
      (∃ body : List Char, s.data = '0' :: 'x' :: body ∧ body.length = 40 ∧
        ∀ c ∈ body, ('0' ≤ c ∧ c ≤ '9') ∨ ('a' ≤ c ∧ c ≤ 'f') ∨ ('A' ≤ c ∧ c ≤ 'F')) := by
    intro s
    rw [isValidEthereumAddress_str, addressRegexTest_iff]
    constructor
    · rintro ⟨body, h1, h2, h3⟩
      exact ⟨body, h1, h2, fun c hc => (hexClass_iff c).1 (h3 c hc)⟩
    · rintro ⟨body, h1, h2, h3⟩
      exact ⟨body, h1, h2, fun c hc => (hexClass_iff c).2 (h3 c hc)⟩
  refine ⟨key, ?_, ?_, ?_⟩
  · intro s h
    obtain ⟨body, hs, hlen, -⟩ := (key s).1 h
    simp [String.length, hs, hlen]
  · simp [isValidEthereumAddress, JSVal.truthy]
  · intro v hv
    cases v <;> simp_all [isValidEthereumAddress, JSVal.isString]

/-- C4 at concrete inputs: a lower-case and an upper-case address are
accepted. -/
theorem C4_isValidEthereumAddress_witness :
    isValidEthereumAddress (.str addrLower) = true ∧
    isValidEthereumAddress (.str addrUpper) = true :=
  ⟨(C4_isValidEthereumAddress_iff.1 addrLower).2
      ⟨List.replicate 40 'a', by decide, by decide, by decide⟩,
   (C4_isValidEthereumAddress_iff.1 addrUpper).2
      ⟨List.replicate 40 'A', by decide, by decide, by decide⟩⟩

/-- C5: in every system reachable by interleaving privileged operations, at
most one call holds the guard, and `isProcessing` is set exactly when one call
holds it. A call that resumes from `await ensureConnected()` while the guard
is set ends with the busy alert before its `try` block: its turn leaves
`isProcessing` set, leaves every other call where it was, and the guard still
has its one holder; once ended, a call never writes `isProcessing` again. -/
theorem C5_single_flight (y : Sys) (hy : y.Reachable) :
    y.holders ≤ 1 ∧ (y.isProcessing = true ↔ y.holders = 1) ∧
    (∀ (i : Nat) (declines : Bool) (awaits : Nat),
      y.threads.get? i = some (.atEnsure true declines awaits) → y.isProcessing = true →
        (Thread.atEnsure true declines awaits).resume y.isProcessing =
          (true, .finished .busy) ∧
        (∀ j, j ≠ i → (y.threads.set i (.finished .busy)).get? j = y.threads.get? j) ∧
        (Sys.mk true (y.threads.set i (.finished .busy))).holders = 1) ∧
    (∀ (o : Outcome) (f : Bool), (Thread.finished o).resume f = (f, .finished o)) := by
  have hinv := Sys.Inv_of_reachable hy
  unfold Sys.Inv at hinv
  refine ⟨?_, ?_, ?_, ?_⟩
  · rw [hinv]
    split <;> omega
  · rw [hinv]
    cases y.isProcessing <;> simp
  · intro i declines awaits hi hp
    refine ⟨?_, ?_, ?_⟩
    · simp [Thread.resume, hp]
    · intro j hj
      simp [List.get?_eq_getElem?, List.getElem?_set, Ne.symm hj]
    · have key := holders_set y.threads i (.atEnsure true declines awaits)
        (.finished .busy) hi
      simp only [Thread.holds, Bool.false_eq_true, if_false, Nat.add_zero] at key
      unfold Sys.holders at hinv ⊢
      rw [hp] at hinv
      simp only [if_true] at hinv
      rw [key, hinv]
  · intro o f
    rfl

/-- C5 at a concrete system: one call has entered its `try` block and a
second one waits at `await ensureConnected()`. -/
theorem C5_single_flight_witness :
    (Sys.mk true [.inTry 3, .atEnsure true false 2]).holders ≤ 1 ∧
    (Thread.atEnsure true false 2).resume true = (true, .finished .busy) ∧
    (Sys.mk true [.inTry 3, .finished .busy]).holders = 1 :=
  have hy : (Sys.mk true [.inTry 3, .atEnsure true false 2]).Reachable :=
    Sys.Reachable.step _ _
      (Sys.Reachable.step _ _
        (Sys.Reachable.step _ _ Sys.Reachable.init (Sys.Step.invoke _ true false 3))
        (Sys.Step.resume _ 0 (.atEnsure true false 3) rfl))
      (Sys.Step.invoke _ true false 2)
  have h := C5_single_flight _ hy
  ⟨h.1, (h.2.2.1 1 false 2 rfl rfl).1, (h.2.2.1 1 false 2 rfl rfl).2.2⟩

/-- C6, as stated, fails: a privileged operation issued while another one is
pending does not always end with the busy alert. When the wallet has been
disconnected in the meantime, `ownerMint` alerts that the wallet must be
connected and throws `WALLET_NOT_CONNECTED`: the connectivity check comes
before the guard check. -/
theorem C6_counterexample :
    (¬ ∀ (env : Env) (s : State), s.isProcessing = true →
        (ownerMint env s).log = [.alert msgBusy]) ∧
    (ownerMint sampleEnv busyDisconnectedState).log = [.alert msgConnectFirst] ∧
    (ownerMint sampleEnv busyDisconnectedState).st = busyDisconnectedState := by
  refine ⟨?_, by decide, by decide⟩
  intro h
  have := h sampleEnv busyDisconnectedState rfl
  revert this
  decide

/-- C6, amended: while `isProcessing` is set, every privileged operation leaves
the whole state unchanged and makes no provider or contract call. If the
connectivity check passes, it shows the busy alert and returns; if it does
not, it shows the connect-first alert and throws `WALLET_NOT_CONNECTED`. -/
theorem C6_busy_after_connectivity_check (env : Env) (s : State)
    (h : s.isProcessing = true) :
    (connected env s = true → ∀ op ∈ privilegedOperations,
      op env s = ⟨s, [.alert msgBusy], .ok ()⟩ ∨
      op env s = ⟨s, [.alert msgBusyShort], .ok ()⟩) ∧
    (connected env s = false → ∀ op ∈ privilegedOperations,
      op env s = ⟨s, [.alert msgConnectFirst], .error (mkError "WALLET_NOT_CONNECTED")⟩) := by
  constructor
  · intro hc op hop
    obtain ⟨bt, cf, lb, body, handler, hbt, heq⟩ := privilegedOperations_framed op hop
    rw [heq, privileged_eq]
    rcases hbt with rfl | rfl
    · left; simp [hc, h]
    · right; simp [hc, h]
  · intro hc op hop
    obtain ⟨bt, cf, lb, body, handler, hbt, heq⟩ := privilegedOperations_framed op hop
    rw [heq, privileged_eq]
    simp [hc]

/-- C6, amended, at concrete inputs: a connected state with the guard set, and
the disconnected one. -/
theorem C6_busy_after_connectivity_check_witness :
    (withdrawFunds sampleEnv { connectedState with isProcessing := true } =
        ⟨{ connectedState with isProcessing := true }, [.alert msgBusy], .ok ()⟩ ∨
      withdrawFunds sampleEnv { connectedState with isProcessing := true } =
        ⟨{ connectedState with isProcessing := true }, [.alert msgBusyShort], .ok ()⟩) ∧
    startNewRound sampleEnv busyDisconnectedState =
      ⟨busyDisconnectedState, [.alert msgConnectFirst],
        .error (mkError "WALLET_NOT_CONNECTED")⟩ :=
  ⟨(C6_busy_after_connectivity_check sampleEnv { connectedState with isProcessing := true }
      rfl).1 rfl withdrawFunds (by simp [privilegedOperations, ordinaryOperations]),
   (C6_busy_after_connectivity_check sampleEnv busyDisconnectedState rfl).2 rfl
      startNewRound (by simp [privilegedOperations])⟩

/-- C7: whenever a privileged operation has set the guard (it has disabled its
button, which it does in the same statements), `isProcessing` is false when
the operation finishes, whatever the outside answers: on a validation failure,
a declined confirmation, a failed gas estimation, a failed submission, a
failed wait, a throw of the error handler, or success. -/
theorem C7_guard_released (env : Env) (s : State) (op : Env → State → Run)
    (hop : op ∈ privilegedOperations)
    (hset : ∃ label, Event.buttonBusy label ∈ (op env s).log) :
    (op env s).st.isProcessing = false := by
  obtain ⟨bt, cf, lb, body, handler, -, heq⟩ := privilegedOperations_framed op hop
  obtain ⟨label, hlabel⟩ := hset
  rw [heq] at hlabel ⊢
  rw [privileged_eq] at hlabel ⊢
  split at hlabel
  · split at hlabel
    · simp at hlabel
    · split at hlabel
      · cases cf <;> simp [askedEvents] at hlabel
      · rename_i h1 h2 h3
        simp [h1, h2, h3]
  · simp at hlabel

/-- C7 at concrete inputs, one for each way out: an invalid batch entry, a
declined confirmation of `startNewRound`, a failed gas estimation, a failed
submission, a failed wait, and success. -/
theorem C7_guard_released_witness :
    (addWhitelistBatch { sampleEnv with slots := fun _ => some ["0x12"] }
      connectedState).st.isProcessing = false ∧
    (startNewRound { sampleEnv with confirm := fun _ => false }
      connectedState).st.isProcessing = false ∧
    (ownerMint { sampleEnv with estimateGas := fun _ _ => .error (mkError "execution reverted") }
      connectedState).st.isProcessing = false ∧
    (ownerMint { sampleEnv with send := fun _ _ _ => .error (.obj [("code", some (.num 4001))] none) }
      connectedState).st.isProcessing = false ∧
    (startNewRound { sampleEnv with wait := fun _ => .error (mkError "timeout") }
      connectedState).st.isProcessing = false ∧
    (withdrawFunds sampleEnv connectedState).st.isProcessing = false :=
  ⟨C7_guard_released _ connectedState addWhitelistBatch
      (by simp [privilegedOperations, ordinaryOperations]) ⟨labelPending, by decide⟩,
   C7_guard_released _ connectedState startNewRound (by simp [privilegedOperations])
      ⟨labelPending, by decide⟩,
   C7_guard_released _ connectedState ownerMint
      (by simp [privilegedOperations, ordinaryOperations]) ⟨labelPending, by decide⟩,
   C7_guard_released _ connectedState ownerMint
      (by simp [privilegedOperations, ordinaryOperations]) ⟨labelPending, by decide⟩,
   C7_guard_released _ connectedState startNewRound (by simp [privilegedOperations])
      ⟨labelPending, by decide⟩,
   C7_guard_released _ connectedState withdrawFunds
      (by simp [privilegedOperations, ordinaryOperations]) ⟨labelPending, by decide⟩⟩

/-- C8: a call of `friendlyError` completes normally with a string for every
raw failure, among them `null`, `undefined`, primitives, and objects whose
property read or string conversion throws; for those the `catch` clause returns
the fixed message. -/
theorem C8_friendlyError_total :
    (∀ e : JSVal, friendlyErrorCall e = .ok (friendlyError e)) ∧
    friendlyError throwingCodeError = msgUnknown ∧
    friendlyError unprintableError = msgUnknown ∧
    friendlyError numericMessageError = msgUnknown := by
  refine ⟨?_, by decide, by decide, by decide⟩
  intro e
  unfold friendlyErrorCall friendlyError
  cases friendlyErrorTry e <;> rfl

/-- C9, as stated, fails: for `null`, `undefined`, the empty object and the
empty string `friendlyError` does not return the fixed unknown-error message. -/
theorem C9_counterexample :
    friendlyError .null ≠ msgUnknown ∧
    friendlyError .undefined ≠ msgUnknown ∧
    friendlyError emptyObject ≠ msgUnknown ∧
    friendlyError (.str "") ≠ msgUnknown := by
  refine ⟨by decide, by decide, by decide, by decide⟩

/-- C9, amended: for `null`, `undefined`, the empty object and the empty string
`friendlyError` returns the fallback, the prefix followed by the stringified
value; the fixed unknown-error message is what it returns whenever inspecting
the raw failure throws, as for an object whose `code` getter throws. -/
theorem C9_fallback_for_empty_errors :
    friendlyError .null = msgFallbackPrefix ++ "null" ∧
    friendlyError .undefined = msgFallbackPrefix ++ "undefined" ∧
    friendlyError emptyObject = msgFallbackPrefix ++ "[object Object]" ∧
    friendlyError (.str "") = msgFallbackPrefix ++ "" ∧
    (∀ (e x : JSVal), friendlyErrorTry e = .error x → friendlyError e = msgUnknown) ∧
    friendlyError throwingCodeError = msgUnknown := by
  refine ⟨by decide, by decide, by decide, by decide, ?_, by decide⟩
  intro e x h
  simp [friendlyError, h]

/-- C10, as stated, fails: `friendlyError` is not the plain first-match rule list
with the stringified raw message as the only fallback. For a raw failure whose
`message` is the number 5 no class matches and the stringified raw message is
`5`, but testing the first class throws and the result is the fixed
unknown-error message. -/
theorem C10_counterexample :
    (¬ ∀ e : JSVal, some (friendlyError e) = firstMatchTotal classRules e) ∧
    firstMatchTotal classRules numericMessageError = some (msgFallbackPrefix ++ "5") ∧
    friendlyError numericMessageError = msgUnknown := by
  refine ⟨?_, by decide, by decide⟩
  intro h
  have := h numericMessageError
  revert this
  decide

/-- C10, amended: `friendlyError` is the ordered first-match rule list (user
rejection, timeout, contract not found, revert with reason string then
registry then generic, insufficient funds, nonce too low, underpriced
replacement, gas estimation, malformed address, malformed number, network
mismatch, and otherwise the stringified raw message) with one more clause: the
fixed unknown-error message when inspecting the raw failure throws. When
nothing throws the result is that of the plain rule list. A user rejection wins
over everything in the message, and a message matching a timeout pattern is
classified as a timeout even if it also matches a revert pattern. -/
theorem C10_first_match_wins :
    (∀ e : JSVal, friendlyError e = classifyByRules e) ∧
    (∀ (e : JSVal) (t : String), firstMatch classRules e = .ok t →
      friendlyError e = t ∧ firstMatchTotal classRules e = some t) ∧
    (∀ e : JSVal, isUserRejection e = .ok true → friendlyError e = msgUserRejected) ∧
    (∀ (e msg : JSVal) (t : String), isUserRejection e = .ok false →
      rawMessage e = .ok msg → toStringJS msg = .ok t →
      testAnyCI timeoutPatterns t.data = true → friendlyError e = msgTimeout) ∧
    friendlyError (.obj [("code", some (.num 4001)),
      ("message", some (.str "execution reverted: MintPaused"))] none) = msgUserRejected ∧
    friendlyError (mkError "timeout: execution reverted") = msgTimeout := by
  refine ⟨friendlyError_eq_classifyByRules, ?_, ?_, ?_, by decide, by decide⟩
  · intro e t h
    refine ⟨?_, firstMatchTotal_of_firstMatch _ _ _ h⟩
    rw [friendlyError_eq_classifyByRules]
    simp [classifyByRules, h]
  · intro e h
    simp [friendlyError, friendlyErrorTry, h]
  · intro e msg t h1 h2 h3 h4
    simp [friendlyError, friendlyErrorTry, classifyMessage, h1, h2, h3, h4]

/-- C11: for each of the 28 custom errors of the registry, a raw failure whose
message is `execution reverted: ` followed by the name is explained by the text
listed for that name, so no name tested earlier shadows it; the 28 names are
pairwise distinct, the 28 explanations are pairwise distinct, and none of them
is the generic call-failed message. -/
theorem C11_registry_explanations :
    (∀ p ∈ customErrors, friendlyError (mkError ("execution reverted: " ++ p.1)) = p.2) ∧
    (∀ p ∈ customErrors,
      friendlyError (.obj [("message", some (.str ("execution reverted: " ++ p.1)))]
        (some "[object Object]")) = p.2) ∧
    (customErrors.map Prod.snd).Nodup ∧ (customErrors.map Prod.fst).Nodup ∧
    (∀ p ∈ customErrors, p.2 ≠ msgCallFailed) ∧
    customErrors.length = 28 ∧
    friendlyError (mkError "execution reverted: SomethingElse") = msgCallFailed := by
  refine ⟨by decide, by decide, by decide, by decide, by decide, by decide, by decide⟩

/-- C12, the code at the failing input: `startNewRound` with a wait that throws
after the submission. Its `tx.wait()` has no `try` of its own, unlike the one of
the 21 other operations: the failure reaches the `catch` clause of the
operation, which logs it as an error and hands it to `handleError`, whose
outcome is the outcome of the operation; no warning with the hash is shown. In
each of the 21 other operations a wait that throws is answered at once by the
warning, which contains the hash, and changes nothing else: the operation
completes normally and ends in the same state, and after the warning it does
what it does after the message of a wait that succeeded (the refresh of the
page, which logs the failures of its own reads). -/
theorem C12_startNewRound_wait_failure_is_an_error (env : Env) (s : State) :
    (∀ (hash : String) (rest : List Event) (e : JSVal),
      afterWait (startNewRound env s).log = some (hash, rest) → env.wait hash = .error e →
      rest = [.errorLog "startNewRound 에러:", .buttonRestore] ∧
      (startNewRound env s).res =
        (env.handleError e "새 라운드 시작" { s with isProcessing := true }).2) ∧
    (∀ op ∈ ordinaryOperations, ∀ (hash : String) (rest : List Event) (e : JSVal),
      afterWait (op env s).log = some (hash, rest) → env.wait hash = .error e →
      rest.head? = some (.alert (msgWaitWarning (getExplorerUrl s.Network) hash)) ∧
      includes (msgWaitWarning (getExplorerUrl s.Network) hash).data hash.data = true ∧
      (op env s).res = .ok () ∧
      (op env s).st = (op (withWait env fun _ => .ok 1) s).st ∧
      ∃ done, afterWait (op (withWait env fun _ => .ok 1) s).log =
        some (hash, .alert done :: rest.tail)) ∧
    (startNewRound waitFailsEnv connectedState).log =
      [.buttonBusy labelPending, .request "eth_chainId" "", .read "currentEpoch",
       .confirm (startNewRoundQuestion 0), .estimateGas "startNewRound" [],
       .send "startNewRound" [] 1, .alert (startNewRoundSent "0xh"), .wait "0xh",
       .errorLog "startNewRound 에러:", .buttonRestore] ∧
    (ownerMint waitFailsEnv connectedState).log =
      [.buttonBusy labelPending, .request "eth_chainId" "",
       .estimateGas "safeMint" [.str addrLower, .str "5"],
       .send "safeMint" [.str addrLower, .str "5"] 1,
       .alert "⏳ 트랜잭션 전송됨\n\n트랜잭션 해시: 0xh\n\nhttps://etherscan.io/tx/0xh",
       .wait "0xh", .alert (msgWaitWarning "https://etherscan.io" "0xh"),
       .setElement "walletAddress" "0xaaaa...aaaa", .refresh "updateWalletInfo",
       .refresh "loadContractState", .setElement "mintTo" "", .setElement "mintAmount" "",
       .buttonRestore] ∧
    (ownerMint { waitFailsEnv with walletBalance := .error (mkError "rpc") }
      connectedState).log =
      [.buttonBusy labelPending, .request "eth_chainId" "",
       .estimateGas "safeMint" [.str addrLower, .str "5"],
       .send "safeMint" [.str addrLower, .str "5"] 1,
       .alert "⏳ 트랜잭션 전송됨\n\n트랜잭션 해시: 0xh\n\nhttps://etherscan.io/tx/0xh",
       .wait "0xh", .alert (msgWaitWarning "https://etherscan.io" "0xh"),
       .setElement "walletAddress" "0xaaaa...aaaa", .refresh "updateWalletInfo",
       .errorLog "네이티브 잔고 조회 실패:",
       .refresh "loadContractState", .setElement "mintTo" "", .setElement "mintAmount" "",
       .buttonRestore] := by
  refine ⟨fun hash rest e hw he => startNewRound_wait_failure hw he, ?_, by decide, by decide,
    by decide⟩
  intro op hop hash rest e hw he
  obtain ⟨h1, h2, -, h4⟩ := Run.onlyWarns_elim
    (ordinaryOperations_onlyWarns env (fun _ => .ok 1) (fun _ => ⟨1, rfl⟩) s op hop) hw he
  exact ⟨h1, msgWaitWarning_includes _ _, ordinaryOperations_res_of_wait env s hash rest op hop hw,
    h2, h4⟩

/-- C13: `setSaleConfig` estimates gas or submits only when the contract's
reads succeeded and `totalMinted <= endTokenId <= maxSupply`; with an end id
above `maxSupply` or below `totalMinted` it makes no gas estimation and no
submission, and (the form being otherwise valid) reports the error that names
the bound and the two values; with an end id in the range, the bounds
included, it goes on to the gas estimation. With 10 minted, the end id 5 is
rejected with that error and the end id 10 is estimated and submitted. -/
theorem C13_setSaleConfig_range (env : Env) (s : State) :
    (∀ ev ∈ (setSaleConfig env s).log, ev.isEstimateOrSend = true →
      ∃ (maxSupply totalMinted : Nat) (endBN : Int),
        env.readNat "maxSupply" = .ok maxSupply ∧ env.readNat "totalMinted" = .ok totalMinted ∧
        env.bigNumberFrom (jsTrim (env.value "saleEndTokenId")) = .ok endBN ∧
        (totalMinted : Int) ≤ endBN ∧ endBN ≤ (maxSupply : Int)) ∧
    (∀ (maxSupply totalMinted : Nat) (endBN : Int),
      env.readNat "maxSupply" = .ok maxSupply → env.readNat "totalMinted" = .ok totalMinted →
      env.bigNumberFrom (jsTrim (env.value "saleEndTokenId")) = .ok endBN →
      (endBN < (totalMinted : Int) ∨ (maxSupply : Int) < endBN) →
      (∀ ev ∈ (setSaleConfig env s).log, ev.isEstimateOrSend = false) ∧
      (connected env s = true → s.isProcessing = false →
        isValidAmountNum (env.toNumber (jsTrim (env.value "saleWhitelistCost"))) 0
          maxSafeInteger = true →
        isValidAmountNum (env.toNumber (jsTrim (env.value "salePublicCost"))) 0
          maxSafeInteger = true →
        isValidIntegerNum (env.toNumber (jsTrim (env.value "saleEndTokenId"))) 1
          maxSafeInteger = true →
        env.newContract = .ok () →
        Event.alert (friendlyError (mkError
          (if (maxSupply : Int) < endBN then msgEndAboveMaxSupply endBN maxSupply
           else msgEndBelowMinted endBN totalMinted))) ∈ (setSaleConfig env s).log)) ∧
    (∀ (maxSupply totalMinted : Nat) (endBN : Int) (whitelistCostWei publicCostWei : String),
      connected env s = true → s.isProcessing = false →
      isValidAmountNum (env.toNumber (jsTrim (env.value "saleWhitelistCost"))) 0
        maxSafeInteger = true →
      isValidAmountNum (env.toNumber (jsTrim (env.value "salePublicCost"))) 0
        maxSafeInteger = true →
      isValidIntegerNum (env.toNumber (jsTrim (env.value "saleEndTokenId"))) 1
        maxSafeInteger = true →
      env.newContract = .ok () →
      env.readNat "maxSupply" = .ok maxSupply → env.readNat "totalMinted" = .ok totalMinted →
      env.bigNumberFrom (jsTrim (env.value "saleEndTokenId")) = .ok endBN →
      (totalMinted : Int) ≤ endBN → endBN ≤ (maxSupply : Int) →
      env.etherToWei (jsTrim (env.value "saleWhitelistCost")) = .ok whitelistCostWei →
      env.etherToWei (jsTrim (env.value "salePublicCost")) = .ok publicCostWei →
      Event.estimateGas "setSaleConfig"
        [.str whitelistCostWei, .str publicCostWei, .str (jsTrim (env.value "saleEndTokenId")),
         .bool (env.checked "saleWhitelistStart"), .bool (env.checked "salePublicStart")] ∈
        (setSaleConfig env s).log) ∧
    (setSaleConfig (saleEnv "5" 5) connectedState).log =
      [.buttonBusy labelPendingShort, .request "eth_chainId" "", .read "maxSupply",
       .read "totalMinted", .errorLog "판매 설정 실패:",
       .alert ("오류: 판매 종료 ID가 현재 민팅된 개수보다 작습니다.\n\n" ++
         "- 입력값: 5\n- 현재 민팅됨(totalMinted): 10"),
       .buttonRestore] ∧
    Event.estimateGas "setSaleConfig"
      [.str "1000000000000000000", .str "1000000000000000000", .str "10", .bool true,
       .bool true] ∈ (setSaleConfig (saleEnv "10" 10) connectedState).log ∧
    Event.send "setSaleConfig"
      [.str "1000000000000000000", .str "1000000000000000000", .str "10", .bool true,
       .bool true] 1 ∈ (setSaleConfig (saleEnv "10" 10) connectedState).log := by
  have key : (setSaleConfig env s).submitsOnlyIf _ :=
    privileged_submitsOnlyIf (setSaleConfigBody_submitsOnlyIf env)
      (reportError_submitsOnlyIf _ _) s
  refine ⟨key, ?_, ?_, by decide, by decide, by decide⟩
  swap
  · intro maxSupply totalMinted endBN w p hconn hidle h1 h2 h3 hcontract hmax hmin hbn hlow
      hhigh hw hq
    exact privileged_mem_of_body hconn hidle
      (setSaleConfigBody_accepts env _ maxSupply totalMinted endBN w p h1 h2 h3 hcontract hmax
        hmin hbn hlow hhigh hw hq)
  intro maxSupply totalMinted endBN hmax hmin hbn hout
  constructor
  · intro ev hev
    cases hc : ev.isEstimateOrSend
    · rfl
    · exfalso
      obtain ⟨a, b, c, ha, hb, hcn, h1, h2⟩ := key ev hev hc
      rw [hmax] at ha
      rw [hmin] at hb
      rw [hbn] at hcn
      injection ha with ha
      injection hb with hb
      injection hcn with hcn
      subst ha hb hcn
      omega
  · intro hconn hidle h1 h2 h3 hcontract
    have hr := setSaleConfigBody_range_error env { s with isProcessing := true } maxSupply
      totalMinted endBN h1 h2 h3 hcontract hmax hmin hbn
    unfold setSaleConfig
    split
    · rename_i habove
      rw [privileged_of_throw hconn hidle (by rw [hr.1 habove])]
      simp
    · rename_i hle
      have hbelow : endBN < (totalMinted : Int) := by omega
      rw [privileged_of_throw hconn hidle (by rw [hr.2 (by omega) hbelow])]
      simp

/-- C14: `addWhitelistBatch` and `removeWhitelistBatch` call the contract (gas
estimation, submission, wait) only when the collected list is not empty and
every collected entry is a valid address, and what they estimate and submit is
the whole deduplicated list. With an empty list they report the empty-list
error, and with an invalid entry they make no contract call, so the valid
entries are not sent on their own. -/
theorem C14_batch_all_or_nothing (env : Env) (s : State) (op : Env → State → Run)
    (mode method : String)
    (hop : (op = addWhitelistBatch ∧ mode = "add" ∧ method = "addWhitelist") ∨
      (op = removeWhitelistBatch ∧ mode = "remove" ∧ method = "removeWhitelist")) :
    (∀ ev ∈ (op env s).log, ev.isContractCall = true →
      collectWhitelistAddresses env mode ≠ [] ∧
      (∀ a ∈ collectWhitelistAddresses env mode, isValidEthereumAddress (.str a) = true) ∧
      (ev = .estimateGas method [.list (uniqueArray (collectWhitelistAddresses env mode))] ∨
        (∃ l, ev = .send method [.list (uniqueArray (collectWhitelistAddresses env mode))] l) ∨
        ∃ hash, ev = .wait hash)) ∧
    (collectWhitelistAddresses env mode = [] → connected env s = true →
      s.isProcessing = false →
      Event.alert (msgFallbackPrefix ++ "주소 목록이 비어있습니다.") ∈ (op env s).log) ∧
    ((collectWhitelistAddresses env mode = [] ∨
        ∃ a ∈ collectWhitelistAddresses env mode, isValidEthereumAddress (.str a) = false) →
      ∀ ev ∈ (op env s).log, ev.isContractCall = false) := by
  have key : ∀ ev ∈ (op env s).log, ev.isContractCall = true →
      collectWhitelistAddresses env mode ≠ [] ∧
      (∀ a ∈ collectWhitelistAddresses env mode, isValidEthereumAddress (.str a) = true) ∧
      (ev = .estimateGas method [.list (uniqueArray (collectWhitelistAddresses env mode))] ∨
        (∃ l, ev = .send method [.list (uniqueArray (collectWhitelistAddresses env mode))] l) ∨
        ∃ hash, ev = .wait hash) := by
    intro ev hev hc
    rcases hop with ⟨rfl, rfl, rfl⟩ | ⟨rfl, rfl, rfl⟩
    · exact whitelistBatch_calls true hev hc
    · exact whitelistBatch_calls false hev hc
  refine ⟨key, ?_, ?_⟩
  · intro hempty hc hp
    rcases hop with ⟨rfl, rfl, rfl⟩ | ⟨rfl, rfl, rfl⟩
    · exact whitelistBatch_empty true hc hp hempty
    · exact whitelistBatch_empty false hc hp hempty
  · intro hbad ev hev
    cases hcall : ev.isContractCall
    · rfl
    · exfalso
      obtain ⟨hne, hvalid, -⟩ := key ev hev hcall
      rcases hbad with h0 | ⟨a, ha, hinv⟩
      · exact hne h0
      · rw [hvalid a ha] at hinv
        cases hinv

/-- C14 at concrete inputs: in the sample outside `addWhitelistBatch` submits the
three collected addresses, and with no slot filled `removeWhitelistBatch`
reports the empty list. -/
theorem C14_batch_all_or_nothing_witness :
    (collectWhitelistAddresses sampleEnv "add" ≠ [] ∧
      (∀ a ∈ collectWhitelistAddresses sampleEnv "add",
        isValidEthereumAddress (.str a) = true) ∧
      (Event.send "addWhitelist" [.list [addrUpper, addrLower, addrOther]] 1 =
          .estimateGas "addWhitelist"
            [.list (uniqueArray (collectWhitelistAddresses sampleEnv "add"))] ∨
        (∃ l, Event.send "addWhitelist" [.list [addrUpper, addrLower, addrOther]] 1 =
          .send "addWhitelist"
            [.list (uniqueArray (collectWhitelistAddresses sampleEnv "add"))] l) ∨
        ∃ hash, Event.send "addWhitelist" [.list [addrUpper, addrLower, addrOther]] 1 =
          .wait hash)) ∧
    Event.alert (msgFallbackPrefix ++ "주소 목록이 비어있습니다.") ∈
      (removeWhitelistBatch { sampleEnv with slots := fun _ => some ["", "  "] }
        connectedState).log :=
  ⟨(C14_batch_all_or_nothing sampleEnv connectedState addWhitelistBatch "add" "addWhitelist"
      (Or.inl ⟨rfl, rfl, rfl⟩)).1 _ (by decide) rfl,
   (C14_batch_all_or_nothing { sampleEnv with slots := fun _ => some ["", "  "] }
      connectedState removeWhitelistBatch "remove" "removeWhitelist"
      (Or.inr ⟨rfl, rfl, rfl⟩)).2.1 (by decide) (by decide) rfl⟩

/-- C15: for every list of raw entries, the validation loop of the batch
operations returns the valid entries in their original order and one error
line per invalid entry, in order; the line of an invalid entry carries its
position in the raw list, counted from 1, and the raw value. When some entry
is invalid these lines are what the operation reports. The raw list is what
`collectWhitelistAddresses` returns: the trimmed values of the slots that are
not blank. -/
theorem C15_validation_positions (raw : List String) :
    (validateAddresses 0 raw).1 = raw.filter (fun a => isValidEthereumAddress (.str a)) ∧
    (validateAddresses 0 raw).2 =
      ((raw.enum.filter (fun p => !isValidEthereumAddress (.str p.2))).map
        (fun p => natToString (p.1 + 1) ++ "번: 잘못된 주소 형식 (" ++ p.2 ++ ")")) ∧
    (validateAddresses 0 raw).2.length =
      (raw.filter (fun a => !isValidEthereumAddress (.str a))).length ∧
    ((∃ a ∈ raw, isValidEthereumAddress (.str a) = false) →
      checkBatch raw = .formatErrors (validateAddresses 0 raw).2) ∧
    validateAddresses 0 ["bad", addrLower, "0x12", addrOther] =
      ([addrLower, addrOther], ["1번: 잘못된 주소 형식 (bad)", "3번: 잘못된 주소 형식 (0x12)"]) ∧
    collectWhitelistAddresses { sampleEnv with slots := fun _ => some [addrLower, "  ", " bad "] }
      "add" = [addrLower, "bad"] := by
  refine ⟨?_, ?_, validateAddresses_errors_length raw, checkBatch_of_invalid raw, by decide,
    by decide⟩
  · rw [validateAddresses_eq]
  · rw [validateAddresses_eq]
    rfl

/-- C16, as stated, fails: a mint form with an invalid recipient and an
out-of-range amount is not reported with both violations. `ownerMint` reports
the address error alone, and `setSaleConfig`, given a sale form with three
invalid fields, reports the whitelist price alone. -/
theorem C16_counterexample :
    (¬ ∀ (env : Env) (s : State), connected env s = true → s.isProcessing = false →
        isValidEthereumAddress (.str (jsTrim (env.value "mintTo"))) = false →
        isValidIntegerNum (env.toNumber (jsTrim (env.value "mintAmount"))) 1 100 = false →
        reportNames (ownerMint env s).log "올바른 주소 형식이 아닙니다." = true ∧
        reportNames (ownerMint env s).log "민팅 수량은 1~100 사이의 정수여야 합니다." = true) ∧
    (ownerMint badMintEnv connectedState).log =
      [.buttonBusy labelPending, .request "eth_chainId" "", .errorLog "Owner 민팅 실패:",
       .alert "오류: 올바른 주소 형식이 아닙니다.", .buttonRestore] ∧
    (setSaleConfig badSaleEnv connectedState).log =
      [.buttonBusy labelPendingShort, .request "eth_chainId" "", .errorLog "판매 설정 실패:",
       .alert "오류: 화이트리스트 가격 형식이 올바르지 않습니다.", .buttonRestore] := by
  refine ⟨?_, by decide, by decide⟩
  intro h
  have := (h badMintEnv connectedState (by decide) (by decide) (by decide) (by decide)).2
  revert this
  decide

/-- C16, amended: the validation of `ownerMint`, `setSaleConfig` and
`setRoyalty` stops at the first violated constraint, in the order of the
source, and the report names that constraint alone, whatever the other fields
hold: an invalid recipient of `ownerMint` or receiver of `setRoyalty` gives the
address error only; in `setSaleConfig` an invalid whitelist price gives the
whitelist-price error only, and a valid whitelist price with an invalid public
price gives the public-price error only. -/
theorem C16_first_violation_only (env : Env) (s : State) (hc : connected env s = true)
    (hp : s.isProcessing = false) :
    (isValidEthereumAddress (.str (jsTrim (env.value "mintTo"))) = false →
      (ownerMint env s).log =
        .buttonBusy labelPending :: ((checkAndSwitchNetwork env { s with isProcessing := true }).log ++
          [.errorLog "Owner 민팅 실패:", .alert (msgFallbackPrefix ++ "올바른 주소 형식이 아닙니다."),
           .buttonRestore])) ∧
    (isValidEthereumAddress (.str (jsTrim (env.value "royaltyReceiver"))) = false →
      (setRoyalty env s).log =
        .buttonBusy labelPending :: ((checkAndSwitchNetwork env { s with isProcessing := true }).log ++
          [.errorLog "로열티 설정 실패:", .alert (msgFallbackPrefix ++ "올바른 주소 형식이 아닙니다."),
           .buttonRestore])) ∧
    (isValidAmountNum (env.toNumber (jsTrim (env.value "saleWhitelistCost"))) 0
        maxSafeInteger = false →
      (setSaleConfig env s).log =
        .buttonBusy labelPendingShort ::
          ((checkAndSwitchNetwork env { s with isProcessing := true }).log ++
          [.errorLog "판매 설정 실패:",
           .alert (msgFallbackPrefix ++ "화이트리스트 가격 형식이 올바르지 않습니다."),
           .buttonRestore])) ∧
    (isValidAmountNum (env.toNumber (jsTrim (env.value "saleWhitelistCost"))) 0
        maxSafeInteger = true →
      isValidAmountNum (env.toNumber (jsTrim (env.value "salePublicCost"))) 0
        maxSafeInteger = false →
      (setSaleConfig env s).log =
        .buttonBusy labelPendingShort ::
          ((checkAndSwitchNetwork env { s with isProcessing := true }).log ++
          [.errorLog "판매 설정 실패:",
           .alert (msgFallbackPrefix ++ "퍼블릭 가격 형식이 올바르지 않습니다."),
           .buttonRestore])) := by
  have e1 : friendlyError (mkError "올바른 주소 형식이 아닙니다.") =
      msgFallbackPrefix ++ "올바른 주소 형식이 아닙니다." := by decide
  have e2 : friendlyError (mkError "화이트리스트 가격 형식이 올바르지 않습니다.") =
      msgFallbackPrefix ++ "화이트리스트 가격 형식이 올바르지 않습니다." := by decide
  have e3 : friendlyError (mkError "퍼블릭 가격 형식이 올바르지 않습니다.") =
      msgFallbackPrefix ++ "퍼블릭 가격 형식이 올바르지 않습니다." := by decide
  refine ⟨?_, ?_, ?_, ?_⟩
  · intro h
    unfold ownerMint
    rw [privileged_of_throw hc hp (by rw [ownerMintBody_invalid_address env _ h]),
      ownerMintBody_invalid_address env _ h, e1]
  · intro h
    unfold setRoyalty
    rw [privileged_of_throw hc hp (by rw [setRoyaltyBody_invalid_address env _ h]),
      setRoyaltyBody_invalid_address env _ h, e1]
  · intro h
    unfold setSaleConfig
    rw [privileged_of_throw hc hp (by rw [(setSaleConfigBody_invalid_price env _).1 h]),
      (setSaleConfigBody_invalid_price env _).1 h, e2]
  · intro h1 h2
    unfold setSaleConfig
    rw [privileged_of_throw hc hp (by rw [(setSaleConfigBody_invalid_price env _).2 h1 h2]),
      (setSaleConfigBody_invalid_price env _).2 h1 h2, e3]

/-- C16, amended, at concrete inputs: the two invalid forms. -/
theorem C16_first_violation_only_witness :
    (ownerMint badMintEnv connectedState).log =
      .buttonBusy labelPending ::
        ((checkAndSwitchNetwork badMintEnv { connectedState with isProcessing := true }).log ++
        [.errorLog "Owner 민팅 실패:", .alert (msgFallbackPrefix ++ "올바른 주소 형식이 아닙니다."),
         .buttonRestore]) ∧
    (setSaleConfig badSaleEnv connectedState).log =
      .buttonBusy labelPendingShort ::
        ((checkAndSwitchNetwork badSaleEnv { connectedState with isProcessing := true }).log ++
        [.errorLog "판매 설정 실패:",
         .alert (msgFallbackPrefix ++ "화이트리스트 가격 형식이 올바르지 않습니다."),
         .buttonRestore]) :=
  ⟨(C16_first_violation_only badMintEnv connectedState (by decide) rfl).1 (by decide),
   (C16_first_violation_only badSaleEnv connectedState (by decide) rfl).2.2.1 (by decide)⟩

/-- C17, as stated, fails: not every high-impact operation asks for a
confirmation before it estimates and submits. `grantOperatorRole` and
`revokeOperatorRole` never call `confirm`: with a user who would decline every
question they still estimate gas and submit. -/
theorem C17_counterexample :
    (¬ ∀ op ∈ highImpactOperations, ∀ (env : Env) (s : State),
        (∀ q, env.confirm q = false) → ∀ ev ∈ (op env s).log, ev.isEstimateOrSend = false) ∧
    (grantOperatorRole decliningEnv connectedState).log =
      [.buttonBusy labelPending, .request "eth_chainId" "", .read "OPERATOR_ROLE",
       .estimateGas "grantRole" [.str "0x00", .str addrLower],
       .send "grantRole" [.str "0x00", .str addrLower] 1,
       .alert ("⏳ 트랜잭션 전송됨\n\n운영자 권한 부여\n주소: 0xaaaa...aaaa\n\n" ++
         "https://etherscan.io/tx/0xh"),
       .wait "0xh",
       .alert "✅ 운영자 권한 부여 완료!\n\n주소: 0xaaaa...aaaa\n\n트랜잭션 해시: 0xh",
       .setElement "operatorAddress" "", .buttonRestore] ∧
    Event.send "revokeRole" [.str "0x00", .str addrLower] 1 ∈
      (revokeOperatorRole decliningEnv connectedState).log := by
  refine ⟨?_, by decide, by decide⟩
  intro h
  have := h grantOperatorRole (by simp [highImpactOperations]) decliningEnv connectedState
    (fun _ => rfl) (.send "grantRole" [.str "0x00", .str addrLower] 1) (by decide)
  simp [Event.isEstimateOrSend] at this

/-- C17, amended: `grantAdminRole`, `revokeAdminRole`, `startNewRound` and
`withdrawFunds` ask for a confirmation, and they estimate gas and submit only
after the user has confirmed; when the user declines, nothing is estimated or
submitted and an idle guard is idle afterwards. `grantOperatorRole` and
`revokeOperatorRole` never call `confirm`. -/
theorem C17_confirmation_before_submission (env : Env) (s : State)
    (op : Env → State → Run) (hop : op ∈ confirmingOperations) :
    (∀ ev ∈ (op env s).log, ev.isEstimateOrSend = true →
      ∃ q, Event.confirm q ∈ (op env s).log ∧ env.confirm q = true) ∧
    ((∀ q, env.confirm q = false) →
      (∀ ev ∈ (op env s).log, ev.isEstimateOrSend = false) ∧
      (s.isProcessing = false → (op env s).st.isProcessing = false)) ∧
    (∀ ev ∈ (grantOperatorRole env s).log, ev.isConfirm = false) ∧
    (∀ ev ∈ (revokeOperatorRole env s).log, ev.isConfirm = false) := by
  refine ⟨fun ev hev hc => confirmingOperations_confirmed hop hev hc, fun hno => ⟨?_, ?_⟩,
    privileged_noConfirm (roleBody_noConfirm _ _ _ _ env),
    privileged_noConfirm (roleBody_noConfirm _ _ _ _ env)⟩
  · intro ev hev
    cases hc : ev.isEstimateOrSend
    · rfl
    · obtain ⟨q, -, hq⟩ := confirmingOperations_confirmed hop hev hc
      rw [hno q] at hq
      cases hq
  · intro hidle
    have hpriv : op ∈ privilegedOperations := by
      simp only [confirmingOperations, List.mem_cons, List.mem_singleton, List.not_mem_nil,
        or_false] at hop
      rcases hop with rfl | rfl | rfl | rfl <;>
        simp [privilegedOperations, ordinaryOperations]
    obtain ⟨bt, cf, lb, body, handler, -, heq⟩ := privilegedOperations_framed op hpriv
    rw [heq]
    exact privileged_isProcessing hidle

/-- C17, amended, at concrete inputs: `withdrawFunds` submits after the user has
confirmed, and with a user who declines `startNewRound` submits nothing and
releases the guard. -/
theorem C17_confirmation_before_submission_witness :
    (∃ q, Event.confirm q ∈ (withdrawFunds sampleEnv connectedState).log ∧
      sampleEnv.confirm q = true) ∧
    (∀ ev ∈ (startNewRound decliningEnv connectedState).log, ev.isEstimateOrSend = false) ∧
    (startNewRound decliningEnv connectedState).st.isProcessing = false :=
  ⟨(C17_confirmation_before_submission sampleEnv connectedState withdrawFunds
      (by simp [confirmingOperations])).1 (.send "withdraw" [] 1) (by decide) rfl,
   ((C17_confirmation_before_submission decliningEnv connectedState startNewRound
      (by simp [confirmingOperations])).2.1 (fun _ => rfl)).1,
   ((C17_confirmation_before_submission decliningEnv connectedState startNewRound
      (by simp [confirmingOperations])).2.1 (fun _ => rfl)).2 rfl⟩

/-- C18: in every connection state reachable from the initial one (where
`Network` is 1) by calls of `connectWallet`, `disconnectWallet` and
`selectNetwork` and by the notifications `chainChanged` and `accountsChanged`,
whatever the provider answers, `NETWORKS[Network]` is defined; and every such
transition from a reachable state leads to a state where it is defined. -/
theorem C18_network_supported (s : State) (h : WalletReachable s) :
    (NETWORKS (intToString s.Network)).isSome = true ∧
    (∀ t, WalletStep s t → (NETWORKS (intToString t.Network)).isSome = true) ∧
    State.initial.Network = 1 :=
  ⟨(WalletReachable_inv h).1, fun _ hstep => (WalletStep_inv hstep).1 (WalletReachable_inv h).1,
    rfl⟩

/-- C18 at concrete states: connecting on Sepolia selects Sepolia, and a
notification of a change to chain 137 leaves it selected. -/
theorem C18_network_supported_witness :
    (connectWallet sepoliaEnv State.initial).st.Network = 11155111 ∧
    (NETWORKS (intToString (connectWallet sepoliaEnv State.initial).st.Network)).isSome = true ∧
    (onChainChanged sepoliaEnv "0x89" (connectWallet sepoliaEnv State.initial).st).st.Network =
      11155111 ∧
    (NETWORKS (intToString
      (onChainChanged sepoliaEnv "0x89"
        (connectWallet sepoliaEnv State.initial).st).st.Network)).isSome = true :=
  have h : WalletReachable (connectWallet sepoliaEnv State.initial).st :=
    WalletReachable.step _ _ WalletReachable.init (WalletStep.connectWallet sepoliaEnv _)
  ⟨by decide, (C18_network_supported _ h).1, by decide,
    (C18_network_supported _ h).2.1 _ (WalletStep.chainChanged sepoliaEnv "0x89" _)⟩

/-- C19, as stated, fails: a reachable state can hold a signer handle without
a wallet address, and a wallet address without a signer handle. The first
arises when `connectWallet` is granted no account (it has rebuilt the handles
before asking) and when `selectNetwork` is called before connecting; the second
when the account is granted although the library `ethers` is not loaded. -/
theorem C19_counterexample :
    (¬ ∀ s : State, WalletReachable s → (s.ethersSigner.isSome = true ↔ s.WalletAddress ≠ "")) ∧
    (connectWallet noAccountsEnv State.initial).st = ⟨1, "", some 3, some 1, some 2, false, false⟩ ∧
    (selectNetwork sampleEnv 1 State.initial).st = ⟨1, "", some 3, some 1, some 2, false, false⟩ ∧
    (connectWallet { sampleEnv with ethersLoaded := false } State.initial).st =
      ⟨1, addrLower, some 3, none, none, false, false⟩ := by
  refine ⟨?_, by decide, by decide, by decide⟩
  intro h
  have := h _ (WalletReachable.step _ _ WalletReachable.init
    (WalletStep.connectWallet noAccountsEnv _))
  revert this
  decide

/-- C19, amended: in every reachable connection state the signer handle is
present exactly when the provider handle is; `ensureConnected` passes only when
the signer handle and the wallet address are both present; and
`disconnectWallet` leaves neither. -/
theorem C19_handles_paired (s : State) (h : WalletReachable s) :
    (s.ethersSigner.isSome = true ↔ s.ethersProvider.isSome = true) ∧
    (∀ env : Env, (ensureConnected env s).res = .ok () →
      s.ethersSigner.isSome = true ∧ s.WalletAddress ≠ "") ∧
    (disconnectWallet s).st.ethersSigner = none ∧ (disconnectWallet s).st.WalletAddress = "" := by
  refine ⟨?_, ?_, rfl, rfl⟩
  · have := (WalletReachable_inv h).2
    unfold State.handlesPaired at this
    rw [this]
  · intro env hres
    rw [ensureConnected_eq] at hres
    split at hres
    · rename_i hc
      unfold connected at hc
      simp only [Bool.and_eq_true, bne_iff_ne, ne_eq] at hc
      refine ⟨hc.1.2, fun hw => hc.2 ?_⟩
      rw [hw]
    · simp at hres

/-- C19, amended, at a concrete state: after connecting in the sample outside
both handles and the address are present. -/
theorem C19_handles_paired_witness :
    ((connectWallet sampleEnv State.initial).st.ethersSigner.isSome = true ↔
      (connectWallet sampleEnv State.initial).st.ethersProvider.isSome = true) ∧
    (connectWallet sampleEnv State.initial).st.ethersSigner.isSome = true ∧
    (connectWallet sampleEnv State.initial).st.WalletAddress ≠ "" :=
  have h := C19_handles_paired (connectWallet sampleEnv State.initial).st
    (WalletReachable.step _ _ WalletReachable.init (WalletStep.connectWallet sampleEnv _))
  ⟨h.1, h.2.1 sampleEnv rfl⟩

/-- C20, the code at the failing input: from the initial state, with a provider
that grants an account and is on chain 137, `connectWallet` alerts that the
network is not supported and returns, but the wallet address has been assigned
and the handles rebuilt, so `ensureConnected` passes; `Network` is unchanged
and the page is not put in connected mode. On the two other failure paths the
claim holds: without a provider nothing is changed, and with no account granted
the wallet address and `Network` are unchanged, so `ensureConnected` fails
when the wallet was disconnected. -/
theorem C20_connectWallet_unsupported_chain :
    (connectWallet polygonEnv State.initial).log =
      [.request "eth_requestAccounts" "", .request "eth_chainId" "",
       .alert msgUnsupportedChain] ∧
    (connectWallet polygonEnv State.initial).st = ⟨1, addrLower, some 3, some 1, some 2, false, false⟩ ∧
    (ensureConnected polygonEnv (connectWallet polygonEnv State.initial).st).res = .ok () ∧
    (∀ (env : Env) (s : State), env.ethereum = false → (connectWallet env s).st = s) ∧
    (∀ (env : Env) (s : State), env.requestAccounts = .ok [] →
      (connectWallet env s).st.WalletAddress = s.WalletAddress ∧
      (connectWallet env s).st.Network = s.Network ∧
      (s.WalletAddress = "" →
        (ensureConnected env (connectWallet env s).st).res =
          .error (mkError "WALLET_NOT_CONNECTED"))) := by
  refine ⟨by decide, by decide, rfl, ?_, ?_⟩
  · intro env s he
    rw [connectWallet_st]
    simp [connectWalletTry, he]
  · intro env s ha
    have h := rebuildProviders_keeps env s
    rw [connectWallet_st]
    have key : (connectWalletTry env s).st.WalletAddress = s.WalletAddress ∧
        (connectWalletTry env s).st.Network = s.Network := by
      unfold connectWalletTry
      split
      · exact ⟨rfl, rfl⟩
      · simp only [ha]
        exact ⟨h.2.1, h.1⟩
    refine ⟨key.1, key.2, fun hw => ?_⟩
    unfold ensureConnected
    rw [key.1, hw]
    simp

/-- C21, as stated, fails: after a `chainChanged` notification with a chain id
that is not in `NETWORKS`, a privileged operation does estimate gas and submit.
The handler only shows an alert; the state is what it was, `Network` included.
`ownerMint`, with the provider on chain 137 and a user who rejects the switch
back, reports the failed switch and goes on to estimate and submit. -/
theorem C21_counterexample :
    (¬ ∀ op ∈ privilegedOperations, ∀ (env : Env) (chainId : String) (s : State),
        NETWORKS (chainKey (parseInt16 chainId)) = none →
        ∀ ev ∈ (op env (onChainChanged env chainId s).st).log, ev.isEstimateOrSend = false) ∧
    (onChainChanged refusingEnv "0x89" connectedState).st = connectedState ∧
    (ownerMint refusingEnv (onChainChanged refusingEnv "0x89" connectedState).st).log =
      [.buttonBusy labelPending, .request "eth_chainId" "",
       .request "wallet_switchEthereumChain" "0x1", .errorLog "네트워크 전환 실패:",
       .alert "네트워크 전환에 실패했습니다.\n\n트랜잭션을 취소하였습니다.",
       .estimateGas "safeMint" [.str addrLower, .str "5"],
       .send "safeMint" [.str addrLower, .str "5"] 1,
       .alert "⏳ 트랜잭션 전송됨\n\n트랜잭션 해시: 0xh\n\nhttps://etherscan.io/tx/0xh",
       .wait "0xh",
       .alert "✅ 민팅 완료!\n\n수량: 5개\n받는 주소: 0xaaaa...aaaa\n\n트랜잭션 해시: 0xh",
       .setElement "walletAddress" "0xaaaa...aaaa", .refresh "updateWalletInfo",
       .refresh "loadContractState", .setElement "mintTo" "", .setElement "mintAmount" "",
       .buttonRestore] := by
  refine ⟨?_, by decide, by decide⟩
  intro h
  have := h ownerMint (by simp [privilegedOperations, ordinaryOperations]) refusingEnv "0x89"
    connectedState (by decide) (.send "safeMint" [.str addrLower, .str "5"] 1) (by decide)
  simp [Event.isEstimateOrSend] at this

/-- C21, amended: a `chainChanged` notification with a chain id that is not in
`NETWORKS` shows the alert and changes nothing: `Network` keeps its value, which
stays a key of `NETWORKS` if it was one, and every privileged operation
attempted afterwards runs exactly as it would have run without the
notification. -/
theorem C21_unsupported_chain_notification (env : Env) (chainId : String) (s : State)
    (h : NETWORKS (chainKey (parseInt16 chainId)) = none) :
    onChainChanged env chainId s = ⟨s, [.alert msgChangedToUnsupported], .ok ()⟩ ∧
    (onChainChanged env chainId s).st.Network = s.Network ∧
    (s.networkSupported → (onChainChanged env chainId s).st.networkSupported) ∧
    (∀ op ∈ privilegedOperations, ∀ later : Env,
      op later (onChainChanged env chainId s).st = op later s) := by
  have key := onChainChanged_unsupported env chainId s h
  refine ⟨key, by rw [key], fun hs => by rw [key]; exact hs, fun op _ later => by rw [key]⟩

/-- C21, amended, at a concrete input: the notification of chain 137 in the
connected sample state. -/
theorem C21_unsupported_chain_notification_witness :
    onChainChanged sampleEnv "0x89" connectedState =
      ⟨connectedState, [.alert msgChangedToUnsupported], .ok ()⟩ ∧
    (onChainChanged sampleEnv "0x89" connectedState).st.Network = connectedState.Network :=
  ⟨(C21_unsupported_chain_notification sampleEnv "0x89" connectedState (by decide)).1,
   (C21_unsupported_chain_notification sampleEnv "0x89" connectedState (by decide)).2.1⟩

/-- C22, as stated, fails: `checkAndSwitchNetwork` with a selected chain that is
not in `NETWORKS` does make a provider request. It asks for the chain id first,
and only then `switchNetwork` shows the alert; it completes normally. -/
theorem C22_counterexample :
    (¬ ∀ (env : Env) (s : State), NETWORKS (intToString s.Network) = none →
        ∀ ev ∈ (checkAndSwitchNetwork env s).log, ev.isProviderCall = false) ∧
    (checkAndSwitchNetwork sampleEnv { connectedState with Network := 137 }).log =
      [.request "eth_chainId" "", .alert msgUnsupportedTarget] ∧
    (checkAndSwitchNetwork sampleEnv { connectedState with Network := 137 }).res = .ok () := by
  refine ⟨?_, by decide, rfl⟩
  intro h
  have := h sampleEnv { connectedState with Network := 137 } (by decide)
    (.request "eth_chainId" "") (by decide)
  simp [Event.isProviderCall] at this

/-- C22, amended: for a chain id that is not in `NETWORKS`, `selectNetwork` and
`switchNetwork` show the alert and return without any provider request, and
`selectNetwork` leaves the whole state unchanged. `checkAndSwitchNetwork`, when
the selected chain is such an id, makes no other provider request than the
reading of the chain id, which it makes whenever there is a provider. -/
theorem C22_unsupported_target (env : Env) (targetChainId : Int) (s : State)
    (h : NETWORKS (intToString targetChainId) = none) :
    selectNetwork env targetChainId s = ⟨s, [.alert msgUnsupportedTarget], .ok ()⟩ ∧
    switchNetwork env targetChainId = ([.alert msgUnsupportedTarget], .ok false) ∧
    (s.Network = targetChainId →
      (∀ ev ∈ (checkAndSwitchNetwork env s).log, ev.isProviderCall = true →
        ev = .request "eth_chainId" "") ∧
      (env.ethereum = true →
        Event.request "eth_chainId" "" ∈ (checkAndSwitchNetwork env s).log)) :=
  ⟨selectNetwork_unsupported env targetChainId s h, switchNetwork_unsupported env targetChainId h,
    fun hs => checkAndSwitchNetwork_unsupported env s (by rw [hs]; exact h)⟩

/-- C22, amended, at a concrete input: the chain id 137. -/
theorem C22_unsupported_target_witness :
    selectNetwork sampleEnv 137 connectedState =
      ⟨connectedState, [.alert msgUnsupportedTarget], .ok ()⟩ ∧
    switchNetwork sampleEnv 137 = ([.alert msgUnsupportedTarget], .ok false) :=
  ⟨(C22_unsupported_target sampleEnv 137 connectedState (by decide)).1,
   (C22_unsupported_target sampleEnv 137 connectedState (by decide)).2.1⟩

/-- C23, as stated, fails: after `selectNetwork` with a supported target,
`Network` is not always the chain the provider reports in the last reading.
With the provider on chain 137 and a user who rejects the switch to Sepolia,
the last reading reports chain 137 and `Network` becomes Sepolia, the
target. -/
theorem C23_counterexample :
    (¬ ∀ (env : Env) (targetChainId : Int) (s : State) (chainIdHex : String) (v : Int),
        (NETWORKS (intToString targetChainId)).isSome = true → env.ethereum = true →
        lastChainRead env targetChainId = .ok chainIdHex → parseInt16 chainIdHex = some v →
        (selectNetwork env targetChainId s).st.Network = v) ∧
    lastChainRead refusingEnv 11155111 = .ok "0x89" ∧ parseInt16 "0x89" = some 137 ∧
    (selectNetwork refusingEnv 11155111 connectedState).st.Network = 11155111 := by
  refine ⟨?_, rfl, by decide, by decide⟩
  intro h
  have := h refusingEnv 11155111 connectedState "0x89" 137 (by decide) rfl rfl (by decide)
  revert this
  decide

/-- C23, amended: after `selectNetwork` with a supported target and a provider,
when `switchNetwork` returns (the switch request being accepted, refused or
failed), `Network` is the chain the provider reports in the last reading of the
chain id when that chain is in `NETWORKS`, and the target when the reported
chain is not in `NETWORKS` or the reading fails. When `switchNetwork` throws,
which it does exactly when the `code` of the rejection of the switch request
cannot be read (the rejection is `undefined`, `null`, or an object whose `code`
is a getter that throws), `selectNetwork` stops there: it makes no reading and
leaves the whole state, `Network` included, as it was. Without a provider
`Network` is the target. -/
theorem C23_resync_after_select (env : Env) (targetChainId : Int) (s : State)
    (ht : (NETWORKS (intToString targetChainId)).isSome = true) :
    (env.ethereum = true →
      (∀ b, (switchNetwork env targetChainId).2 = .ok b →
        (∀ chainIdHex v, lastChainRead env targetChainId = .ok chainIdHex →
          parseInt16 chainIdHex = some v → (NETWORKS (intToString v)).isSome = true →
          (selectNetwork env targetChainId s).st.Network = v) ∧
        (∀ chainIdHex, lastChainRead env targetChainId = .ok chainIdHex →
          NETWORKS (chainKey (parseInt16 chainIdHex)) = none →
          (selectNetwork env targetChainId s).st.Network = targetChainId) ∧
        (∀ e, lastChainRead env targetChainId = .error e →
          (selectNetwork env targetChainId s).st.Network = targetChainId)) ∧
      (∀ x, (switchNetwork env targetChainId).2 = .error x →
        selectNetwork env targetChainId s =
          ⟨s, (switchNetwork env targetChainId).1, .error x⟩ ∧
        (∀ ev ∈ (switchNetwork env targetChainId).1, ev ≠ .request "eth_chainId" "") ∧
        ∃ info e, NETWORKS (intToString targetChainId) = some info ∧
          env.switchChain info.chainIdHex = .error e ∧ getProp e "code" = .error x ∧
          (e = .undefined ∨ e = .null ∨
            ∃ props toStr, e = .obj props toStr ∧ props.lookup "code" = some none))) ∧
    (env.ethereum = false → (selectNetwork env targetChainId s).st.Network = targetChainId) := by
  constructor
  · intro he
    constructor
    · intro b hb
      have key := selectNetwork_Network env targetChainId s ht he ⟨b, hb⟩
      refine ⟨?_, ?_, ?_⟩
      · intro chainIdHex v hr hv hsome
        rw [key, hr]
        exact (realOrTarget_cases chainIdHex targetChainId).1 v hv hsome
      · intro chainIdHex hr hnone
        rw [key, hr]
        exact (realOrTarget_cases chainIdHex targetChainId).2 hnone
      · intro e hr
        rw [key, hr]
    · intro x hx
      obtain ⟨info, e, hn, hs, hc⟩ := switchNetwork_throws hx
      refine ⟨selectNetwork_of_throw env targetChainId s ht he hx, ?_,
        info, e, hn, hs, hc, getProp_error hc⟩
      intro ev hev
      unfold switchNetwork at hev
      simp only [hn, hs, hc, List.mem_singleton] at hev
      subst hev
      simp
  · intro he
    unfold selectNetwork
    cases hn : NETWORKS (intToString targetChainId) with
    | none => rw [hn] at ht; cases ht
    | some info =>
      simp only [he, Bool.false_eq_true, if_false, Run.andThen]
      rw [(afterNetworkChange_keeps env _).1]

/-- C23, amended, at concrete inputs: the switch to Sepolia accepted by a
provider that ends on Sepolia, refused by a provider that stays on chain 137,
and rejected with `undefined`. -/
theorem C23_resync_after_select_witness :
    (selectNetwork sepoliaEnv 11155111 connectedState).st.Network = 11155111 ∧
    (selectNetwork refusingEnv 11155111 connectedState).st.Network = 11155111 ∧
    selectNetwork undefinedRejectionEnv 11155111 connectedState =
      ⟨connectedState, (switchNetwork undefinedRejectionEnv 11155111).1,
        .error (typeError "Cannot read properties of undefined")⟩ :=
  ⟨(((C23_resync_after_select sepoliaEnv 11155111 connectedState (by decide)).1 rfl).1
      true rfl).1 "0xaa36a7" 11155111 rfl (by decide) (by decide),
   (((C23_resync_after_select refusingEnv 11155111 connectedState (by decide)).1 rfl).1
      false rfl).2.1 "0x89" rfl (by decide),
   (((C23_resync_after_select undefinedRejectionEnv 11155111 connectedState (by decide)).1
      rfl).2 (typeError "Cannot read properties of undefined") rfl).1⟩

/-- C24, as stated, fails: after a switch request that failed with the code
4902 and an add-chain request that succeeded, `switchNetwork` does not send the
switch request again. It sends one switch request and one add-chain request
and returns `true`. -/
theorem C24_counterexample :
    (¬ ∀ (env : Env) (targetChainId : Int) (info : NetworkInfo) (e : JSVal),
        NETWORKS (intToString targetChainId) = some info →
        env.switchChain info.chainIdHex = .error e → getProp e "code" = .ok (.num 4902) →
        env.addChain info.chainIdHex = .ok () →
        2 ≤ ((switchNetwork env targetChainId).1.filter Event.isSwitchRequest).length) ∧
    (switchNetwork unknownChainEnv 11155111).1 =
      [.request "wallet_switchEthereumChain" "0xaa36a7",
       .addChain ⟨"0xaa36a7", "Sepolia Testnet", "ETH", "ETH", 18, ["https://rpc.sepolia.org/"],
         ["https://sepolia.etherscan.io"]⟩] ∧
    (switchNetwork unknownChainEnv 11155111).2.toOption = some true := by
  refine ⟨?_, by decide, by decide⟩
  intro h
  have := h unknownChainEnv 11155111 _ (codedError 4902) rfl rfl rfl rfl
  revert this
  decide

/-- C24, amended: when the switch request fails with a raw failure whose `code`
is 4902, `switchNetwork` sends one add-chain request, built from the entry of
the target in `NETWORKS` (its `chainIdHex`, its `chainName`, its native
currency as name and symbol with 18 decimals, its `rpcUrls` and its
`blockExplorerUrls`); when that request succeeds it returns `true` without
another switch request, and when it fails it logs, alerts and returns `false`.
For a switch failure with any other `code` it sends no add-chain request,
logs, alerts and returns `false` without a retry. -/
theorem C24_add_chain_on_4902 (env : Env) (targetChainId : Int) (info : NetworkInfo)
    (e code : JSVal) (hn : NETWORKS (intToString targetChainId) = some info)
    (hs : env.switchChain info.chainIdHex = .error e) (hc : getProp e "code" = .ok code) :
    (isNum code 4902 = true → env.addChain info.chainIdHex = .ok () →
      switchNetwork env targetChainId =
        ([.request "wallet_switchEthereumChain" info.chainIdHex,
          .addChain ⟨info.chainIdHex, info.chainName, info.nativeCurrency, info.nativeCurrency,
            18, info.rpcUrls, info.blockExplorerUrls⟩], .ok true)) ∧
    (isNum code 4902 = true → ∀ addError, env.addChain info.chainIdHex = .error addError →
      switchNetwork env targetChainId =
        ([.request "wallet_switchEthereumChain" info.chainIdHex,
          .addChain ⟨info.chainIdHex, info.chainName, info.nativeCurrency, info.nativeCurrency,
            18, info.rpcUrls, info.blockExplorerUrls⟩, .errorLog "네트워크 추가 실패:",
          .alert ("네트워크 추가에 실패했습니다.\n\n" ++ friendlyError addError)], .ok false)) ∧
    (isNum code 4902 = false →
      switchNetwork env targetChainId =
        ([.request "wallet_switchEthereumChain" info.chainIdHex,
          .errorLog "네트워크 전환 실패:",
          .alert ("네트워크 전환에 실패했습니다.\n\n" ++ friendlyError e)], .ok false)) :=
  switchNetwork_on_failure env targetChainId info e code hn hs hc

/-- C24, amended, at concrete inputs: a provider that does not know Sepolia and
adds it, and a user who rejects the switch. -/
theorem C24_add_chain_on_4902_witness :
    switchNetwork unknownChainEnv 11155111 =
      ([.request "wallet_switchEthereumChain" "0xaa36a7",
        .addChain ⟨"0xaa36a7", "Sepolia Testnet", "ETH", "ETH", 18, ["https://rpc.sepolia.org/"],
          ["https://sepolia.etherscan.io"]⟩], .ok true) ∧
    switchNetwork refusingEnv 11155111 =
      ([.request "wallet_switchEthereumChain" "0xaa36a7", .errorLog "네트워크 전환 실패:",
        .alert ("네트워크 전환에 실패했습니다.\n\n" ++ friendlyError (codedError 4001))],
        .ok false) :=
  ⟨(C24_add_chain_on_4902 unknownChainEnv 11155111
      ⟨"sepolia", "https://sepolia.etherscan.io", "Sepolia Testnet", "ETH", "0xaa36a7",
        ["https://rpc.sepolia.org/"], ["https://sepolia.etherscan.io"], true⟩
      (codedError 4902) (.num 4902) rfl rfl rfl).1 rfl rfl,
   (C24_add_chain_on_4902 refusingEnv 11155111
      ⟨"sepolia", "https://sepolia.etherscan.io", "Sepolia Testnet", "ETH", "0xaa36a7",
        ["https://rpc.sepolia.org/"], ["https://sepolia.etherscan.io"], true⟩
      (codedError 4001) (.num 4001) rfl rfl rfl).2.2 rfl⟩

/-- C25: an `accountsChanged` notification with an empty list clears the wallet
address and the three handles, leaves `Network` and the guard alone, and
`ensureConnected` fails afterwards whatever the outside is; a notification
whose first account is the current wallet address does nothing at all; and a
notification with a different first account makes that account the wallet
address and changes neither `Network` nor the guard; the handler then
completes normally, unless `getContractAddress` throws during the refresh of
the wallet panel, whose throw leaves the handler. -/
theorem C25_accounts_changed (env : Env) (s : State) :
    (onAccountsChanged env [] s).st =
      { s with WalletAddress := "", web3 := none, ethersProvider := none,
               ethersSigner := none } ∧
    (∀ later : Env, (ensureConnected later (onAccountsChanged env [] s).st).res =
      .error (mkError "WALLET_NOT_CONNECTED")) ∧
    (∀ rest, onAccountsChanged env (s.WalletAddress :: rest) s = ⟨s, [], .ok ()⟩) ∧
    (∀ account rest, account ≠ s.WalletAddress →
      (onAccountsChanged env (account :: rest) s).st.WalletAddress = account ∧
      (onAccountsChanged env (account :: rest) s).st.Network = s.Network ∧
      (onAccountsChanged env (account :: rest) s).st.isProcessing = s.isProcessing ∧
      (∀ address, env.getContractAddress s.Network = .ok address →
        (onAccountsChanged env (account :: rest) s).res = .ok ()) ∧
      ((onAccountsChanged env (account :: rest) s).res = .ok () ∨
        ∃ e, env.getContractAddress s.Network = .error e ∧
          (onAccountsChanged env (account :: rest) s).res = .error e)) ∧
    (onAccountsChanged sampleEnv [] connectedState).st = ⟨1, "", none, none, none, false, false⟩ ∧
    (onAccountsChanged sampleEnv [addrOther] connectedState).st.WalletAddress = addrOther ∧
    (onAccountsChanged sampleEnv [addrOther] connectedState).res = .ok () := by
  refine ⟨rfl, fun later => ?_, fun rest => ?_, fun account rest hne => ?_, by decide,
    by decide, rfl⟩
  · simp [onAccountsChanged, disconnectWallet, ensureConnected]
  · simp [onAccountsChanged]
  · have k := refreshWallet_keeps env { s with WalletAddress := account }
    have hu := updateWalletInfo_isProcessing env { s with WalletAddress := account }
    have hres : ((updateWalletInfo env { s with WalletAddress := account }).andThen fun s =>
        loadContractState env s).res = .ok () ∨
        ∃ e, env.getContractAddress s.Network = .error e ∧
          ((updateWalletInfo env { s with WalletAddress := account }).andThen fun s =>
            loadContractState env s).res = .error e := by
      rcases updateWalletInfo_res env { s with WalletAddress := account } with h | ⟨e, he, h⟩
      · left
        simp only [Run.andThen, h, loadContractState_res]
      · right
        exact ⟨e, he, by simp only [Run.andThen, h]⟩
    simp only [onAccountsChanged, bne_iff_ne, ne_eq, hne, not_false_eq_true, if_true]
    refine ⟨k.2.1, k.1, ?_, ?_, hres⟩
    · exact (Run.andThen_st_of (fun t => t.isProcessing = s.isProcessing) hu
        (by rw [loadContractState_st]; exact hu))
    · intro address ha
      rcases hres with h | ⟨e, he, _⟩
      · exact h
      · rw [ha] at he
        cases he

/-- C26: when the count input and the container exist, `renderWhitelistInputs`
leaves no slot when the count is not a number, and otherwise leaves exactly `n`
slots, where `n` is the integer `parseInt` reads from the count, bounded to
1..100. When the container already holds `n` slots and `force` is false,
nothing is changed; in every case a slot at a position below both the old and
the new count holds the value it held, and the slots of other containers are
not touched. Reading `1..100`: the count 0 gives one slot and the count 250
gives 100. -/
theorem C26_renderWhitelistInputs (env : Env) (mode : String) (force : Bool)
    (oldValues : List String) (hcount : env.present (whitelistCountId mode) = true)
    (hwrap : env.slots (whitelistWrapId mode) = some oldValues) :
    (parseInt10 (jsTrim (env.value (whitelistCountId mode))) = none →
      (renderWhitelistInputs env mode force).1.slots (whitelistWrapId mode) = some []) ∧
    (∀ k, parseInt10 (jsTrim (env.value (whitelistCountId mode))) = some k →
      ∃ new, (renderWhitelistInputs env mode force).1.slots (whitelistWrapId mode) = some new ∧
        (new.length : Int) = max 1 (min 100 k) ∧
        1 ≤ new.length ∧ new.length ≤ 100 ∧
        (1 ≤ k → k ≤ 100 → (new.length : Int) = k) ∧
        (force = false → (oldValues.length : Int) = max 1 (min 100 k) →
          renderWhitelistInputs env mode force = (env, [])) ∧
        (∀ i, i < oldValues.length → i < new.length →
          new.getD i "" = oldValues.getD i "")) ∧
    (∀ id, id ≠ whitelistWrapId mode →
      (renderWhitelistInputs env mode force).1.slots id = env.slots id) ∧
    clampInt "0" 1 100 = some 1 ∧ clampInt "250" 1 100 = some 100 ∧
    clampInt " 7 " 1 100 = some 7 ∧ clampInt "abc" 1 100 = none ∧ clampInt "" 1 100 = none := by
  refine ⟨?_, ?_, ?_, by decide, by decide, by decide, by decide, by decide⟩
  · intro hp
    have hc := (clampInt_spec (env.value (whitelistCountId mode)) 1 100 (by norm_num)).1 hp
    simp [renderWhitelistInputs, hcount, hwrap, hc, withSlots]
  · intro k hp
    obtain ⟨hc, hlo, hhi, hin⟩ :=
      (clampInt_spec (env.value (whitelistCountId mode)) 1 100 (by norm_num)).2 k hp
    have hne : ¬ (max 1 (min 100 k) : Int) = 0 := by omega
    by_cases hsame : force = false ∧ (oldValues.length : Int) = max 1 (min 100 k)
    · obtain ⟨hf, hl⟩ := hsame
      have hr : renderWhitelistInputs env mode force = (env, []) := by
        simp [renderWhitelistInputs, hcount, hwrap, hc, hne, hf, hl]
      refine ⟨oldValues, by rw [hr]; exact hwrap, hl, by omega, by omega,
        fun h1 h2 => by rw [hl]; exact hin h1 h2, fun _ _ => hr, fun _ _ _ => rfl⟩
    · have hcond : (!force && ((oldValues.length : Int) == max 1 (min 100 k))) = false := by
        cases force
        · simp only [not_and, true_implies] at hsame
          simp [hsame]
        · simp
      have hr : (renderWhitelistInputs env mode force).1 =
          withSlots env (whitelistWrapId mode)
            ((List.range (max 1 (min 100 k) : Int).toNat).map fun i => oldValues.getD i "") := by
        simp [renderWhitelistInputs, hcount, hwrap, hc, hne, hcond]
      have hlen : (((List.range (max 1 (min 100 k) : Int).toNat).map
          fun i => oldValues.getD i "").length : Int) = max 1 (min 100 k) := by
        simp only [List.length_map, List.length_range]
        omega
      refine ⟨_, by rw [hr]; simp [withSlots], hlen, by omega, by omega,
        fun h1 h2 => by rw [hlen]; exact hin h1 h2, fun hf hl => absurd ⟨hf, hl⟩ hsame,
        fun i _ hi => ?_⟩
      simp only [List.length_map, List.length_range] at hi
      exact getD_map_range _ _ _ hi
  · intro id hid
    unfold renderWhitelistInputs
    simp only [hcount, hwrap, Bool.not_true, Bool.false_eq_true, if_false]
    repeat' split
    all_goals simp [withSlots, hid]

/-- C26 at concrete inputs: three filled slots and the count 5 give five slots,
the three values kept and two empty ones added; the count 2 keeps the first two
values. -/
theorem C26_renderWhitelistInputs_witness :
    (∃ new, (renderWhitelistInputs { sampleEnv with value := fun _ => "5" } "add" false).1.slots
        (whitelistWrapId "add") = some new ∧
      (new.length : Int) = max 1 (min 100 5) ∧ 1 ≤ new.length ∧ new.length ≤ 100 ∧
      (1 ≤ (5 : Int) → (5 : Int) ≤ 100 → (new.length : Int) = 5) ∧
      (false = false → (([addrUpper, addrLower, addrOther] : List String).length : Int) =
          max 1 (min 100 5) →
        renderWhitelistInputs { sampleEnv with value := fun _ => "5" } "add" false =
          ({ sampleEnv with value := fun _ => "5" }, [])) ∧
      (∀ i, i < ([addrUpper, addrLower, addrOther] : List String).length → i < new.length →
        new.getD i "" = ([addrUpper, addrLower, addrOther] : List String).getD i "")) ∧
    (renderWhitelistInputs { sampleEnv with value := fun _ => "5" } "add" false).1.slots
      "whitelistAddInputs" = some [addrUpper, addrLower, addrOther, "", ""] ∧
    (renderWhitelistInputs { sampleEnv with value := fun _ => "2" } "remove" false).1.slots
      "whitelistRemoveInputs" = some [addrUpper, addrLower] :=
  ⟨(C26_renderWhitelistInputs { sampleEnv with value := fun _ => "5" } "add" false
      [addrUpper, addrLower, addrOther] rfl rfl).2.1 5 (by decide),
   by decide, by decide⟩

/-- C27: `previewWhitelistDynamic` only assigns the text of the preview
element, which is not the container of the slots, so the entries are as they
were. For a non-empty list of collected entries the text is `previewText`: it
gives the number of entries, the number of valid ones and the number of valid
ones that differ when letter case is ignored, then the invalid entries, each
with its position counted from 1; at most the first 10 are listed, and the line
`- ...` is added when, and only when, there are more than 10. -/
theorem C27_previewWhitelistDynamic (env : Env) (mode : String) (raw : List String) :
    (∀ ev ∈ previewWhitelistDynamic env mode,
      ∃ text, ev = .setElement (whitelistPreviewId mode) text) ∧
    whitelistPreviewId mode ≠ whitelistWrapId mode ∧
    (env.present (whitelistPreviewId mode) = true →
      collectWhitelistAddresses env mode ≠ [] →
      previewWhitelistDynamic env mode =
        [.setElement (whitelistPreviewId mode)
          (previewText (collectWhitelistAddresses env mode))]) ∧
    previewText raw =
      "입력: " ++ natToString raw.length ++ "개\n" ++
      "유효: " ++
        natToString (raw.filter (fun a => isValidEthereumAddress (.str a))).length ++
        "개 (유니크: " ++
        natToString (((raw.filter (fun a => isValidEthereumAddress (.str a))).toFinset.image
          lowerString).card) ++ "개)\n" ++
      previewInvalidText
        (((raw.enumFrom 0).filter (fun p => !isValidEthereumAddress (.str p.2))).map
          (fun p => natToString (p.1 + 1) ++ "번: " ++ p.2)) ∧
    (∀ invalid : List String,
      (invalid.take 10).length ≤ 10 ∧
      (invalid = [] → previewInvalidText invalid = "") ∧
      (invalid ≠ [] → invalid.length ≤ 10 →
        previewInvalidText invalid =
          "\n❌ 잘못된 주소:\n- " ++ String.intercalate "\n- " invalid ++ "") ∧
      (10 < invalid.length →
        previewInvalidText invalid =
          "\n❌ 잘못된 주소:\n- " ++ String.intercalate "\n- " (invalid.take 10) ++ "\n- ...")) ∧
    previewText ["bad", addrUpper, addrLower, addrOther] =
      "입력: 4개\n유효: 3개 (유니크: 2개)\n\n❌ 잘못된 주소:\n- 1번: bad" ∧
    previewText (List.replicate 11 "x") =
      "입력: 11개\n유효: 0개 (유니크: 0개)\n\n❌ 잘못된 주소:\n- 1번: x\n- 2번: x\n- 3번: x\n- 4번: x\n- 5번: x\n- 6번: x\n- 7번: x\n- 8번: x\n- 9번: x\n- 10번: x\n- ..." := by
  refine ⟨?_, ?_, ?_, ?_, ?_, by decide, by decide⟩
  · intro ev hev
    unfold previewWhitelistDynamic at hev
    split at hev
    · simp at hev
    · dsimp only at hev
      split at hev
      · exact ⟨_, by simpa using hev⟩
      · exact ⟨_, by simpa using hev⟩
  · unfold whitelistPreviewId whitelistWrapId
    split <;> decide
  · intro hp hne
    have hlen : (collectWhitelistAddresses env mode).length ≠ 0 := by
      intro h0
      exact hne (List.length_eq_zero.1 h0)
    simp [previewWhitelistDynamic, hp, hlen]
  · have hu : previewUnique (raw.filter (fun a => isValidEthereumAddress (.str a))) =
        ((raw.filter (fun a => isValidEthereumAddress (.str a))).toFinset.image lowerString).card := by
      unfold previewUnique
      rw [uniqueArray_length_eq_card]
      congr 1
      ext x
      simp
    unfold previewText
    rw [previewPartition_eq]
    dsimp only
    rw [hu]
  · intro invalid
    refine ⟨by simp, ?_, ?_, ?_⟩
    · intro h
      subst h
      rfl
    · intro hne hle
      have hlen : invalid.length ≠ 0 := by
        intro h0
        exact hne (List.length_eq_zero.1 h0)
      have hnot : ¬ invalid.length > 10 := by omega
      simp [previewInvalidText, hlen, hnot, List.take_of_length_le hle]
    · intro hgt
      have hlen : invalid.length ≠ 0 := by omega
      simp [previewInvalidText, hlen, hgt]

/-- C28: every gas limit sent by an ordinary privileged operation is
`g * 120 / 100` rounded down, for the gas estimate `g` of the same call, and
every gas limit sent by `startNewRound` is `g * 130 / 100` rounded down; the
limit is at least `g` and at most `g * 1.2` (respectively `g * 1.3`), and it
grows with `g`. -/
theorem C28_gas_limit_bounds (env : Env) (s : State) :
    (∀ op ∈ ordinaryOperations, ∀ (m : String) (args : List Arg) (limit : Nat),
      Event.send m args limit ∈ (op env s).log →
      ∃ g, env.estimateGas m args = .ok g ∧ limit = ⌊(g : ℚ) * 120 / 100⌋₊ ∧
        g ≤ limit ∧ (limit : ℚ) ≤ (g : ℚ) * 1.2) ∧
    (∀ (m : String) (args : List Arg) (limit : Nat),
      Event.send m args limit ∈ (startNewRound env s).log →
      ∃ g, env.estimateGas m args = .ok g ∧ limit = ⌊(g : ℚ) * 130 / 100⌋₊ ∧
        g ≤ limit ∧ (limit : ℚ) ≤ (g : ℚ) * 1.3) ∧
    (∀ g g' : Nat, g ≤ g' → gasLimit 120 g ≤ gasLimit 120 g' ∧ gasLimit 130 g ≤ gasLimit 130 g') ∧
    gasLimit 120 0 = 0 ∧ gasLimit 120 1 = 1 ∧ gasLimit 120 4 = 4 ∧ gasLimit 120 5 = 6 ∧
    gasLimit 130 3 = 3 ∧ gasLimit 130 4 = 5 := by
  refine ⟨?_, ?_, ?_, rfl, rfl, rfl, rfl, rfl, rfl⟩
  · intro op hop m args limit h
    obtain ⟨g, hg, hl⟩ := sendOk_elim (ordinaryOperations_sendsOk env s op hop _ h)
    exact ⟨g, hg, by rw [hl]; exact (gasLimit_bounds 120 g (by norm_num)).1,
      by rw [hl]; exact (gasLimit_bounds 120 g (by norm_num)).2.1,
      by rw [hl]; have := (gasLimit_bounds 120 g (by norm_num)).2.2; norm_num at this ⊢; linarith⟩
  · intro m args limit h
    obtain ⟨g, hg, hl⟩ := sendOk_elim (startNewRound_sendsOk env s _ h)
    exact ⟨g, hg, by rw [hl]; exact (gasLimit_bounds 130 g (by norm_num)).1,
      by rw [hl]; exact (gasLimit_bounds 130 g (by norm_num)).2.1,
      by rw [hl]; have := (gasLimit_bounds 130 g (by norm_num)).2.2; norm_num at this ⊢; linarith⟩
  · intro g g' h
    unfold gasLimit
    exact ⟨Nat.div_le_div_right (Nat.mul_le_mul_right _ h),
      Nat.div_le_div_right (Nat.mul_le_mul_right _ h)⟩

/-- C29, the code at the failing input: the number submitted and the number
previewed come from two different computations. A batch operation passes
`uniqueArray` of the collected entries, which compares the strings exactly,
while the preview counts the entries after lower-casing them. So the previewed
number is at most the submitted one, the two are equal when the entries are
written in lower case, and for an address, its upper-case variant and another
address the preview shows 2 unique addresses while `addWhitelistBatch` and
`removeWhitelistBatch` pass 3 addresses to the contract. -/
theorem C29_preview_and_submission_differ :
    (∀ (env : Env) (s : State) (l : List String) (limit : Nat),
      Event.send "addWhitelist" [.list l] limit ∈ (addWhitelistBatch env s).log →
      l = uniqueArray (collectWhitelistAddresses env "add") ∧
      (previewPartition 0 (collectWhitelistAddresses env "add")).2 =
        collectWhitelistAddresses env "add" ∧
      previewUnique (collectWhitelistAddresses env "add") ≤ l.length) ∧
    (∀ (env : Env) (s : State) (l : List String) (limit : Nat),
      Event.send "removeWhitelist" [.list l] limit ∈ (removeWhitelistBatch env s).log →
      l = uniqueArray (collectWhitelistAddresses env "remove") ∧
      (previewPartition 0 (collectWhitelistAddresses env "remove")).2 =
        collectWhitelistAddresses env "remove" ∧
      previewUnique (collectWhitelistAddresses env "remove") ≤ l.length) ∧
    (∀ raw : List String, (∀ a ∈ raw, lowerString a = a) →
      previewUnique raw = (uniqueArray raw).length) ∧
    collectWhitelistAddresses sampleEnv "add" = [addrUpper, addrLower, addrOther] ∧
    (∀ a ∈ [addrUpper, addrLower, addrOther], isValidEthereumAddress (.str a) = true) ∧
    previewWhitelistDynamic sampleEnv "add" =
      [.setElement "whitelistPreview" "입력: 3개\n유효: 3개 (유니크: 2개)\n"] ∧
    previewWhitelistDynamic sampleEnv "remove" =
      [.setElement "whitelistRemovePreview" "입력: 3개\n유효: 3개 (유니크: 2개)\n"] ∧
    previewUnique [addrUpper, addrLower, addrOther] = 2 ∧
    (uniqueArray [addrUpper, addrLower, addrOther]).length = 3 ∧
    Event.send "addWhitelist" [.list [addrUpper, addrLower, addrOther]] 1 ∈
      (addWhitelistBatch sampleEnv connectedState).log ∧
    Event.send "removeWhitelist" [.list [addrUpper, addrLower, addrOther]] 1 ∈
      (removeWhitelistBatch sampleEnv connectedState).log := by
  have key : ∀ (isAdd : Bool) (tag : String) (env : Env) (s : State) (l : List String)
      (limit : Nat),
      Event.send (if isAdd then "addWhitelist" else "removeWhitelist") [.list l] limit ∈
        (privileged msgBusy none labelPending (whitelistBatchBody isAdd env)
          (reportError tag) env s).log →
      l = uniqueArray (collectWhitelistAddresses env (if isAdd then "add" else "remove")) ∧
      (previewPartition 0 (collectWhitelistAddresses env (if isAdd then "add" else "remove"))).2 =
        collectWhitelistAddresses env (if isAdd then "add" else "remove") ∧
      previewUnique (collectWhitelistAddresses env (if isAdd then "add" else "remove")) ≤
        l.length := by
    intro isAdd tag env s l limit h
    obtain ⟨_, hvalid, hev⟩ := whitelistBatch_calls isAdd h rfl
    have hl : l = uniqueArray (collectWhitelistAddresses env (if isAdd then "add" else "remove")) := by
      rcases hev with hev | ⟨l2, hev⟩ | ⟨hash, hev⟩
      · cases hev
      · injection hev with _ h2 _
        injection h2 with h3 _
        injection h3
      · cases hev
    refine ⟨hl, ?_, ?_⟩
    · rw [previewPartition_eq]
      exact List.filter_eq_self.2 hvalid
    · rw [hl]
      exact previewUnique_le _
  refine ⟨fun env s l limit h => key true _ env s l limit h,
    fun env s l limit h => key false _ env s l limit h, ?_,
    by decide, by decide, by decide, by decide, by decide, by decide, by decide, by decide⟩
  intro raw h
  unfold previewUnique
  have hmap : raw.map lowerString = raw := by
    induction raw with
    | nil => rfl
    | cons a rest ih =>
      rw [List.map_cons, h a (by simp), ih (fun b hb => h b (by simp [hb]))]
  rw [hmap]

/-- C30: `checkAndSwitchNetwork` completes normally and leaves the whole state,
`Network` included, as it was, whatever the provider does; so the code after it
runs from the same state in every case. In particular `ownerMint`, once
connected and idle with a valid form, submits whenever the gas estimation
succeeds, whether or not the provider is on the selected chain: with the
provider on chain 137 and a user who rejects the switch, it reports the failed
switch and submits. -/
theorem C30_checkAndSwitchNetwork_total (env : Env) (s : State) :
    (checkAndSwitchNetwork env s).res = .ok () ∧
    (checkAndSwitchNetwork env s).st = s ∧
    (∀ k : State → Run, (checkAndSwitchNetwork env s).andThen k =
      ⟨(k s).st, (checkAndSwitchNetwork env s).log ++ (k s).log, (k s).res⟩) ∧
    (∀ gas : Nat, connected env s = true → s.isProcessing = false →
      isValidEthereumAddress (.str (jsTrim (env.value "mintTo"))) = true →
      isValidIntegerNum (env.toNumber (jsTrim (env.value "mintAmount"))) 1 100 = true →
      env.newContract = .ok () →
      env.estimateGas "safeMint"
        [.str (jsTrim (env.value "mintTo")), .str (jsTrim (env.value "mintAmount"))] = .ok gas →
      Event.send "safeMint"
        [.str (jsTrim (env.value "mintTo")), .str (jsTrim (env.value "mintAmount"))]
        (gasLimit 120 gas) ∈ (ownerMint env s).log) ∧
    (checkAndSwitchNetwork refusingEnv connectedState).log =
      [.request "eth_chainId" "", .request "wallet_switchEthereumChain" "0x1",
       .errorLog "네트워크 전환 실패:",
       .alert "네트워크 전환에 실패했습니다.\n\n트랜잭션을 취소하였습니다."] ∧
    (checkAndSwitchNetwork { sampleEnv with chainId := .error (mkError "timeout") }
      connectedState).log = [.request "eth_chainId" "", .errorLog "네트워크 확인 실패:"] ∧
    Event.send "safeMint" [.str addrLower, .str "5"] 1 ∈
      (ownerMint refusingEnv connectedState).log := by
  refine ⟨checkAndSwitchNetwork_res env s, checkAndSwitchNetwork_st env s,
    andThen_checkAndSwitchNetwork env s, ?_, by decide, by decide, by decide⟩
  intro gas hc hp h1 h2 hcontract hg
  exact privileged_mem_of_body hc hp (ownerMintBody_submits env _ gas h1 h2 hcontract hg)

end AdminWeb
